import Mathlib

/-!
# BattleCity: a shallow embedding of `battlecity.cpp`

The simulation core of the game (geometry, bullets, player and enemy tanks, the
power-up slot, wave spawning and the world tick `Game::update`) is translated
function by function into Lean definitions; the properties of the
specification are then stated and proved over these definitions.

Conventions of the embedding.

* C++ `int` values are `Int`; all quantities of the game stay far inside the
  32-bit range (coordinates in the 800x800 arena, health at most 1000).
* The player position `x`, `y` is a C++ `float`.  It is initialised from an
  `int` and only ever changed by adding or subtracting `speed = 3.0f` or by
  being set to `0` or `760`, so it always holds an integer of small magnitude,
  which a `float` represents exactly.  It is therefore embedded as `Int`, and
  `static_cast<int>` is the identity on it.
* `Uint32` time stamps are `Nat` below `2^32`, with wrap-around arithmetic.
* `rand()` and `SDL_GetTicks()` are the two sources of nondeterminism.  They
  are modelled by an environment `Env` carrying the stream of future results
  of each; every call consumes the head of its stream.
* Pointers to players are `Option`s (`none` is the null pointer); an enemy's
  `target` pointer is an optional `PlayerSlot` naming which of the two player
  pointers of the game it was copied from, and it is dereferenced against the
  current players when the enemy is updated.
* Rendering, textures and sounds have no effect on the simulation state and
  are left out.
-/

namespace BattleCity

/-! ## Constants -/

def SCREEN_WIDTH : Int := 800
def SCREEN_HEIGHT : Int := 800
def GRID_SIZE : Int := 40
def MAP_ROWS : Nat := 20
def MAP_COLS : Nat := 20

/-! ## Environment: `rand()` and `SDL_GetTicks()` -/

/-- The outside world as seen by the simulation: `rands n` is the result of the
`n`-th future call of `rand()`, `ticks n` that of the `n`-th future call of
`SDL_GetTicks()`. -/
structure Env where
  rands : Nat → Nat
  ticks : Nat → Nat

/-- One call of `rand()`: returns the next value of the stream. -/
def Env.rand (e : Env) : Nat × Env :=
  (e.rands 0, { e with rands := fun n => e.rands (n + 1) })

/-- One call of `SDL_GetTicks()`: the next clock reading, a `Uint32`. -/
def Env.SDL_GetTicks (e : Env) : Nat × Env :=
  (e.ticks 0 % 4294967296, { e with ticks := fun n => e.ticks (n + 1) })

/-- `Uint32` addition. -/
def u32add (a b : Nat) : Nat := (a + b) % 4294967296

/-- `Uint32` subtraction (wraps around). -/
def u32sub (a b : Nat) : Nat := (a % 4294967296 + 4294967296 - b % 4294967296) % 4294967296

/-- The C function `abs` on `int`. -/
def c_abs (a : Int) : Int := if a < 0 then -a else a

/-! ## Geometry -/

structure SDL_Rect where
  x : Int
  y : Int
  w : Int
  h : Int
deriving DecidableEq, Repr

/-- Modelled from the spec: `SDL_HasIntersection` is a function of the SDL
library, which is not part of the source file.  Section 4.1 of the
specification describes it as the standard axis-aligned overlap test in which
touching edges do not intersect; the definition follows the library routine:
an empty rectangle intersects nothing, and otherwise the projections on both
axes must overlap with non-zero extent. -/
def SDL_HasIntersection (A B : SDL_Rect) : Bool :=
  if A.w ≤ 0 ∨ A.h ≤ 0 ∨ B.w ≤ 0 ∨ B.h ≤ 0 then false
  else
    let Amin := A.x
    let Amax := A.x + A.w
    let Bmin := B.x
    let Bmax := B.x + B.w
    let Amin := if Bmin > Amin then Bmin else Amin
    let Amax := if Bmax < Amax then Bmax else Amax
    if Amax ≤ Amin then false
    else
      let Amin := A.y
      let Amax := A.y + A.h
      let Bmin := B.y
      let Bmax := B.y + B.h
      let Amin := if Bmin > Amin then Bmin else Amin
      let Amax := if Bmax < Amax then Bmax else Amax
      if Amax ≤ Amin then false else true

/-- The loop `for (wall : walls) if (SDL_HasIntersection(&r, &wall)) ...` that
stops at the first hit: does `r` intersect some wall? -/
def hitsWall (r : SDL_Rect) (walls : List SDL_Rect) : Bool :=
  walls.any (fun wall => SDL_HasIntersection r wall)

/-! ## Enumerations -/

inductive GameState where
  | STATE_MENU
  | STATE_1P
  | STATE_2P
  | STATE_GAME_OVER
deriving DecidableEq, Repr

inductive PowerUpType where
  | POWERUP_NONE
  | POWERUP_HEALTH
  | POWERUP_FREEZE
  | POWERUP_INVINCIBLE
  | POWERUP_BOMB
deriving DecidableEq, Repr

/-! ## PowerUp -/

structure PowerUp where
  rect : SDL_Rect
  type : PowerUpType
  active : Bool
  spawnTime : Nat
deriving DecidableEq, Repr

/-- The member constant `PowerUp::duration`. -/
def PowerUp.duration : Nat := 10000

/-- The constructor `PowerUp()`; `spawnTime` is left uninitialised by the
source and is only read while `active`, it is given the value `0` here. -/
def PowerUp.new : PowerUp :=
  { rect := ⟨0, 0, GRID_SIZE, GRID_SIZE⟩, type := .POWERUP_NONE, active := false, spawnTime := 0 }

/-- `PowerUp::spawn`. -/
def PowerUp.spawn (pu : PowerUp) (x y : Int) (t : PowerUpType) (e : Env) : PowerUp × Env :=
  let (now, e1) := e.SDL_GetTicks
  ({ pu with rect := { pu.rect with x := x, y := y }, type := t, active := true, spawnTime := now }, e1)

/-- `PowerUp::update`. -/
def PowerUp.update (pu : PowerUp) (e : Env) : PowerUp × Env :=
  if !pu.active then (pu, e)
  else
    let (now, e1) := e.SDL_GetTicks
    if u32sub now pu.spawnTime > PowerUp.duration then ({ pu with active := false }, e1)
    else (pu, e1)

/-! ## Bullet -/

structure Bullet where
  rect : SDL_Rect
  dx : Int
  dy : Int
  active : Bool
deriving DecidableEq, Repr

/-- The constructor `Bullet(rend, x, y, direction)`. -/
def Bullet.new (x y direction : Int) : Bullet :=
  { rect := ⟨x, y, 10, 10⟩
    dx := if direction = 1 ∨ direction = 3 then 5 * (if direction = 1 then -1 else 1) else 0
    dy := if direction = 0 ∨ direction = 2 then 5 * (if direction = 0 then -1 else 1) else 0
    active := true }

/-- `Bullet::update`.  The second argument `wallBreakable` of the source is
never read and is left out. -/
def Bullet.update (b : Bullet) (walls : List SDL_Rect) : Bullet :=
  if !b.active then b
  else
    let rect : SDL_Rect := { b.rect with x := b.rect.x + b.dx, y := b.rect.y + b.dy }
    if hitsWall rect walls then { b with rect := rect, active := false }
    else if rect.x < 0 ∨ rect.x > SCREEN_WIDTH ∨ rect.y < 0 ∨ rect.y > SCREEN_HEIGHT then
      { b with rect := rect, active := false }
    else { b with rect := rect }

/-- The two statements shared by `PlayerTank::updateBullets` and the end of
`EnemyTank::update`: update every bullet, then erase the inactive ones. -/
def updateBulletList (bullets : List Bullet) (walls : List SDL_Rect) : List Bullet :=
  (bullets.map (fun b => b.update walls)).filter (fun b => b.active)

/-! ## PlayerTank -/

structure PlayerTank where
  bullets : List Bullet
  -- 0: up, 1: left, 2: down, 3: right
  direction : Int
  alive : Bool
  x : Int
  y : Int
  -- the array `keys[4]`: keys[0] up, keys[1] left, keys[2] down, keys[3] right
  keyUp : Bool
  keyLeft : Bool
  keyDown : Bool
  keyRight : Bool
  invincible : Bool
  invincibleEndTime : Nat
  health : Int
  rect : SDL_Rect
deriving DecidableEq, Repr

namespace PlayerTank

/-- The member `speed`, set to `3.0f` by the constructor and never changed. -/
def speed : Int := 3
/-- The member constant `width`. -/
def width : Int := GRID_SIZE
/-- The member constant `height`. -/
def height : Int := GRID_SIZE
/-- The member constant `maxHealth`. -/
def maxHealth : Int := 1000

/-- `static_cast<int>` on a player coordinate (an integer-valued `float`). -/
def static_cast_int (v : Int) : Int := v

/-- The constructor `PlayerTank(rend, startX, startY, sound)`. -/
def new (startX startY : Int) : PlayerTank :=
  { bullets := [], direction := 0, alive := true, x := startX, y := startY
    keyUp := false, keyLeft := false, keyDown := false, keyRight := false
    invincible := false, invincibleEndTime := 0, health := maxHealth
    rect := ⟨startX, startY, width, height⟩ }

/-- `PlayerTank::heal`; the source's default argument is `amount = 200`. -/
def heal (p : PlayerTank) (amount : Int) : PlayerTank :=
  if p.health < maxHealth then { p with health := min maxHealth (p.health + amount) } else p

/-- `PlayerTank::takeDamage`. -/
def takeDamage (p : PlayerTank) : PlayerTank :=
  if !p.invincible then
    let p1 := { p with health := p.health - 100 }
    if p1.health ≤ 0 then { p1 with alive := false } else p1
  else p

/-- `PlayerTank::activateInvincible`. -/
def activateInvincible (p : PlayerTank) (duration : Nat) (e : Env) : PlayerTank × Env :=
  if !p.invincible then
    let (now, e1) := e.SDL_GetTicks
    ({ p with invincible := true, invincibleEndTime := u32add now duration }, e1)
  else (p, e)

/-- `PlayerTank::updateInvincible`; the clock is read only when `invincible`
holds (short-circuit `&&`). -/
def updateInvincible (p : PlayerTank) (e : Env) : PlayerTank × Env :=
  if p.invincible then
    let (now, e1) := e.SDL_GetTicks
    if now > p.invincibleEndTime then ({ p with invincible := false }, e1) else (p, e1)
  else (p, e)

/-- `PlayerTank::checkPowerUpCollision`. -/
def checkPowerUpCollision (p : PlayerTank) (powerUpRect : SDL_Rect) : Bool :=
  SDL_HasIntersection p.rect powerUpRect

/-- `PlayerTank::shoot`. -/
def shoot (p : PlayerTank) : PlayerTank :=
  { p with bullets := p.bullets ++ [Bullet.new (p.rect.x + Int.tdiv width 2 - 5)
      (p.rect.y + Int.tdiv height 2 - 5) p.direction] }

/-- The keys `handleInput` reacts to; `other` is any other key code. -/
inductive Key where
  | SDLK_UP | SDLK_LEFT | SDLK_DOWN | SDLK_RIGHT | SDLK_SPACE
  | SDLK_w | SDLK_a | SDLK_s | SDLK_d | SDLK_RETURN
  | other
deriving DecidableEq, Repr

/-- What `handleInput` reads of an `SDL_Event`: whether its type is
`SDL_KEYDOWN`, and the key code `event.key.keysym.sym`. -/
structure SDL_Event where
  keyDown : Bool
  sym : Key
deriving DecidableEq, Repr

/-- `PlayerTank::handleInput`. -/
def handleInput (p : PlayerTank) (event : SDL_Event) (isPlayer1 : Bool) : PlayerTank :=
  if !p.alive then p
  else
    let keyDown := event.keyDown
    if isPlayer1 then
      match event.sym with
      | .SDLK_UP => { p with keyUp := keyDown }
      | .SDLK_LEFT => { p with keyLeft := keyDown }
      | .SDLK_DOWN => { p with keyDown := keyDown }
      | .SDLK_RIGHT => { p with keyRight := keyDown }
      | .SDLK_SPACE => if keyDown then p.shoot else p
      | _ => p
    else
      match event.sym with
      | .SDLK_w => { p with keyUp := keyDown }
      | .SDLK_a => { p with keyLeft := keyDown }
      | .SDLK_s => { p with keyDown := keyDown }
      | .SDLK_d => { p with keyRight := keyDown }
      | .SDLK_RETURN => if keyDown then p.shoot else p
      | _ => p

/-- The first part of `PlayerTank::update`: the tentative position `newX`. -/
def newX (p : PlayerTank) : Int :=
  let newX := p.x
  let newX := if p.keyLeft then newX - speed else newX
  let newX := if p.keyRight then newX + speed else newX
  newX

/-- The first part of `PlayerTank::update`: the tentative position `newY`. -/
def newY (p : PlayerTank) : Int :=
  let newY := p.y
  let newY := if p.keyUp then newY - speed else newY
  let newY := if p.keyDown then newY + speed else newY
  newY

/-- The first part of `PlayerTank::update`: the facing set by the four key
tests, evaluated in the order Up, Down, Left, Right. -/
def newDirection (p : PlayerTank) : Int :=
  let direction := p.direction
  let direction := if p.keyUp then 0 else direction
  let direction := if p.keyDown then 2 else direction
  let direction := if p.keyLeft then 1 else direction
  let direction := if p.keyRight then 3 else direction
  direction

/-- The rectangle `newRect` tested by `PlayerTank::update`. -/
def newRect (p : PlayerTank) : SDL_Rect :=
  ⟨static_cast_int p.newX, static_cast_int p.newY, width, height⟩

/-- The flag `canMove` computed by `PlayerTank::update`. -/
def canMove (p : PlayerTank) (walls : List SDL_Rect) (otherPlayerRect : Option SDL_Rect) : Bool :=
  let canMove := !(hitsWall p.newRect walls)
  match otherPlayerRect with
  | some r => if SDL_HasIntersection p.newRect r then false else canMove
  | none => canMove

/-- The four clamping statements at the end of `PlayerTank::update`. -/
def clamp (p : PlayerTank) : PlayerTank :=
  let p := if p.rect.x < 0 then { p with rect := { p.rect with x := 0 }, x := 0 } else p
  let p := if p.rect.y < 0 then { p with rect := { p.rect with y := 0 }, y := 0 } else p
  let p := if p.rect.x > SCREEN_WIDTH - width then
    { p with rect := { p.rect with x := SCREEN_WIDTH - width }, x := SCREEN_WIDTH - width } else p
  let p := if p.rect.y > SCREEN_HEIGHT - height then
    { p with rect := { p.rect with y := SCREEN_HEIGHT - height }, y := SCREEN_HEIGHT - height } else p
  p

/-- `PlayerTank::update`. -/
def update (p : PlayerTank) (walls : List SDL_Rect) (otherPlayerRect : Option SDL_Rect)
    (e : Env) : PlayerTank × Env :=
  if !p.alive then (p, e)
  else
    let p1 := { p with direction := p.newDirection }
    let p2 :=
      if p.canMove walls otherPlayerRect then
        { p1 with x := p.newX, y := p.newY
                  rect := { p1.rect with x := static_cast_int p.newX, y := static_cast_int p.newY } }
      else p1
    p2.clamp.updateInvincible e

/-- `PlayerTank::updateBullets`. -/
def updateBullets (p : PlayerTank) (walls : List SDL_Rect) : PlayerTank :=
  { p with bullets := updateBulletList p.bullets walls }

end PlayerTank

/-! ## EnemyTank -/

/-- Which of the two player pointers of the game a pointer refers to. -/
inductive PlayerSlot where
  | one
  | two
deriving DecidableEq, Repr

structure EnemyTank where
  rect : SDL_Rect
  bullets : List Bullet
  alive : Bool
  direction : Int
  moveTimer : Int
  moveDuration : Int
  moveSpeed : Int
  -- the pointer `target`: `none` is the null pointer
  target : Option PlayerSlot
  shootCooldown : Int
  frozen : Bool
  freezeEndTime : Nat
deriving DecidableEq, Repr

namespace EnemyTank

/-- The constructor `EnemyTank(rend, x, y, player, ...)`; it draws the initial
heading with `rand() % 4`. -/
def new (x y : Int) (player : Option PlayerSlot) (e : Env) : EnemyTank × Env :=
  let (r, e1) := e.rand
  ({ rect := ⟨x, y, GRID_SIZE, GRID_SIZE⟩, bullets := [], alive := true
     direction := ((r % 4 : Nat) : Int), moveTimer := 0, moveDuration := 50, moveSpeed := 2
     target := player, shootCooldown := 0, frozen := false, freezeEndTime := 0 }, e1)

/-- `EnemyTank::freeze`. -/
def freeze (en : EnemyTank) (duration : Nat) (e : Env) : EnemyTank × Env :=
  let (now, e1) := e.SDL_GetTicks
  ({ en with frozen := true, freezeEndTime := u32add now duration }, e1)

/-- `EnemyTank::updateFreeze`; the clock is read only when `frozen` holds. -/
def updateFreeze (en : EnemyTank) (e : Env) : EnemyTank × Env :=
  if en.frozen then
    let (now, e1) := e.SDL_GetTicks
    if now > en.freezeEndTime then ({ en with frozen := false }, e1) else (en, e1)
  else (en, e)

/-- `EnemyTank::checkCollision`. -/
def checkCollision (newX newY : Int) (walls : List SDL_Rect) : Bool :=
  hitsWall ⟨newX, newY, GRID_SIZE, GRID_SIZE⟩ walls

/-- `EnemyTank::chooseDirectionTowardsPlayer`; `tgt` is the object the pointer
`target` refers to (`none` when the pointer is null). -/
def chooseDirectionTowardsPlayer (en : EnemyTank) (tgt : Option PlayerTank) (e : Env) :
    EnemyTank × Env :=
  match tgt with
  | none => (en, e)
  | some t =>
    let deltaX := en.rect.x - t.rect.x
    let deltaY := en.rect.y - t.rect.y
    let direction : Int :=
      if c_abs deltaX > c_abs deltaY then (if deltaX > 0 then 1 else 3)
      else (if deltaY > 0 then 0 else 2)
    let (r1, e1) := e.rand
    if r1 % 100 < 20 then
      let (r2, e2) := e1.rand
      ({ en with direction := ((r2 % 4 : Nat) : Int) }, e2)
    else ({ en with direction := direction }, e1)

/-- `EnemyTank::move`. -/
def move (en : EnemyTank) (dir : Int) (walls : List SDL_Rect) (tgt : Option PlayerTank)
    (e : Env) : EnemyTank × Env :=
  if en.frozen then (en, e)
  else
    let en := { en with direction := dir }
    let newX := en.rect.x + (if dir = 1 then -en.moveSpeed else if dir = 3 then en.moveSpeed else 0)
    let newY := en.rect.y + (if dir = 0 then -en.moveSpeed else if dir = 2 then en.moveSpeed else 0)
    if newX ≥ 0 ∧ newX + GRID_SIZE ≤ SCREEN_WIDTH ∧ newY ≥ 0 ∧ newY + GRID_SIZE ≤ SCREEN_HEIGHT then
      if !(checkCollision newX newY walls) then
        ({ en with rect := { en.rect with x := newX, y := newY } }, e)
      else en.chooseDirectionTowardsPlayer tgt e
    else en.chooseDirectionTowardsPlayer tgt e

/-- `EnemyTank::shoot`. -/
def shoot (en : EnemyTank) : EnemyTank :=
  if en.frozen then en
  else
    { en with bullets := en.bullets ++ [Bullet.new (en.rect.x + Int.tdiv GRID_SIZE 2 - 5)
        (en.rect.y + Int.tdiv GRID_SIZE 2 - 5) en.direction] }

/-- The firing test of `EnemyTank::update`,
`distanceX + distanceY < shootThreshold && rand() % 100 < 10 && shootCooldown == 0`,
with its short-circuit evaluation: `rand()` is called only when the distance
test passes. -/
def fireTest (en : EnemyTank) (t : PlayerTank) (e : Env) : Bool × Env :=
  let distanceX := c_abs (en.rect.x - t.rect.x)
  let distanceY := c_abs (en.rect.y - t.rect.y)
  let shootThreshold : Int := 200
  if distanceX + distanceY < shootThreshold then
    let (r, e1) := e.rand
    if r % 100 < 10 then (decide (en.shootCooldown = 0), e1) else (false, e1)
  else (false, e)

/-- The branch `if (!target || !target->alive) { ... return; }` of
`EnemyTank::update`: the timer-driven random heading, then the move. -/
def wander (en : EnemyTank) (walls : List SDL_Rect) (tgt : Option PlayerTank) (e : Env) :
    EnemyTank × Env :=
  let en := { en with moveTimer := en.moveTimer + 1 }
  if en.moveTimer ≥ en.moveDuration then
    let (r, e1) := e.rand
    let en := { en with direction := ((r % 4 : Nat) : Int), moveTimer := 0 }
    en.move en.direction walls tgt e1
  else en.move en.direction walls tgt e

/-- The statements of `EnemyTank::update` from the second `moveTimer++` to
`move(direction, walls)`: the timer-driven heading towards the player, then the
move. -/
def seekMove (en : EnemyTank) (walls : List SDL_Rect) (tgt : Option PlayerTank) (e : Env) :
    EnemyTank × Env :=
  let en := { en with moveTimer := en.moveTimer + 1 }
  if en.moveTimer ≥ en.moveDuration then
    let (en1, e1) := en.chooseDirectionTowardsPlayer tgt e
    let en2 := { en1 with moveTimer := 0 }
    en2.move en2.direction walls tgt e1
  else en.move en.direction walls tgt e

/-- The statements of `EnemyTank::update` after `move(direction, walls)`: the
cooldown, the firing test, and the update of the enemy's bullets; `t` is the
target. -/
def seekFire (en : EnemyTank) (walls : List SDL_Rect) (t : PlayerTank) (e : Env) :
    EnemyTank × Env :=
  let en := if en.shootCooldown > 0 then { en with shootCooldown := en.shootCooldown - 1 } else en
  let (fire, e1) := en.fireTest t e
  let en := if fire then { en.shoot with shootCooldown := 60 } else en
  ({ en with bullets := updateBulletList en.bullets walls }, e1)

/-- `EnemyTank::update`; `tgt` is the object the pointer `target` refers to. -/
def update (en : EnemyTank) (walls : List SDL_Rect) (tgt : Option PlayerTank) (e : Env) :
    EnemyTank × Env :=
  if !en.alive || en.frozen then (en, e)
  else
    match tgt with
    | none => en.wander walls tgt e
    | some t =>
      if !t.alive then en.wander walls tgt e
      else
        let (en1, e1) := en.seekMove walls tgt e
        en1.seekFire walls t e1

end EnemyTank

/-! ## Game -/

structure Game where
  walls : List SDL_Rect
  wallBreakable : List Bool
  -- the pointers `player1`, `player2`: `none` is the null pointer
  player1 : Option PlayerTank
  player2 : Option PlayerTank
  enemies : List EnemyTank
  state : GameState
  powerUp : PowerUp
  lastPowerUpSpawnTime : Nat
  score : Int
  waveNumber : Int
deriving DecidableEq, Repr

namespace Game

/-- The member constant `powerUpSpawnInterval`. -/
def powerUpSpawnInterval : Nat := 20000
/-- The member constant `baseEnemyCount` (not used by the source). -/
def baseEnemyCount : Int := 1
/-- The member constant `scorePerEnemy`. -/
def scorePerEnemy : Int := 100
/-- The member constant `waveBonus`. -/
def waveBonus : Int := 500

/-- The simulation state set up by the constructor `Game()`. -/
def new : Game :=
  { walls := [], wallBreakable := [], player1 := none, player2 := none, enemies := []
    state := .STATE_MENU, powerUp := PowerUp.new, lastPowerUpSpawnTime := 0
    score := 0, waveNumber := 1 }

/-- The object a player pointer of the given slot refers to. -/
def deref (player1 player2 : Option PlayerTank) : Option PlayerSlot → Option PlayerTank
  | none => none
  | some .one => player1
  | some .two => player2

/-! ### Map generation -/

/-- The array `map[MAP_ROWS][MAP_COLS]`. -/
abbrev Grid := Nat → Nat → Int

/-- The assignment `map[row][col] = v`. -/
def setCell (map : Grid) (row col : Nat) (v : Int) : Grid :=
  fun r c => if r = row ∧ c = col then v else map r c

/-- The first three parts of `generateMap`: clear the grid, draw the border of
cells `1`, then the ten hand-placed cells `2`. -/
def mapCells : Grid :=
  let map : Grid := fun _ _ => 0
  let map := (List.range MAP_COLS).foldl
    (fun m col => setCell (setCell m 0 col 1) (MAP_ROWS - 1) col 1) map
  let map := (List.range MAP_ROWS).foldl
    (fun m row => setCell (setCell m row 0 1) row (MAP_COLS - 1) 1) map
  let map := setCell map 5 4 2
  let map := setCell map 5 3 2
  let map := setCell map 5 7 2
  let map := setCell map 8 10 2
  let map := setCell map 8 11 2
  let map := setCell map 8 12 2
  let map := setCell map 3 15 2
  let map := setCell map 4 15 2
  let map := setCell map 5 15 2
  let map := setCell map 13 9 2
  map

/-- The row-major list of the grid positions `(row, col)` visited by the last
double loop of `generateMap`. -/
def gridPositions : List (Nat × Nat) :=
  (List.range MAP_ROWS).flatMap (fun row => (List.range MAP_COLS).map (fun col => (row, col)))

/-- The walls pushed by the last double loop of `generateMap`, each with its
`wallBreakable` flag. -/
def mapWalls : List (SDL_Rect × Bool) :=
  (gridPositions.filter (fun rc => mapCells rc.1 rc.2 = 1 ∨ mapCells rc.1 rc.2 = 2)).map
    (fun rc => (⟨(rc.2 : Int) * GRID_SIZE, (rc.1 : Int) * GRID_SIZE, GRID_SIZE, GRID_SIZE⟩,
                decide (mapCells rc.1 rc.2 = 2)))

/-- `Game::generateMap`: the walls are appended to `walls` and `wallBreakable`. -/
def generateMap (g : Game) : Game :=
  { g with walls := g.walls ++ mapWalls.map (fun wb => wb.1)
           wallBreakable := g.wallBreakable ++ mapWalls.map (fun wb => wb.2) }

/-! ### Spawning enemies -/

/-- `Game::isValidSpawn`. -/
def isValidSpawn (g : Game) (x y : Int) : Bool :=
  let rect : SDL_Rect := ⟨x, y, GRID_SIZE, GRID_SIZE⟩
  if hitsWall rect g.walls then false
  else if (match g.player1 with | some p => SDL_HasIntersection rect p.rect | none => false) then false
  else if (match g.player2 with | some p => SDL_HasIntersection rect p.rect | none => false) then false
  else true

/-- The value `enemiesToSpawn` computed by `Game::generateEnemies`. -/
def enemiesToSpawn (waveNumber : Int) : Int :=
  min 10 (1 + Int.tdiv waveNumber 2)

/-- A random interior cell coordinate,
`(rand() % (MAP_COLS - 2)) * GRID_SIZE + GRID_SIZE`. -/
def randomCell (e : Env) : Int × Env :=
  let (r, e1) := e.rand
  (((r % (MAP_COLS - 2) : Nat) : Int) * GRID_SIZE + GRID_SIZE, e1)

/-- The inner loop of `generateEnemies`: at most `attempts` draws of a cell,
stopping at the first valid one. -/
def findSpawn (g : Game) : Nat → Env → Option (Int × Int) × Env
  | 0, e => (none, e)
  | attempts + 1, e =>
    let (x, e1) := randomCell e
    let (y, e2) := randomCell e1
    if g.isValidSpawn x y then (some (x, y), e2) else findSpawn g attempts e2

/-- The outer loop of `generateEnemies`, for the `n` remaining enemy slots. -/
def spawnLoop (g : Game) : Nat → Env → Game × Env
  | 0, e => (g, e)
  | n + 1, e =>
    match findSpawn g 100 e with
    | (some (x, y), e1) =>
      let (r, e2) := e1.rand
      let target : Option PlayerSlot :=
        if r % 2 = 0 ∨ g.player2.isNone then (if g.player1.isSome then some .one else none)
        else some .two
      let (enemy, e3) := EnemyTank.new x y target e2
      spawnLoop { g with enemies := g.enemies ++ [enemy] } n e3
    | (none, e1) => spawnLoop g n e1

/-- `Game::generateEnemies`. -/
def generateEnemies (g : Game) (e : Env) : Game × Env :=
  spawnLoop { g with enemies := [] } (enemiesToSpawn g.waveNumber).toNat e

/-- `Game::checkWaveCompletion`. -/
def checkWaveCompletion (g : Game) (e : Env) : Game × Env :=
  if g.enemies.isEmpty then
    generateEnemies { g with waveNumber := g.waveNumber + 1, score := g.score + waveBonus } e
  else (g, e)

/-! ### Reset -/

/-- The start position chosen by `resetGame` for a player: the preferred cell,
or the fallback cell when the preferred one intersects a wall. -/
def startPos (walls : List SDL_Rect) (x y fallbackX fallbackY : Int) : Int × Int :=
  if hitsWall ⟨x, y, GRID_SIZE, GRID_SIZE⟩ walls then (fallbackX, fallbackY) else (x, y)

/-- `Game::resetGame`.  The pointer `player2` is deleted but not reset by the
source when the mode is not `STATE_2P`; the embedding keeps its old value. -/
def resetGame (g : Game) (e : Env) : Game × Env :=
  let g := { g with walls := [], wallBreakable := [], enemies := [] }
  let g := { g with score := 0, waveNumber := 1 }
  let g := g.generateMap
  let p1 := startPos g.walls GRID_SIZE (SCREEN_HEIGHT - GRID_SIZE * 2)
    (GRID_SIZE * 2) (SCREEN_HEIGHT - GRID_SIZE * 3)
  let g := { g with player1 := some (PlayerTank.new p1.1 p1.2) }
  let g :=
    if g.state = .STATE_2P then
      let p2 := startPos g.walls (SCREEN_WIDTH - GRID_SIZE * 2) (SCREEN_HEIGHT - GRID_SIZE * 2)
        (SCREEN_WIDTH - GRID_SIZE * 3) (SCREEN_HEIGHT - GRID_SIZE * 3)
      { g with player2 := some (PlayerTank.new p2.1 p2.2) }
    else g
  let (g, e) := g.generateEnemies e
  let g := { g with powerUp := { g.powerUp with active := false } }
  let (now, e) := e.SDL_GetTicks
  ({ g with lastPowerUpSpawnTime := now }, e)

/-! ### Power-ups -/

/-- `Game::getRandomPowerUpType`. -/
def getRandomPowerUpType (e : Env) : PowerUpType × Env :=
  let (r, e1) := e.rand
  let random := r % 100
  if random < 30 then (.POWERUP_HEALTH, e1)
  else if random < 60 then (.POWERUP_FREEZE, e1)
  else if random < 90 then (.POWERUP_INVINCIBLE, e1)
  else (.POWERUP_BOMB, e1)

/-- `Game::spawnRandomPowerUp`. -/
def spawnRandomPowerUp (g : Game) (e : Env) : Game × Env :=
  if g.powerUp.active then (g, e)
  else
    let (currentTime, e) := e.SDL_GetTicks
    if u32sub currentTime g.lastPowerUpSpawnTime > powerUpSpawnInterval then
      let (x, e) := randomCell e
      let (y, e) := randomCell e
      let validPosition := !(hitsWall ⟨x, y, GRID_SIZE, GRID_SIZE⟩ g.walls)
      if validPosition then
        let (type, e) := getRandomPowerUpType e
        let (pu, e) := g.powerUp.spawn x y type e
        ({ g with powerUp := pu, lastPowerUpSpawnTime := currentTime }, e)
      else (g, e)
    else (g, e)

/-- `Game::freezeAllEnemies`: the loop over the enemies. -/
def freezeAll (duration : Nat) : List EnemyTank → Env → List EnemyTank × Env
  | [], e => ([], e)
  | enemy :: rest, e =>
    let (enemy1, e1) := enemy.freeze duration e
    let (rest1, e2) := freezeAll duration rest e1
    (enemy1 :: rest1, e2)

/-- `Game::freezeAllEnemies`. -/
def freezeAllEnemies (g : Game) (duration : Nat) (e : Env) : Game × Env :=
  let (enemies, e1) := freezeAll duration g.enemies e
  ({ g with enemies := enemies }, e1)

/-- The first loop of `Game::destroyAllEnemies`: every enemy is marked dead
and scored. -/
def destroyLoop : List EnemyTank → Int → List EnemyTank × Int
  | [], score => ([], score)
  | enemy :: rest, score =>
    let (rest1, score1) := destroyLoop rest (score + scorePerEnemy)
    ({ enemy with alive := false } :: rest1, score1)

/-- The statement `enemies.erase(std::remove_if(..., !e->alive), ...)`. -/
def eraseDead (enemies : List EnemyTank) : List EnemyTank :=
  enemies.filter (fun en => en.alive)

/-- `Game::destroyAllEnemies`. -/
def destroyAllEnemies (g : Game) (e : Env) : Game × Env :=
  let (enemies, score) := destroyLoop g.enemies g.score
  let g := { g with enemies := enemies, score := score }
  let g := { g with enemies := eraseDead g.enemies }
  g.checkWaveCompletion e

/-- The player object a slot of the game refers to. -/
def player (g : Game) : PlayerSlot → Option PlayerTank
  | .one => g.player1
  | .two => g.player2

/-- Write back the player object of a slot. -/
def setPlayer (g : Game) (slot : PlayerSlot) (p : PlayerTank) : Game :=
  match slot with
  | .one => { g with player1 := some p }
  | .two => { g with player2 := some p }

/-- `Game::applyPowerUpEffect(player)`, the player being given by its slot and
its object `p`. -/
def applyPowerUpEffect (g : Game) (slot : PlayerSlot) (p : PlayerTank) (e : Env) : Game × Env :=
  match g.powerUp.type with
  | .POWERUP_HEALTH => (g.setPlayer slot (p.heal 200), e)
  | .POWERUP_FREEZE => g.freezeAllEnemies 5000 e
  | .POWERUP_INVINCIBLE =>
    let (p1, e1) := p.activateInvincible 5000 e
    (g.setPlayer slot p1, e1)
  | .POWERUP_BOMB => g.destroyAllEnemies e
  | .POWERUP_NONE => (g, e)

/-- Is the player pointer non-null, the player alive and touching the
power-up?  Returns the player object if so. -/
def collector (g : Game) (slot : PlayerSlot) : Option PlayerTank :=
  match g.player slot with
  | some p => if p.alive && p.checkPowerUpCollision g.powerUp.rect then some p else none
  | none => none

/-- `Game::checkPowerUpCollision`. -/
def checkPowerUpCollision (g : Game) (e : Env) : Game × Env :=
  if !g.powerUp.active then (g, e)
  else
    match g.collector .one with
    | some p =>
      let (g1, e1) := g.applyPowerUpEffect .one p e
      ({ g1 with powerUp := { g1.powerUp with active := false } }, e1)
    | none =>
      match g.collector .two with
      | some p =>
        let (g1, e1) := g.applyPowerUpEffect .two p e
        ({ g1 with powerUp := { g1.powerUp with active := false } }, e1)
      | none => (g, e)

/-! ### Input -/

/-- The case `STATE_1P` / `STATE_2P` of `Game::handleEvents` for one event:
both players get the event. -/
def handleInput (g : Game) (event : PlayerTank.SDL_Event) : Game :=
  if g.state = .STATE_1P ∨ g.state = .STATE_2P then
    let g := match g.player1 with
      | some p => { g with player1 := some (p.handleInput event true) }
      | none => g
    let g := match g.player2 with
      | some p => { g with player2 := some (p.handleInput event false) }
      | none => g
    g
  else g

/-! ### The world tick -/

/-- The body of the loops `for (auto& bullet : enemy->bullets)` of
`Game::update`: one enemy bullet tested against one player. -/
def hitPlayer (p : PlayerTank) (bullet : Bullet) (e : Env) : PlayerTank × Bullet × Env :=
  if SDL_HasIntersection bullet.rect p.rect then
    if !p.invincible then
      let p1 := p.takeDamage
      let bullet1 := { bullet with active := false }
      let (p2, e1) := p1.activateInvincible 1000 e
      (p2, bullet1, e1)
    else (p, bullet, e)
  else (p, bullet, e)

/-- The loop `for (auto& bullet : enemy->bullets)` against one player. -/
def hitPlayerLoop : PlayerTank → List Bullet → Env → PlayerTank × List Bullet × Env
  | p, [], e => (p, [], e)
  | p, bullet :: rest, e =>
    let (p1, bullet1, e1) := hitPlayer p bullet e
    let (p2, rest1, e2) := hitPlayerLoop p1 rest e1
    (p2, bullet1 :: rest1, e2)

/-- The block `if (player) { for (auto& bullet : enemy->bullets) ... }`. -/
def hitPlayerOpt (player : Option PlayerTank) (bullets : List Bullet) (e : Env) :
    Option PlayerTank × List Bullet × Env :=
  match player with
  | some p =>
    let (p1, bullets1, e1) := hitPlayerLoop p bullets e
    (some p1, bullets1, e1)
  | none => (none, bullets, e)

/-- The body of the loops `for (auto& bullet : player->bullets)` of
`Game::update`: one player bullet tested against the enemy. -/
def hitEnemy (enemy : EnemyTank) (score : Int) (bullet : Bullet) : EnemyTank × Int × Bullet :=
  if SDL_HasIntersection bullet.rect enemy.rect then
    ({ enemy with alive := false }, score + scorePerEnemy, { bullet with active := false })
  else (enemy, score, bullet)

/-- The loop `for (auto& bullet : player->bullets)` against one enemy. -/
def hitEnemyLoop : EnemyTank → Int → List Bullet → EnemyTank × Int × List Bullet
  | enemy, score, [] => (enemy, score, [])
  | enemy, score, bullet :: rest =>
    let (enemy1, score1, bullet1) := hitEnemy enemy score bullet
    let (enemy2, score2, rest1) := hitEnemyLoop enemy1 score1 rest
    (enemy2, score2, bullet1 :: rest1)

/-- The block `if (player) { for (auto& bullet : player->bullets) ... }`. -/
def hitEnemyOpt (player : Option PlayerTank) (enemy : EnemyTank) (score : Int) :
    Option PlayerTank × EnemyTank × Int :=
  match player with
  | some p =>
    let (enemy1, score1, bullets1) := hitEnemyLoop enemy score p.bullets
    (some { p with bullets := bullets1 }, enemy1, score1)
  | none => (none, enemy, score)

/-- The body of the loop `for (auto enemy : enemies)` of `Game::update`.  The
game `g` carries the players and the score; the updated enemy is returned. -/
def enemyStep (g : Game) (enemy : EnemyTank) (e : Env) : Game × EnemyTank × Env :=
  let (enemy, e) := enemy.update g.walls (deref g.player1 g.player2 enemy.target) e
  let (enemy, e) := enemy.updateFreeze e
  let (p1, bullets, e) := hitPlayerOpt g.player1 enemy.bullets e
  let enemy := { enemy with bullets := bullets }
  let (p2, bullets, e) := hitPlayerOpt g.player2 enemy.bullets e
  let enemy := { enemy with bullets := bullets }
  let (p1, enemy, score) := hitEnemyOpt p1 enemy g.score
  let (p2, enemy, score) := hitEnemyOpt p2 enemy score
  ({ g with player1 := p1, player2 := p2, score := score }, enemy, e)

/-- The loop `for (auto enemy : enemies)` of `Game::update`. -/
def enemyLoop : Game → List EnemyTank → Env → Game × List EnemyTank × Env
  | g, [], e => (g, [], e)
  | g, enemy :: rest, e =>
    let (g1, enemy1, e1) := enemyStep g enemy e
    let (g2, rest1, e2) := enemyLoop g1 rest e1
    (g2, enemy1 :: rest1, e2)

/-- The first part of `Game::update`: both players move and advance their
bullets.  Player 2 is tested against `player1->rect`. -/
def updatePlayers (g : Game) (e : Env) : Game × Env :=
  let (g, e) :=
    match g.player1 with
    | some p =>
      let (p1, e1) := p.update g.walls (g.player2.map (fun (q : PlayerTank) => q.rect)) e
      ({ g with player1 := some (p1.updateBullets g.walls) }, e1)
    | none => (g, e)
  match g.player2 with
  | some p =>
    let (p1, e1) := p.update g.walls (g.player1.map (fun (q : PlayerTank) => q.rect)) e
    ({ g with player2 := some (p1.updateBullets g.walls) }, e1)
  | none => (g, e)

/-- The second part of `Game::update`: the loop over the enemies, then the
removal of the dead ones. -/
def updateEnemies (g : Game) (e : Env) : Game × Env :=
  let (g1, enemies, e1) := enemyLoop g g.enemies e
  ({ g1 with enemies := eraseDead enemies }, e1)

/-- The calls `spawnRandomPowerUp(); powerUp.update(); checkPowerUpCollision();`
of `Game::update`. -/
def updatePowerUp (g : Game) (e : Env) : Game × Env :=
  let (g, e) := g.spawnRandomPowerUp e
  let (pu, e) := g.powerUp.update e
  let g := { g with powerUp := pu }
  g.checkPowerUpCollision e

/-- The flag `gameOver` computed at the end of `Game::update`. -/
def gameOver (g : Game) : Bool :=
  let dead (player : Option PlayerTank) : Bool :=
    match player with
    | some p => !p.alive
    | none => true
  if g.state = .STATE_1P ∧ dead g.player1 then true
  else if g.state = .STATE_2P then dead g.player1 && dead g.player2
  else false

/-- The last part of `Game::update`: the terminal condition. -/
def checkGameOver (g : Game) : Game :=
  if g.gameOver then { g with state := .STATE_GAME_OVER } else g

/-- `Game::update`, the world tick. -/
def update (g : Game) (e : Env) : Game × Env :=
  if g.state = .STATE_1P ∨ g.state = .STATE_2P then
    let (g, e) := g.updatePlayers e
    let (g, e) := g.updateEnemies e
    let (g, e) := g.checkWaveCompletion e
    let (g, e) := g.updatePowerUp e
    (g.checkGameOver, e)
  else (g, e)

end Game

end BattleCity

/-! # Specification-side definitions and example inputs -/

namespace BattleCity

/-- A rectangle lies fully inside the arena. -/
def insideArena (r : SDL_Rect) : Prop :=
  0 ≤ r.x ∧ r.x + r.w ≤ SCREEN_WIDTH ∧ 0 ≤ r.y ∧ r.y + r.h ≤ SCREEN_HEIGHT

instance (r : SDL_Rect) : Decidable (insideArena r) := by
  unfold insideArena; infer_instance

/-- A value clamped into the range of admissible hit-box coordinates. -/
def clampCoord (v : Int) : Int := if v < 0 then 0 else if v > 760 then 760 else v

/-- The sum of the held-key contributions on the x axis. -/
def deltaX (p : PlayerTank) : Int :=
  (if p.keyLeft then -3 else 0) + (if p.keyRight then 3 else 0)

/-- The sum of the held-key contributions on the y axis. -/
def deltaY (p : PlayerTank) : Int :=
  (if p.keyUp then -3 else 0) + (if p.keyDown then 3 else 0)

/-- The 40x40 rectangle at position + delta. -/
def tentativeRect (p : PlayerTank) : SDL_Rect := ⟨p.x + deltaX p, p.y + deltaY p, 40, 40⟩

/-- The tentative move of the player is blocked by a wall or the other player. -/
def blocked (p : PlayerTank) (walls : List SDL_Rect) (other : Option SDL_Rect) : Prop :=
  (∃ wall ∈ walls, SDL_HasIntersection (tentativeRect p) wall = true) ∨
  (∃ o, other = some o ∧ SDL_HasIntersection (tentativeRect p) o = true)

/-- An environment in which every random draw and every clock reading is 0. -/
def env0 : Env := ⟨fun _ => 0, fun _ => 0⟩

/-- A player at its single-player start cell (40,720) holding the Up key. -/
def playerUp : PlayerTank := { PlayerTank.new 40 720 with keyUp := true }

/-- An enemy at cell (400,400) heading Up, without target. -/
def enemyAt : EnemyTank :=
  { rect := ⟨400, 400, 40, 40⟩, bullets := [], alive := true, direction := 0, moveTimer := 0
    moveDuration := 50, moveSpeed := 2, target := none, shootCooldown := 0, frozen := false
    freezeEndTime := 0 }

/-- The walls of the generated map: `generateMap` run on the fresh game. -/
def arenaWalls : List SDL_Rect := (Game.generateMap Game.new).walls

/-- The bullet after `n` successive calls of `Bullet::update`. -/
def Bullet.updateN (walls : List SDL_Rect) : Nat → Bullet → Bullet
  | 0, b => b
  | n + 1, b => (Bullet.updateN walls n b).update walls

/-- The health invariant of a player: health is a multiple of 100 between 0
and 1000, a living player has at least 100, and a dead player is invincible. -/
def PlayerTank.healthInv (p : PlayerTank) : Prop :=
  0 ≤ p.health ∧ p.health ≤ 1000 ∧ p.health % 100 = 0 ∧
  (p.alive = true → 100 ≤ p.health) ∧ (p.alive = false → p.invincible = true)

/-- Both players of the game (those whose pointer is not null) satisfy `P`. -/
def Game.playersSatisfy (P : PlayerTank → Prop) (g : Game) : Prop :=
  (∀ p, g.player1 = some p → P p) ∧ (∀ p, g.player2 = some p → P p)

/-- The states of a game in play: a freshly reset game (one whose `player2`
pointer is not a stale one, that is, two-player mode or a null pointer before
the reset), followed by any number of input events and world ticks, each tick
with its own environment of clock readings and random draws. -/
inductive Game.Reachable : Game → Prop where
  | reset (g : Game) (e : Env) (h : g.state = .STATE_2P ∨ g.player2 = none) :
      Game.Reachable (g.resetGame e).1
  | input (g : Game) (event : PlayerTank.SDL_Event) (h : Game.Reachable g) :
      Game.Reachable (g.handleInput event)
  | tick (g : Game) (e : Env) (h : Game.Reachable g) :
      Game.Reachable (g.update e).1

/-- A game whose power-up slot is active, at cell (80,80). -/
def gameWithPowerUp : Game :=
  { Game.new with powerUp := { rect := ⟨80, 80, 40, 40⟩, type := .POWERUP_HEALTH, active := true
                               spawnTime := 0 } }

/-- The clock reading returned by the next call of `SDL_GetTicks()`. -/
def Env.now (e : Env) : Nat := (e.SDL_GetTicks).1

/-- A player pointer is null or its player is not alive: the test
`!player || !player->alive`. -/
def notAlive (player : Option PlayerTank) : Prop :=
  ∀ p, player = some p → p.alive = false

/-- The player behind the pointer is alive and its hit-box overlaps the
power-up of the game. -/
def Game.canCollect (g : Game) (player : Option PlayerTank) : Prop :=
  ∃ p, player = some p ∧ p.alive = true ∧ SDL_HasIntersection p.rect g.powerUp.rect = true

/-- The statement `powerUp.active = false`. -/
def Game.deactivatePowerUp (g : Game) : Game :=
  { g with powerUp := { g.powerUp with active := false } }

/-- A two-player game with an active Health power-up at (80,80) on which both
players stand, player 1 at health 900. -/
def gameCollect : Game :=
  { gameWithPowerUp with
    state := .STATE_2P
    player1 := some { PlayerTank.new 80 80 with health := 900 }
    player2 := some { PlayerTank.new 80 80 with health := 900 } }

instance (player : Option PlayerTank) : Decidable (notAlive player) :=
  match player with
  | none => isTrue (fun _ h => Option.noConfusion h)
  | some q =>
    if h : q.alive = false then isTrue (fun _ hp => Option.some.inj hp ▸ h)
    else isFalse (fun hall => h (hall q rfl))

/-- A single-player game whose player has been killed. -/
def gameDead : Game :=
  { Game.new with
    state := .STATE_1P
    player1 := some { PlayerTank.new 40 720 with alive := false, health := 0, invincible := true } }

/-- The interior cell coordinate computed from a random draw `r`:
`(r % 18) * 40 + 40`. -/
def cellOfDraw (r : Nat) : Int := ((r % 18 : Nat) : Int) * 40 + 40

/-- The interior grid coordinates 40, 80, ..., 720. -/
def onInteriorGrid (v : Int) : Prop := ∃ k : Nat, k < 18 ∧ v = (k : Int) * 40 + 40

/-- The environment after `nr` calls of `rand()` and `nt` calls of
`SDL_GetTicks()`. -/
def Env.drop (e : Env) (nr nt : Nat) : Env :=
  ⟨fun n => e.rands (n + nr), fun n => e.ticks (n + nt)⟩

/-- The generated map without players, its power-up slot empty and
`lastPowerUpSpawnTime = 0`. -/
def arenaGame : Game := Game.generateMap Game.new

/-- An environment whose clock reads 20000 and whose random draws are all 0. -/
def env20000 : Env := ⟨fun _ => 0, fun _ => 20000⟩

/-- An environment whose clock reads 20001 and whose random draws are all 0. -/
def env20001 : Env := ⟨fun _ => 0, fun _ => 20001⟩

/-- The first `n` candidate cells `(x, y)` drawn from the random source by the
placement loop of `generateEnemies`, in the order they are drawn. -/
def Game.draws : Nat → Env → List (Int × Int)
  | 0, _ => []
  | n + 1, e => (cellOfDraw (e.rands 0), cellOfDraw (e.rands 1)) :: Game.draws n (e.drop 2 0)

/-- The cell `(x, y)` is free for an enemy: its 40x40 rectangle intersects no
wall and neither player's rectangle. -/
def Game.cellFree (g : Game) (x y : Int) : Prop :=
  (∀ wall ∈ g.walls, SDL_HasIntersection ⟨x, y, 40, 40⟩ wall = false) ∧
  (∀ p, g.player1 = some p → SDL_HasIntersection ⟨x, y, 40, 40⟩ p.rect = false) ∧
  (∀ p, g.player2 = some p → SDL_HasIntersection ⟨x, y, 40, 40⟩ p.rect = false)

/-- The enemy stands on a grid-aligned interior cell that is free in `g`, with
a 40x40 hit-box. -/
def Game.placed (g : Game) (en : EnemyTank) : Prop :=
  ∃ x y : Int, en.rect = ⟨x, y, 40, 40⟩ ∧ onInteriorGrid x ∧ onInteriorGrid y ∧ g.cellFree x y

/-- The facing selected by the held keys under the tie-break of the
specification: Right if Right is held, else Left, else Down, else Up, and the
current facing if no key is held. -/
def PlayerTank.facing (p : PlayerTank) : Int :=
  if p.keyRight then 3 else if p.keyLeft then 1 else if p.keyDown then 2
  else if p.keyUp then 0 else p.direction

/-- The player's facing already agrees with its held keys. -/
def PlayerTank.facingSettled (p : PlayerTank) : Prop := p.facing = p.direction

/-- A dead player's facing agrees with its held keys. -/
def PlayerTank.facingInv (p : PlayerTank) : Prop := p.alive = false → p.facingSettled

/-- The property `P` of a player is kept by every change that the world tick
makes to a player after the movement step: replacing its bullets, taking
damage, becoming invincible and being healed. -/
def PlayerTank.TickStable (P : PlayerTank → Prop) : Prop :=
  (∀ (p : PlayerTank) (bullets : List Bullet), P p → P { p with bullets := bullets }) ∧
  (∀ p : PlayerTank, P p → P p.takeDamage) ∧
  (∀ (p : PlayerTank) (duration : Nat) (e : Env), P p → P (p.activateInvincible duration e).1) ∧
  (∀ p : PlayerTank, P p → P (p.heal 200))

/-- A player at (40,720) holding both Up and Right. -/
def playerUpRight : PlayerTank := { PlayerTank.new 40 720 with keyUp := true, keyRight := true }

/-- The single-player game right after its reset, with all draws and clock
readings 0. -/
def gameStart : Game := (Game.resetGame { Game.new with state := .STATE_1P } env0).1

/-- An environment whose random draws are all `r` (and whose clock reads 0). -/
def envRoll (r : Nat) : Env := ⟨fun _ => r, fun _ => 0⟩

/-- The number of rolls `r` in 0..99 for which `getRandomPowerUpType` returns
the type `t`. -/
def Game.rollsGiving (t : PowerUpType) : Nat :=
  ((List.range 100).filter (fun r => (Game.getRandomPowerUpType (envRoll r)).1 = t)).length

/-- The heading that faces the target `t` along the axis of larger absolute
delta: Left (1) or Right (3) when `|dx| > |dy|`, else Up (0) or Down (2). -/
def EnemyTank.seekHeading (en : EnemyTank) (t : PlayerTank) : Int :=
  if |en.rect.x - t.rect.x| > |en.rect.y - t.rect.y| then
    (if en.rect.x - t.rect.x > 0 then 1 else 3)
  else (if en.rect.y - t.rect.y > 0 then 0 else 2)

/-- The fire cooldown after the decrement step of `EnemyTank::update`. -/
def EnemyTank.cooldownAfterTick (en : EnemyTank) : Int :=
  if en.shootCooldown > 0 then en.shootCooldown - 1 else en.shootCooldown

/-- The firing condition of the specification: cooldown (after the decrement)
at 0, Manhattan distance to the target below 200, and roll below 10. -/
def EnemyTank.fires (en : EnemyTank) (t : PlayerTank) (e : Env) : Prop :=
  en.cooldownAfterTick = 0 ∧
  |en.rect.x - t.rect.x| + |en.rect.y - t.rect.y| < 200 ∧ e.rands 0 % 100 < 10

/-- A player standing at (100,400). -/
def playerAt : PlayerTank := PlayerTank.new 100 400

/-- An enemy at (150,400) heading Left, seeking player 1, ready to fire. -/
def enemySeeking : EnemyTank :=
  { rect := ⟨150, 400, 40, 40⟩, bullets := [], alive := true, direction := 1, moveTimer := 0
    moveDuration := 50, moveSpeed := 2, target := some .one, shootCooldown := 0, frozen := false
    freezeEndTime := 0 }

instance (en : EnemyTank) (t : PlayerTank) (e : Env) : Decidable (en.fires t e) := by
  unfold EnemyTank.fires; infer_instance

/-- An environment whose random draws are 1, 2, 3, ... in this order (and whose
clock reads 0). -/
def envSeq : Env := ⟨fun n => n + 1, fun _ => 0⟩

/-- The 40x40 hit-box of the enemy displaced by 2 units along the heading
`dir` (0 Up, 1 Left, 2 Down, 3 Right). -/
def EnemyTank.displaced (en : EnemyTank) (dir : Int) : SDL_Rect :=
  if dir = 0 then ⟨en.rect.x, en.rect.y - 2, 40, 40⟩
  else if dir = 1 then ⟨en.rect.x - 2, en.rect.y, 40, 40⟩
  else if dir = 2 then ⟨en.rect.x, en.rect.y + 2, 40, 40⟩
  else ⟨en.rect.x + 2, en.rect.y, 40, 40⟩

/-- The displaced hit-box stays inside the arena and intersects no wall. -/
def EnemyTank.moveAccepted (en : EnemyTank) (dir : Int) (walls : List SDL_Rect) : Prop :=
  insideArena (en.displaced dir) ∧ hitsWall (en.displaced dir) walls = false

instance (en : EnemyTank) (dir : Int) (walls : List SDL_Rect) :
    Decidable (en.moveAccepted dir walls) := by
  unfold EnemyTank.moveAccepted; infer_instance

/-- An enemy in the top-left interior cell (40,40) heading Up, without target. -/
def enemyCorner : EnemyTank := { enemyAt with rect := ⟨40, 40, 40, 40⟩ }

/-- An environment whose clock reads `t` and whose random draws are all 0. -/
def envClock (t : Nat) : Env := ⟨fun _ => 0, fun _ => t⟩

/-- An enemy at (400,400) heading Down and targeting player 1, with one bullet
in flight at (415,465) moving Down, fire cooldown 30, frozen until clock
reading 25900. -/
def enemyHeld : EnemyTank :=
  { rect := ⟨400, 400, 40, 40⟩, bullets := [⟨⟨415, 465, 10, 10⟩, 0, 5, true⟩], alive := true
    direction := 2, moveTimer := 0, moveDuration := 50, moveSpeed := 2, target := some .one
    shootCooldown := 30, frozen := true, freezeEndTime := 25900 }

/-- The single-player game on the generated map, player 1 at (40,720), last
power-up spawned at 20001, with the frozen enemy `enemyHeld`. -/
def gameHeld : Game :=
  { gameStart with enemies := [enemyHeld], lastPowerUpSpawnTime := 20001 }

/-- The two-player game on the generated map in which player 1 has been
killed, player 2 stands at (720,720), and the enemy of `enemyHeld`, not frozen,
still targets player 1. -/
def gameOrphan : Game :=
  { gameStart with
    state := .STATE_2P
    player1 := some { PlayerTank.new 40 720 with alive := false, health := 0, invincible := true }
    player2 := some (PlayerTank.new 720 720)
    enemies := [{ enemyHeld with frozen := false, freezeEndTime := 0 }]
    lastPowerUpSpawnTime := 20001 }

/-- The single-player game on the generated map with player 1 at (40,720)
holding Up, and one enemy at (40,598), frozen until clock reading 25900, whose
bullet hangs at (55,708). -/
def gameHang : Game :=
  { gameStart with
    player1 := some playerUp
    enemies := [{ enemyHeld with rect := ⟨40, 598, 40, 40⟩
                                 bullets := [⟨⟨55, 708, 10, 10⟩, 0, 5, true⟩] }]
    lastPowerUpSpawnTime := 20001 }

/-- The game `gameHang` after the world tick at clock reading 21000, in which
player 1 walks into the hanging bullet, followed by the release of the Up
key. -/
def gameHit : Game :=
  ((gameHang.update (envClock 21000)).1).handleInput ⟨false, .SDLK_UP⟩

/-- The single-player game on the generated map with player 1 at (40,720) and
two of its bullets in flight at the same place (55,445), moving Up, below an
enemy at (40,400) that heads Down; a second enemy stands at (600,600). -/
def gameVolley : Game :=
  { gameStart with
    player1 := some { PlayerTank.new 40 720 with
      bullets := [⟨⟨55, 445, 10, 10⟩, 0, -5, true⟩, ⟨⟨55, 445, 10, 10⟩, 0, -5, true⟩] }
    enemies := [{ enemyHeld with rect := ⟨40, 400, 40, 40⟩, bullets := [], frozen := false
                                 freezeEndTime := 0 },
                { enemyHeld with rect := ⟨600, 600, 40, 40⟩, bullets := [], frozen := false
                                 freezeEndTime := 0, direction := 0 }]
    lastPowerUpSpawnTime := 20001 }

/-- The property `P` of a player is kept by every change that the world tick
makes to a player after the movement step, damage being taken only by a player
who is not invincible and together with the invincibility window that follows
it: replacing its bullets, a hit (damage, then 1000 ms of invincibility),
the invincibility power-up and being healed. -/
def PlayerTank.HitStable (P : PlayerTank → Prop) : Prop :=
  (∀ (p : PlayerTank) (bullets : List Bullet), P p → P { p with bullets := bullets }) ∧
  (∀ (p : PlayerTank) (e : Env), P p → p.invincible = false →
    P (p.takeDamage.activateInvincible 1000 e).1) ∧
  (∀ (p : PlayerTank) (e : Env), P p → P (p.activateInvincible 5000 e).1) ∧
  (∀ p : PlayerTank, P p → P (p.heal 200))

/-- Player 1 of the game (if its pointer is not null) satisfies `P1` and
player 2 satisfies `P2`. -/
def Game.playersSatisfy2 (P1 P2 : PlayerTank → Prop) (g : Game) : Prop :=
  (∀ p, g.player1 = some p → P1 p) ∧ (∀ p, g.player2 = some p → P2 p)

/-- The hit-box of the player is the 40x40 rectangle at its position: `rect`
agrees with `x`, `y` and has the size given by the constructor. -/
def PlayerTank.wellFormed (p : PlayerTank) : Prop :=
  p.x = p.rect.x ∧ p.y = p.rect.y ∧ p.rect.w = 40 ∧ p.rect.h = 40

/-- Two players side by side in the bottom row of the generated map, player 1
at (40,720) holding Right and player 2 at (80,720) holding Left (key `a`). -/
def gameFacing : Game :=
  { gameStart with
    state := .STATE_2P
    player1 := some { PlayerTank.new 40 720 with keyRight := true }
    player2 := some { PlayerTank.new 80 720 with keyLeft := true } }

instance (g : Game) (x y : Int) : Decidable (g.cellFree x y) := by
  unfold Game.cellFree
  have h1 : Decidable (∀ p, g.player1 = some p →
      SDL_HasIntersection ⟨x, y, 40, 40⟩ p.rect = false) :=
    match g.player1 with
    | none => isTrue (fun _ h => Option.noConfusion h)
    | some q =>
      if h : SDL_HasIntersection ⟨x, y, 40, 40⟩ q.rect = false then
        isTrue (fun _ hp => Option.some.inj hp ▸ h)
      else isFalse (fun hall => h (hall q rfl))
  have h2 : Decidable (∀ p, g.player2 = some p →
      SDL_HasIntersection ⟨x, y, 40, 40⟩ p.rect = false) :=
    match g.player2 with
    | none => isTrue (fun _ h => Option.noConfusion h)
    | some q =>
      if h : SDL_HasIntersection ⟨x, y, 40, 40⟩ q.rect = false then
        isTrue (fun _ hp => Option.some.inj hp ▸ h)
      else isFalse (fun hall => h (hall q rfl))
  infer_instance

/-- The test of the specification on a drawn cell: is it free for an enemy? -/
def Game.freeCell (g : Game) (c : Int × Int) : Bool := decide (g.cellFree c.1 c.2)

/-- The position of the enemy's hit-box. -/
def EnemyTank.cell (en : EnemyTank) : Int × Int := (en.rect.x, en.rect.y)

/-- The cells of the enemies of a wave of `n` slots, in the words of the
specification: each slot draws up to 100 cells from the random source and takes
the first free one, after which two more draws are made for the new enemy (its
target and its initial heading); a slot whose 100 cells are all taken places no
enemy.  The next slot goes on with the draws that follow. -/
def Game.wavePositions (g : Game) : Nat → Env → List (Int × Int)
  | 0, _ => []
  | n + 1, e =>
    match (Game.draws 100 e).find? g.freeCell with
    | some c =>
      c :: Game.wavePositions g n
        (e.drop (2 * ((Game.draws 100 e).findIdx g.freeCell + 1) + 2) 0)
    | none => Game.wavePositions g n (e.drop 200 0)

end BattleCity

/-! # Properties -/

namespace BattleCity

/-! ## Geometry and player movement -/

theorem hitsWall_iff (r : SDL_Rect) (walls : List SDL_Rect) :
    hitsWall r walls = true ↔ ∃ wall ∈ walls, SDL_HasIntersection r wall = true := by
  simp [hitsWall, List.any_eq_true]

theorem PlayerTank.newX_eq (p : PlayerTank) : p.newX = p.x + deltaX p := by
  unfold PlayerTank.newX deltaX PlayerTank.speed
  cases p.keyLeft <;> cases p.keyRight <;> simp [sub_eq_add_neg]

theorem PlayerTank.newY_eq (p : PlayerTank) : p.newY = p.y + deltaY p := by
  unfold PlayerTank.newY deltaY PlayerTank.speed
  cases p.keyUp <;> cases p.keyDown <;> simp [sub_eq_add_neg]

theorem PlayerTank.newRect_eq (p : PlayerTank) : p.newRect = tentativeRect p := by
  simp [PlayerTank.newRect, tentativeRect, PlayerTank.static_cast_int, PlayerTank.newX_eq,
    PlayerTank.newY_eq, PlayerTank.width, PlayerTank.height, GRID_SIZE]

theorem PlayerTank.canMove_eq_false_iff (p : PlayerTank) (walls : List SDL_Rect)
    (other : Option SDL_Rect) : p.canMove walls other = false ↔ blocked p walls other := by
  unfold PlayerTank.canMove blocked
  rw [PlayerTank.newRect_eq, ← hitsWall_iff]
  cases other with
  | none => simp
  | some o =>
    by_cases h : SDL_HasIntersection (tentativeRect p) o = true
    · simp [h]
    · simp [h]

theorem PlayerTank.updateInvincible_fields (p : PlayerTank) (e : Env) :
    (p.updateInvincible e).1.x = p.x ∧ (p.updateInvincible e).1.y = p.y ∧
    (p.updateInvincible e).1.rect = p.rect ∧ (p.updateInvincible e).1.health = p.health ∧
    (p.updateInvincible e).1.alive = p.alive ∧ (p.updateInvincible e).1.direction = p.direction ∧
    (p.updateInvincible e).1.bullets = p.bullets := by
  unfold PlayerTank.updateInvincible
  split
  · simp only []
    split <;> simp
  · simp

theorem PlayerTank.clamp_rect (p : PlayerTank) :
    p.clamp.rect = ⟨clampCoord p.rect.x, clampCoord p.rect.y, p.rect.w, p.rect.h⟩ := by
  unfold PlayerTank.clamp clampCoord PlayerTank.width PlayerTank.height SCREEN_WIDTH SCREEN_HEIGHT
    GRID_SIZE
  simp only []
  split_ifs <;> simp_all

theorem PlayerTank.clamp_xy (p : PlayerTank) (hx : p.x = p.rect.x) (hy : p.y = p.rect.y) :
    p.clamp.x = clampCoord p.rect.x ∧ p.clamp.y = clampCoord p.rect.y := by
  unfold PlayerTank.clamp clampCoord PlayerTank.width PlayerTank.height SCREEN_WIDTH SCREEN_HEIGHT
    GRID_SIZE
  simp only []
  split_ifs <;> simp_all

theorem PlayerTank.clamp_inside (p : PlayerTank) (hx0 : 0 ≤ p.rect.x) (hx1 : p.rect.x ≤ 760)
    (hy0 : 0 ≤ p.rect.y) (hy1 : p.rect.y ≤ 760) : p.clamp = p := by
  unfold PlayerTank.clamp PlayerTank.width PlayerTank.height SCREEN_WIDTH SCREEN_HEIGHT GRID_SIZE
  simp only []
  have h1 : ¬ p.rect.x < 0 := by omega
  have h2 : ¬ p.rect.y < 0 := by omega
  have h3 : ¬ 760 < p.rect.x := by omega
  have h4 : ¬ 760 < p.rect.y := by omega
  simp [h1, h2, h3, h4]

theorem PlayerTank.update_of_alive (p : PlayerTank) (walls : List SDL_Rect)
    (other : Option SDL_Rect) (e : Env) (halive : p.alive = true) :
    p.update walls other e =
      PlayerTank.updateInvincible (PlayerTank.clamp
        (if p.canMove walls other then
          { p with direction := p.newDirection, x := p.newX, y := p.newY
                   rect := { p.rect with x := p.newX, y := p.newY } }
         else { p with direction := p.newDirection })) e := by
  rw [PlayerTank.update, if_neg (by simp [halive])]
  rfl

/-- C1: `PlayerTank::update` of an alive player whose hit-box is inside the
arena.  If the 40x40 rectangle at position + delta (delta being the sum of the
held-key contributions) intersects a wall or the other player's rectangle, then
`x`, `y` and `rect` are unchanged; otherwise the position becomes
position + delta, clamped into the arena, on both `x`, `y` and `rect`. -/
theorem PlayerTank.update_tryMove (p : PlayerTank) (walls : List SDL_Rect)
    (other : Option SDL_Rect) (e : Env) (halive : p.alive = true)
    (hin : 0 ≤ p.rect.x ∧ p.rect.x ≤ 760 ∧ 0 ≤ p.rect.y ∧ p.rect.y ≤ 760) :
    (blocked p walls other →
      (p.update walls other e).1.x = p.x ∧ (p.update walls other e).1.y = p.y ∧
      (p.update walls other e).1.rect = p.rect) ∧
    (¬ blocked p walls other →
      (p.update walls other e).1.x = clampCoord (p.x + deltaX p) ∧
      (p.update walls other e).1.y = clampCoord (p.y + deltaY p) ∧
      (p.update walls other e).1.rect =
        ⟨clampCoord (p.x + deltaX p), clampCoord (p.y + deltaY p), p.rect.w, p.rect.h⟩) := by
  obtain ⟨hx0, hx1, hy0, hy1⟩ := hin
  constructor
  · intro hb
    have hc : p.canMove walls other = false := (PlayerTank.canMove_eq_false_iff p walls other).2 hb
    rw [PlayerTank.update_of_alive p walls other e halive, hc, if_neg Bool.false_ne_true]
    obtain ⟨h1, h2, h3, -⟩ := PlayerTank.updateInvincible_fields
      (PlayerTank.clamp { p with direction := p.newDirection }) e
    rw [h1, h2, h3, PlayerTank.clamp_inside { p with direction := p.newDirection } hx0 hx1 hy0 hy1]
    exact ⟨rfl, rfl, rfl⟩
  · intro hb
    have hc : p.canMove walls other = true := by
      cases h : p.canMove walls other with
      | true => rfl
      | false => exact absurd ((PlayerTank.canMove_eq_false_iff p walls other).1 h) hb
    rw [PlayerTank.update_of_alive p walls other e halive, hc, if_pos rfl]
    generalize hq : ({ p with direction := p.newDirection, x := p.newX, y := p.newY
                              rect := { p.rect with x := p.newX, y := p.newY } } : PlayerTank) = q
    have hqx : q.x = p.x + deltaX p := by rw [← hq]; exact PlayerTank.newX_eq p
    have hqy : q.y = p.y + deltaY p := by rw [← hq]; exact PlayerTank.newY_eq p
    have hqr : q.rect = ⟨p.x + deltaX p, p.y + deltaY p, p.rect.w, p.rect.h⟩ := by
      rw [← hq]; simp [PlayerTank.newX_eq, PlayerTank.newY_eq]
    obtain ⟨h1, h2, h3, -⟩ := PlayerTank.updateInvincible_fields q.clamp e
    have hxy := PlayerTank.clamp_xy q (by rw [hqx, hqr]) (by rw [hqy, hqr])
    rw [h1, h2, h3, hxy.1, hxy.2, PlayerTank.clamp_rect, hqr]
    exact ⟨rfl, rfl, rfl⟩

/-- Witness of C1: the player at (40,720) holding Up, with no wall in the way,
moves to (40,717). -/
theorem PlayerTank.update_tryMove_witness :
    playerUp.alive = true ∧
    (0 ≤ playerUp.rect.x ∧ playerUp.rect.x ≤ 760 ∧ 0 ≤ playerUp.rect.y ∧ playerUp.rect.y ≤ 760) ∧
    (playerUp.update [] none env0).1.rect = ⟨40, 717, 40, 40⟩ :=
  ⟨rfl, by decide,
    ((PlayerTank.update_tryMove playerUp [] none env0 rfl (by decide)).2
      (by simp [blocked])).2.2.trans (by decide)⟩

/-! ## Arena bounds -/

theorem EnemyTank.chooseDirectionTowardsPlayer_rect (en : EnemyTank) (tgt : Option PlayerTank)
    (e : Env) : (en.chooseDirectionTowardsPlayer tgt e).1.rect = en.rect := by
  unfold EnemyTank.chooseDirectionTowardsPlayer
  cases tgt with
  | none => rfl
  | some t =>
    simp only []
    split <;> rfl

theorem EnemyTank.move_inside (en : EnemyTank) (dir : Int) (walls : List SDL_Rect)
    (tgt : Option PlayerTank) (e : Env)
    (hsize : en.rect.w = GRID_SIZE ∧ en.rect.h = GRID_SIZE) (hin : insideArena en.rect) :
    ((en.move dir walls tgt e).1.rect.w = GRID_SIZE ∧ (en.move dir walls tgt e).1.rect.h = GRID_SIZE) ∧
    insideArena (en.move dir walls tgt e).1.rect := by
  unfold EnemyTank.move
  by_cases hf : en.frozen = true
  · rw [if_pos hf]
    exact ⟨hsize, hin⟩
  · rw [if_neg hf]
    simp only []
    generalize en.rect.x + (if dir = 1 then -en.moveSpeed else if dir = 3 then en.moveSpeed else 0)
      = newX
    generalize en.rect.y + (if dir = 0 then -en.moveSpeed else if dir = 2 then en.moveSpeed else 0)
      = newY
    by_cases hb : newX ≥ 0 ∧ newX + GRID_SIZE ≤ SCREEN_WIDTH ∧ newY ≥ 0 ∧
        newY + GRID_SIZE ≤ SCREEN_HEIGHT
    · rw [if_pos hb]
      by_cases hc : (!EnemyTank.checkCollision newX newY walls) = true
      · rw [if_pos hc]
        refine ⟨hsize, ?_⟩
        unfold insideArena
        simp only [hsize.1, hsize.2]
        exact hb
      · rw [if_neg hc, EnemyTank.chooseDirectionTowardsPlayer_rect]
        exact ⟨hsize, hin⟩
    · rw [if_neg hb, EnemyTank.chooseDirectionTowardsPlayer_rect]
      exact ⟨hsize, hin⟩

theorem EnemyTank.shoot_rect (en : EnemyTank) : en.shoot.rect = en.rect := by
  unfold EnemyTank.shoot
  split <;> rfl

theorem EnemyTank.wander_inside (en : EnemyTank) (walls : List SDL_Rect)
    (tgt : Option PlayerTank) (e : Env)
    (hsize : en.rect.w = GRID_SIZE ∧ en.rect.h = GRID_SIZE) (hin : insideArena en.rect) :
    ((en.wander walls tgt e).1.rect.w = GRID_SIZE ∧ (en.wander walls tgt e).1.rect.h = GRID_SIZE) ∧
    insideArena (en.wander walls tgt e).1.rect := by
  unfold EnemyTank.wander
  simp only []
  split
  · exact EnemyTank.move_inside _ _ walls tgt _ hsize hin
  · exact EnemyTank.move_inside _ _ walls tgt _ hsize hin

theorem EnemyTank.seekMove_inside (en : EnemyTank) (walls : List SDL_Rect)
    (tgt : Option PlayerTank) (e : Env)
    (hsize : en.rect.w = GRID_SIZE ∧ en.rect.h = GRID_SIZE) (hin : insideArena en.rect) :
    ((en.seekMove walls tgt e).1.rect.w = GRID_SIZE ∧
      (en.seekMove walls tgt e).1.rect.h = GRID_SIZE) ∧
    insideArena (en.seekMove walls tgt e).1.rect := by
  unfold EnemyTank.seekMove
  simp only []
  split
  · have hr := EnemyTank.chooseDirectionTowardsPlayer_rect
      { en with moveTimer := en.moveTimer + 1 } tgt e
    exact EnemyTank.move_inside _ _ walls tgt _ (by simp only [hr]; exact hsize)
      (by simp only [hr]; exact hin)
  · exact EnemyTank.move_inside _ _ walls tgt _ hsize hin

theorem EnemyTank.seekFire_rect (en : EnemyTank) (walls : List SDL_Rect) (t : PlayerTank)
    (e : Env) : (en.seekFire walls t e).1.rect = en.rect := by
  unfold EnemyTank.seekFire
  simp only []
  split_ifs <;> simp only [EnemyTank.shoot_rect]

theorem EnemyTank.update_inside (en : EnemyTank) (walls : List SDL_Rect)
    (tgt : Option PlayerTank) (e : Env)
    (hsize : en.rect.w = GRID_SIZE ∧ en.rect.h = GRID_SIZE) (hin : insideArena en.rect) :
    ((en.update walls tgt e).1.rect.w = GRID_SIZE ∧ (en.update walls tgt e).1.rect.h = GRID_SIZE) ∧
    insideArena (en.update walls tgt e).1.rect := by
  unfold EnemyTank.update
  split
  · exact ⟨hsize, hin⟩
  · split
    · exact EnemyTank.wander_inside en walls none e hsize hin
    · rename_i t
      split
      · exact EnemyTank.wander_inside en walls (some t) e hsize hin
      · simp only []
        rw [EnemyTank.seekFire_rect]
        exact EnemyTank.seekMove_inside en walls (some t) e hsize hin

theorem clampCoord_bounds (v : Int) : 0 ≤ clampCoord v ∧ clampCoord v ≤ 760 := by
  unfold clampCoord
  split_ifs <;> omega

/-- C2: arena-bounds invariant.  After `PlayerTank::update` of an alive player
its hit-box satisfies `0 <= rect.x <= 760` and `0 <= rect.y <= 760` and keeps
its size; an enemy whose 40x40 hit-box is fully inside the arena before
`EnemyTank::update` or `EnemyTank::move` has it fully inside afterwards, for
every wall list, heading, target and environment (random draws). -/
theorem arena_bounds_invariant (p : PlayerTank) (en : EnemyTank) (walls : List SDL_Rect)
    (other : Option SDL_Rect) (tgt : Option PlayerTank) (dir : Int) (e : Env)
    (halive : p.alive = true)
    (hsize : en.rect.w = GRID_SIZE ∧ en.rect.h = GRID_SIZE) (hin : insideArena en.rect) :
    (0 ≤ (p.update walls other e).1.rect.x ∧ (p.update walls other e).1.rect.x ≤ 760 ∧
      0 ≤ (p.update walls other e).1.rect.y ∧ (p.update walls other e).1.rect.y ≤ 760 ∧
      (p.update walls other e).1.rect.w = p.rect.w ∧
      (p.update walls other e).1.rect.h = p.rect.h) ∧
    (insideArena (en.update walls tgt e).1.rect ∧
      (en.update walls tgt e).1.rect.w = GRID_SIZE ∧ (en.update walls tgt e).1.rect.h = GRID_SIZE) ∧
    (insideArena (en.move dir walls tgt e).1.rect ∧
      (en.move dir walls tgt e).1.rect.w = GRID_SIZE ∧
      (en.move dir walls tgt e).1.rect.h = GRID_SIZE) := by
  refine ⟨?_, ?_, ?_⟩
  · rw [PlayerTank.update_of_alive p walls other e halive]
    have hq : ∀ q : PlayerTank, q = (if p.canMove walls other then
          ({ p with direction := p.newDirection, x := p.newX, y := p.newY
                    rect := { p.rect with x := p.newX, y := p.newY } } : PlayerTank)
         else { p with direction := p.newDirection }) →
        q.rect.w = p.rect.w ∧ q.rect.h = p.rect.h := by
      intro q hq
      subst hq
      split <;> exact ⟨rfl, rfl⟩
    generalize (if p.canMove walls other then
          ({ p with direction := p.newDirection, x := p.newX, y := p.newY
                    rect := { p.rect with x := p.newX, y := p.newY } } : PlayerTank)
         else { p with direction := p.newDirection }) = q at hq
    obtain ⟨hw, hh⟩ := hq q rfl
    obtain ⟨-, -, h3, -⟩ := PlayerTank.updateInvincible_fields q.clamp e
    rw [h3, PlayerTank.clamp_rect]
    exact ⟨(clampCoord_bounds _).1, (clampCoord_bounds _).2, (clampCoord_bounds _).1,
      (clampCoord_bounds _).2, hw, hh⟩
  · obtain ⟨⟨h1, h2⟩, h3⟩ := EnemyTank.update_inside en walls tgt e hsize hin
    exact ⟨h3, h1, h2⟩
  · obtain ⟨⟨h1, h2⟩, h3⟩ := EnemyTank.move_inside en dir walls tgt e hsize hin
    exact ⟨h3, h1, h2⟩

/-- Witness of C2: the player at (40,720) holding Up and an enemy at (400,400)
heading Up, on an arena without walls. -/
theorem arena_bounds_invariant_witness :
    playerUp.alive = true ∧
    (enemyAt.rect.w = GRID_SIZE ∧ enemyAt.rect.h = GRID_SIZE) ∧ insideArena enemyAt.rect ∧
    (playerUp.update [] none env0).1.rect.y ≤ 760 ∧
    insideArena (enemyAt.update [] none env0).1.rect ∧
    insideArena (enemyAt.move 0 [] none env0).1.rect :=
  ⟨rfl, by decide, by decide,
    (arena_bounds_invariant playerUp enemyAt [] none none 0 env0 rfl (by decide) (by decide)).1.2.2.2.1,
    (arena_bounds_invariant playerUp enemyAt [] none none 0 env0 rfl (by decide) (by decide)).2.1.1,
    (arena_bounds_invariant playerUp enemyAt [] none none 0 env0 rfl (by decide) (by decide)).2.2.1⟩

/-! ## Damage -/

/-- C3: `PlayerTank::takeDamage`.  If `invincible` is true nothing changes; if
it is false, `health` decreases by exactly 100, `alive` becomes false exactly
when the resulting health is `<= 0` and is otherwise unchanged; no other field
changes. -/
theorem PlayerTank.takeDamage_spec (p : PlayerTank) :
    (p.invincible = true → p.takeDamage = p) ∧
    (p.invincible = false →
      p.takeDamage =
        { p with health := p.health - 100
                 alive := if p.health - 100 ≤ 0 then false else p.alive }) := by
  unfold PlayerTank.takeDamage
  constructor
  · intro h
    simp [h]
  · intro h
    simp only [h, Bool.not_false, if_true]
    split <;> rfl

/-- Witness of C3: a fresh player (health 1000, not invincible) drops to 900
and stays alive. -/
theorem PlayerTank.takeDamage_spec_witness :
    (PlayerTank.new 40 720).invincible = false ∧
    (PlayerTank.new 40 720).takeDamage =
      { PlayerTank.new 40 720 with health := 900, alive := true } :=
  ⟨rfl, ((PlayerTank.takeDamage_spec (PlayerTank.new 40 720)).2 rfl).trans (by decide)⟩

/-! ## Bullets -/

/-- C5: `Bullet::update` on an active bullet moves its rectangle by exactly
`(dx, dy)` (size and velocity unchanged), and the bullet is active afterwards
if and only if the moved rectangle intersects no wall and its position
satisfies `0 <= x <= 800` and `0 <= y <= 800`. -/
theorem Bullet.update_active (b : Bullet) (walls : List SDL_Rect) (hactive : b.active = true) :
    (b.update walls).rect = ⟨b.rect.x + b.dx, b.rect.y + b.dy, b.rect.w, b.rect.h⟩ ∧
    (b.update walls).dx = b.dx ∧ (b.update walls).dy = b.dy ∧
    ((b.update walls).active = true ↔
      ((∀ wall ∈ walls,
          SDL_HasIntersection ⟨b.rect.x + b.dx, b.rect.y + b.dy, b.rect.w, b.rect.h⟩ wall = false) ∧
        0 ≤ b.rect.x + b.dx ∧ b.rect.x + b.dx ≤ 800 ∧
        0 ≤ b.rect.y + b.dy ∧ b.rect.y + b.dy ≤ 800)) := by
  unfold Bullet.update
  rw [if_neg (by simp [hactive])]
  simp only []
  by_cases hw : hitsWall ⟨b.rect.x + b.dx, b.rect.y + b.dy, b.rect.w, b.rect.h⟩ walls = true
  · rw [if_pos hw]
    refine ⟨rfl, rfl, rfl, ?_⟩
    obtain ⟨wall, hmem, hint⟩ := (hitsWall_iff _ _).1 hw
    constructor
    · intro h
      exact absurd h (by simp)
    · rintro ⟨hall, -⟩
      rw [hall wall hmem] at hint
      exact absurd hint (by simp)
  · rw [if_neg hw]
    have hall : ∀ wall ∈ walls,
        SDL_HasIntersection ⟨b.rect.x + b.dx, b.rect.y + b.dy, b.rect.w, b.rect.h⟩ wall = false := by
      intro wall hmem
      cases hint : SDL_HasIntersection ⟨b.rect.x + b.dx, b.rect.y + b.dy, b.rect.w, b.rect.h⟩ wall
      · rfl
      · exact absurd ((hitsWall_iff _ _).2 ⟨wall, hmem, hint⟩) hw
    by_cases hout : b.rect.x + b.dx < 0 ∨ b.rect.x + b.dx > SCREEN_WIDTH ∨
        b.rect.y + b.dy < 0 ∨ b.rect.y + b.dy > SCREEN_HEIGHT
    · rw [if_pos hout]
      refine ⟨rfl, rfl, rfl, ?_⟩
      constructor
      · intro h
        exact absurd h (by simp)
      · rintro ⟨-, h1, h2, h3, h4⟩
        unfold SCREEN_WIDTH SCREEN_HEIGHT at hout
        omega
    · rw [if_neg hout]
      refine ⟨rfl, rfl, rfl, ?_⟩
      constructor
      · intro _
        unfold SCREEN_WIDTH SCREEN_HEIGHT at hout
        refine ⟨hall, ?_, ?_, ?_, ?_⟩ <;> omega
      · intro _
        exact hactive

/-- Witness of C5: the bullet fired Up from (55,735) moves to (55,730) and
stays active when there is no wall. -/
theorem Bullet.update_active_witness :
    (Bullet.new 55 735 0).active = true ∧
    ((Bullet.new 55 735 0).update []).rect = ⟨55, 730, 10, 10⟩ ∧
    ((Bullet.new 55 735 0).update []).active = true :=
  ⟨rfl, (Bullet.update_active (Bullet.new 55 735 0) [] rfl).1.trans (by decide),
    (Bullet.update_active (Bullet.new 55 735 0) [] rfl).2.2.2.2 (by decide)⟩

/-! ## Waves -/

theorem Game.enemiesToSpawn_eq (w : Int) (hw : 0 ≤ w) :
    Game.enemiesToSpawn w = min 10 (1 + w / 2) := by
  unfold Game.enemiesToSpawn
  rw [Int.tdiv_eq_ediv hw (by decide)]

/-- C8: the number of enemies `generateEnemies` tries to spawn for wave `w >= 1`
is `min(10, 1 + w/2)` with integer division (it is the number of slots of the
spawn loop); wave 1 gives 1, wave 2 gives 2, wave 4 gives 3, wave 20 gives 10;
the count is non-decreasing in `w` and never exceeds 10. -/
theorem Game.enemiesToSpawn_spec (g : Game) (e : Env) (w : Int) (hw : 1 ≤ w)
    (hg : g.waveNumber = w) :
    Game.enemiesToSpawn w = min 10 (1 + w / 2) ∧
    g.generateEnemies e = Game.spawnLoop { g with enemies := [] } (min 10 (1 + w / 2)).toNat e ∧
    Game.enemiesToSpawn w ≤ 10 ∧
    (∀ w2 : Int, w ≤ w2 → Game.enemiesToSpawn w ≤ Game.enemiesToSpawn w2) ∧
    Game.enemiesToSpawn 1 = 1 ∧ Game.enemiesToSpawn 2 = 2 ∧ Game.enemiesToSpawn 4 = 3 ∧
    Game.enemiesToSpawn 20 = 10 := by
  have h1 := Game.enemiesToSpawn_eq w (by omega)
  refine ⟨h1, ?_, ?_, ?_, by decide, by decide, by decide, by decide⟩
  · unfold Game.generateEnemies
    rw [hg, h1]
  · rw [h1]
    omega
  · intro w2 h2
    rw [h1, Game.enemiesToSpawn_eq w2 (by omega)]
    omega

/-- Witness of C8: a game in wave 4 runs the spawn loop for 3 slots. -/
theorem Game.enemiesToSpawn_spec_witness :
    (1 : Int) ≤ 4 ∧ ({ Game.new with waveNumber := 4 } : Game).waveNumber = 4 ∧
    Game.generateEnemies { Game.new with waveNumber := 4 } env0 =
      Game.spawnLoop { Game.new with waveNumber := 4 } 3 env0 :=
  ⟨by decide, rfl,
    (Game.enemiesToSpawn_spec { Game.new with waveNumber := 4 } env0 4 (by decide) rfl).2.1⟩

/-- What the spawn loop leaves unchanged, and how many enemies it can add. -/
theorem Game.spawnLoop_frame (n : Nat) : ∀ (g : Game) (e : Env),
    (Game.spawnLoop g n e).1.waveNumber = g.waveNumber ∧
    (Game.spawnLoop g n e).1.score = g.score ∧
    (Game.spawnLoop g n e).1.player1 = g.player1 ∧
    (Game.spawnLoop g n e).1.player2 = g.player2 ∧
    (Game.spawnLoop g n e).1.walls = g.walls ∧
    (Game.spawnLoop g n e).1.wallBreakable = g.wallBreakable ∧
    (Game.spawnLoop g n e).1.state = g.state ∧
    (Game.spawnLoop g n e).1.powerUp = g.powerUp ∧
    (Game.spawnLoop g n e).1.lastPowerUpSpawnTime = g.lastPowerUpSpawnTime ∧
    (Game.spawnLoop g n e).1.enemies.length ≤ g.enemies.length + n := by
  induction n with
  | zero =>
    intro g e
    simp [Game.spawnLoop]
  | succ n ih =>
    intro g e
    unfold Game.spawnLoop
    split
    · rename_i x y e1 _
      simp only []
      obtain ⟨h1, h2, h3, h4, h5, h6, h7, h8, h9, h10⟩ := ih
        { g with enemies := g.enemies ++ [(EnemyTank.new x y
            (if (e1.rand).1 % 2 = 0 ∨ g.player2.isNone then
              (if g.player1.isSome then some PlayerSlot.one else none)
             else some PlayerSlot.two) (e1.rand).2).1] }
        (EnemyTank.new x y
            (if (e1.rand).1 % 2 = 0 ∨ g.player2.isNone then
              (if g.player1.isSome then some PlayerSlot.one else none)
             else some PlayerSlot.two) (e1.rand).2).2
      refine ⟨h1, h2, h3, h4, h5, h6, h7, h8, h9, ?_⟩
      simp only [List.length_append, List.length_singleton] at h10
      omega
    · rename_i e1 _
      obtain ⟨h1, h2, h3, h4, h5, h6, h7, h8, h9, h10⟩ := ih g e1
      exact ⟨h1, h2, h3, h4, h5, h6, h7, h8, h9, by omega⟩

theorem Game.generateEnemies_frame (g : Game) (e : Env) :
    (g.generateEnemies e).1.waveNumber = g.waveNumber ∧
    (g.generateEnemies e).1.score = g.score ∧
    (g.generateEnemies e).1.player1 = g.player1 ∧
    (g.generateEnemies e).1.player2 = g.player2 ∧
    (g.generateEnemies e).1.walls = g.walls ∧
    (g.generateEnemies e).1.wallBreakable = g.wallBreakable ∧
    (g.generateEnemies e).1.state = g.state ∧
    (g.generateEnemies e).1.powerUp = g.powerUp ∧
    (g.generateEnemies e).1.lastPowerUpSpawnTime = g.lastPowerUpSpawnTime ∧
    (g.generateEnemies e).1.enemies.length ≤ (Game.enemiesToSpawn g.waveNumber).toNat := by
  unfold Game.generateEnemies
  obtain ⟨h1, h2, h3, h4, h5, h6, h7, h8, h9, h10⟩ := Game.spawnLoop_frame
    (Game.enemiesToSpawn g.waveNumber).toNat { g with enemies := [] } e
  refine ⟨h1, h2, h3, h4, h5, h6, h7, h8, h9, ?_⟩
  simpa using h10

theorem Game.checkWaveCompletion_nonempty (g : Game) (e : Env) (h : g.enemies ≠ []) :
    g.checkWaveCompletion e = (g, e) := by
  unfold Game.checkWaveCompletion
  rw [if_neg (by simpa [List.isEmpty_iff] using h)]

theorem Game.checkWaveCompletion_empty (g : Game) (e : Env) (hempty : g.enemies = []) :
    g.checkWaveCompletion e =
      Game.spawnLoop { g with waveNumber := g.waveNumber + 1, score := g.score + 500 }
        (Game.enemiesToSpawn (g.waveNumber + 1)).toNat e ∧
    (g.checkWaveCompletion e).1.waveNumber = g.waveNumber + 1 ∧
    (g.checkWaveCompletion e).1.score = g.score + 500 ∧
    (g.checkWaveCompletion e).1.enemies.length ≤
      (Game.enemiesToSpawn (g.waveNumber + 1)).toNat := by
  have hcall : g.checkWaveCompletion e =
      Game.generateEnemies { g with waveNumber := g.waveNumber + 1, score := g.score + 500 } e := by
    unfold Game.checkWaveCompletion
    rw [if_pos (by simp [hempty])]
    rfl
  obtain ⟨h1, h2, -, -, -, -, -, -, -, h10⟩ := Game.generateEnemies_frame
    { g with waveNumber := g.waveNumber + 1, score := g.score + 500 } e
  refine ⟨?_, ?_, ?_, ?_⟩
  · rw [hcall]
    unfold Game.generateEnemies
    cases g
    simp only at hempty
    subst hempty
    rfl
  · rw [hcall, h1]
  · rw [hcall, h2]
  · rw [hcall]
    exact h10

theorem Game.destroyLoop_eq (enemies : List EnemyTank) : ∀ score : Int,
    Game.destroyLoop enemies score =
      (enemies.map (fun en => { en with alive := false }),
        score + (enemies.length : Int) * 100) := by
  induction enemies with
  | nil =>
    intro score
    simp [Game.destroyLoop]
  | cons en rest ih =>
    intro score
    unfold Game.destroyLoop
    rw [ih]
    simp only [List.map_cons, List.length_cons, Game.scorePerEnemy, Prod.mk.injEq, true_and]
    push_cast
    ring

/-- C10: the Bomb power-up, `destroyAllEnemies`, with `n` enemies in the
collection: the first loop marks every one of them not alive and adds 100 to
the score for each, the erase statement then removes them all, and
`checkWaveCompletion` runs in the same call: the wave number increases by one,
the 500 wave bonus is added, and the enemies of the new wave are spawned. -/
theorem Game.destroyAllEnemies_spec (g : Game) (e : Env) :
    (∀ en ∈ (Game.destroyLoop g.enemies g.score).1, en.alive = false) ∧
    (Game.destroyLoop g.enemies g.score).1.length = g.enemies.length ∧
    (Game.destroyLoop g.enemies g.score).2 = g.score + (g.enemies.length : Int) * 100 ∧
    Game.eraseDead (Game.destroyLoop g.enemies g.score).1 = [] ∧
    g.destroyAllEnemies e =
      Game.checkWaveCompletion
        { g with enemies := [], score := g.score + (g.enemies.length : Int) * 100 } e ∧
    (g.destroyAllEnemies e).1.score = g.score + (g.enemies.length : Int) * 100 + 500 ∧
    (g.destroyAllEnemies e).1.waveNumber = g.waveNumber + 1 ∧
    (g.destroyAllEnemies e).1.enemies.length ≤ (Game.enemiesToSpawn (g.waveNumber + 1)).toNat := by
  have herase : Game.eraseDead (g.enemies.map (fun en => { en with alive := false })) = [] := by
    unfold Game.eraseDead
    rw [List.filter_eq_nil_iff]
    intro en hen
    obtain ⟨en0, -, rfl⟩ := List.mem_map.1 hen
    simp
  have hcall : g.destroyAllEnemies e =
      Game.checkWaveCompletion
        { g with enemies := [], score := g.score + (g.enemies.length : Int) * 100 } e := by
    unfold Game.destroyAllEnemies
    rw [Game.destroyLoop_eq]
    simp only [herase]
  obtain ⟨-, hw, hs, hl⟩ := Game.checkWaveCompletion_empty
    { g with enemies := [], score := g.score + (g.enemies.length : Int) * 100 } e rfl
  rw [Game.destroyLoop_eq]
  refine ⟨?_, ?_, rfl, herase, hcall, ?_, ?_, ?_⟩
  · intro en hen
    obtain ⟨en0, -, rfl⟩ := List.mem_map.1 hen
    rfl
  · simp
  · rw [hcall, hs]
  · rw [hcall, hw]
  · rw [hcall]
    exact hl

/-! ## The fire-Up scenario on the generated map -/

theorem Bullet.update_of_inactive (b : Bullet) (walls : List SDL_Rect) (h : b.active = false) :
    b.update walls = b := by
  unfold Bullet.update
  rw [if_pos (by simp [h])]

theorem Bullet.update_of_clear (b : Bullet) (walls : List SDL_Rect) (h : b.active = true)
    (hw : hitsWall ⟨b.rect.x + b.dx, b.rect.y + b.dy, b.rect.w, b.rect.h⟩ walls = false)
    (hx : 0 ≤ b.rect.x + b.dx ∧ b.rect.x + b.dx ≤ 800)
    (hy : 0 ≤ b.rect.y + b.dy ∧ b.rect.y + b.dy ≤ 800) :
    b.update walls =
      { b with rect := ⟨b.rect.x + b.dx, b.rect.y + b.dy, b.rect.w, b.rect.h⟩ } := by
  unfold Bullet.update
  rw [if_neg (by simp [h])]
  simp only []
  rw [if_neg (by simp [hw]), if_neg (by unfold SCREEN_WIDTH SCREEN_HEIGHT; omega)]

theorem Bullet.update_of_hit (b : Bullet) (walls : List SDL_Rect) (h : b.active = true)
    (hw : hitsWall ⟨b.rect.x + b.dx, b.rect.y + b.dy, b.rect.w, b.rect.h⟩ walls = true) :
    b.update walls =
      { b with rect := ⟨b.rect.x + b.dx, b.rect.y + b.dy, b.rect.w, b.rect.h⟩
               active := false } := by
  unfold Bullet.update
  rw [if_neg (by simp [h])]
  simp only []
  rw [if_pos hw]

set_option maxRecDepth 100000 in
/-- Every wall of the generated map is a grid cell, and the only walls of the
column `x = 40` are those of the top and bottom border rows. -/
theorem arenaWalls_column : ∀ wall ∈ arenaWalls,
    wall.w = 40 ∧ wall.h = 40 ∧ wall.x % 40 = 0 ∧ (wall.x = 40 → wall.y = 0 ∨ wall.y = 760) := by
  decide

set_option maxRecDepth 100000 in
theorem arenaWalls_top : (⟨40, 0, 40, 40⟩ : SDL_Rect) ∈ arenaWalls := by
  decide

/-- A 10x10 rectangle in the column `x = 55` touches no wall of the generated
map while it is between the two border rows. -/
theorem arenaWalls_clear (y : Int) (h0 : 40 ≤ y) (h1 : y ≤ 750) :
    hitsWall ⟨55, y, 10, 10⟩ arenaWalls = false := by
  cases h : hitsWall ⟨55, y, 10, 10⟩ arenaWalls with
  | false => rfl
  | true =>
    exfalso
    obtain ⟨wall, hmem, hint⟩ := (hitsWall_iff _ _).1 h
    obtain ⟨hw, hh, hmod, hcol⟩ := arenaWalls_column wall hmem
    unfold SDL_HasIntersection at hint
    simp only [hw, hh] at hint
    split_ifs at hint <;> omega

theorem arenaWalls_hit_top : hitsWall ⟨55, 35, 10, 10⟩ arenaWalls = true :=
  (hitsWall_iff _ _).2 ⟨⟨40, 0, 40, 40⟩, arenaWalls_top, by decide⟩

theorem Bullet.updateN_flight (k : Nat) (hk : k < 140) :
    Bullet.updateN arenaWalls k (Bullet.new 55 735 0) =
      ⟨⟨55, 735 - 5 * (k : Int), 10, 10⟩, 0, -5, true⟩ := by
  induction k with
  | zero => rfl
  | succ k ih =>
    have hprev := ih (by omega)
    unfold Bullet.updateN
    rw [hprev, Bullet.update_of_clear _ _ rfl]
    · simp only [Bullet.mk.injEq, SDL_Rect.mk.injEq, and_true, true_and]
      refine ⟨by norm_num, ?_⟩
      push_cast
      ring
    · have := arenaWalls_clear (735 - 5 * (k : Int) + -5) (by omega) (by omega)
      simpa using this
    · simp
    · simp only []
      omega

theorem Bullet.updateN_stop :
    Bullet.updateN arenaWalls 140 (Bullet.new 55 735 0) = ⟨⟨55, 35, 10, 10⟩, 0, -5, false⟩ := by
  unfold Bullet.updateN
  rw [Bullet.updateN_flight 139 (by decide), Bullet.update_of_hit _ _ rfl]
  · simp
  · exact arenaWalls_hit_top

theorem Bullet.updateN_after (j : Nat) :
    Bullet.updateN arenaWalls (140 + j) (Bullet.new 55 735 0) = ⟨⟨55, 35, 10, 10⟩, 0, -5, false⟩ := by
  induction j with
  | zero => exact Bullet.updateN_stop
  | succ j ih =>
    show (Bullet.updateN arenaWalls (140 + j) (Bullet.new 55 735 0)).update arenaWalls = _
    rw [ih, Bullet.update_of_inactive _ _ rfl]

/-- C7: scenario on the generated map.  A player at (40,720) facing Up fires:
the projectile is created at (55,735) with velocity (0,-5).  Under repeated
`Bullet::update` against the walls of the map it is active after each of the
first 139 updates, at `y = 735 - 5k` after the `k`-th; the 140th update
deactivates it on the top obstacle row at `y = 35`; its `y` is never negative,
however many updates follow. -/
theorem Bullet.scenario_fire_up :
    (PlayerTank.new 40 720).direction = 0 ∧
    (PlayerTank.new 40 720).shoot.bullets = [Bullet.new 55 735 0] ∧
    Bullet.new 55 735 0 = ⟨⟨55, 735, 10, 10⟩, 0, -5, true⟩ ∧
    (∀ k : Nat, k < 140 →
      (Bullet.updateN arenaWalls k (Bullet.new 55 735 0)).active = true ∧
      (Bullet.updateN arenaWalls k (Bullet.new 55 735 0)).rect =
        ⟨55, 735 - 5 * (k : Int), 10, 10⟩) ∧
    (Bullet.updateN arenaWalls 140 (Bullet.new 55 735 0)).active = false ∧
    (Bullet.updateN arenaWalls 140 (Bullet.new 55 735 0)).rect = ⟨55, 35, 10, 10⟩ ∧
    (∀ k : Nat, 0 ≤ (Bullet.updateN arenaWalls k (Bullet.new 55 735 0)).rect.y) := by
  refine ⟨rfl, by decide, by decide, ?_, ?_, ?_, ?_⟩
  · intro k hk
    rw [Bullet.updateN_flight k hk]
    exact ⟨rfl, rfl⟩
  · rw [Bullet.updateN_stop]
  · rw [Bullet.updateN_stop]
  · intro k
    by_cases hk : k < 140
    · rw [Bullet.updateN_flight k hk]
      simp only []
      omega
    · obtain ⟨j, rfl⟩ : ∃ j, k = 140 + j := ⟨k - 140, by omega⟩
      rw [Bullet.updateN_after]
      decide

/-- Witness of C7: after 139 updates the projectile is still active, at
(55,40), just below the top obstacle row. -/
theorem Bullet.scenario_fire_up_witness :
    (139 : Nat) < 140 ∧
    (Bullet.updateN arenaWalls 139 (Bullet.new 55 735 0)).active = true ∧
    (Bullet.updateN arenaWalls 139 (Bullet.new 55 735 0)).rect = ⟨55, 40, 10, 10⟩ :=
  ⟨by decide, (Bullet.scenario_fire_up.2.2.2.1 139 (by decide)).1,
    (Bullet.scenario_fire_up.2.2.2.1 139 (by decide)).2.trans (by decide)⟩

/-! ## Health bounds -/

theorem PlayerTank.healthInv_congr (p q : PlayerTank) (h1 : q.health = p.health)
    (h2 : q.alive = p.alive) (h3 : q.invincible = p.invincible) (h : p.healthInv) :
    q.healthInv := by
  unfold PlayerTank.healthInv at *
  rw [h1, h2, h3]
  exact h

theorem PlayerTank.healthInv_new (x y : Int) : (PlayerTank.new x y).healthInv := by
  unfold PlayerTank.healthInv PlayerTank.new PlayerTank.maxHealth
  simp

theorem PlayerTank.clamp_fields (p : PlayerTank) :
    p.clamp.health = p.health ∧ p.clamp.alive = p.alive ∧ p.clamp.invincible = p.invincible := by
  unfold PlayerTank.clamp
  simp only []
  split_ifs <;> exact ⟨rfl, rfl, rfl⟩

theorem PlayerTank.healthInv_update (p : PlayerTank) (walls : List SDL_Rect)
    (other : Option SDL_Rect) (e : Env) (h : p.healthInv) :
    (p.update walls other e).1.healthInv := by
  cases halive : p.alive with
  | false =>
    unfold PlayerTank.update
    rw [if_pos (by simp [halive])]
    exact h
  | true =>
    rw [PlayerTank.update_of_alive p walls other e halive]
    have hq : ∀ q : PlayerTank, q = (if p.canMove walls other then
          ({ p with direction := p.newDirection, x := p.newX, y := p.newY
                    rect := { p.rect with x := p.newX, y := p.newY } } : PlayerTank)
         else { p with direction := p.newDirection }) →
        q.health = p.health ∧ q.alive = p.alive := by
      intro q hq
      subst hq
      split <;> exact ⟨rfl, rfl⟩
    generalize (if p.canMove walls other then
          ({ p with direction := p.newDirection, x := p.newX, y := p.newY
                    rect := { p.rect with x := p.newX, y := p.newY } } : PlayerTank)
         else { p with direction := p.newDirection }) = q at hq
    obtain ⟨hh, ha⟩ := hq q rfl
    obtain ⟨-, -, -, h4, h5, -⟩ := PlayerTank.updateInvincible_fields q.clamp e
    obtain ⟨c1, c2, -⟩ := PlayerTank.clamp_fields q
    unfold PlayerTank.healthInv at *
    rw [h4, h5, c1, c2, hh, ha]
    obtain ⟨i1, i2, i3, i4, -⟩ := h
    refine ⟨i1, i2, i3, i4, ?_⟩
    intro hdead
    rw [halive] at hdead
    exact absurd hdead (by simp)

theorem PlayerTank.healthInv_heal (p : PlayerTank) (h : p.healthInv) :
    (p.heal 200).healthInv := by
  unfold PlayerTank.heal PlayerTank.maxHealth
  split
  · unfold PlayerTank.healthInv at *
    simp only []
    obtain ⟨i1, i2, i3, i4, i5⟩ := h
    refine ⟨by omega, by omega, by omega, fun _ => by omega, i5⟩
  · exact h

theorem PlayerTank.healthInv_activateInvincible (p : PlayerTank) (duration : Nat) (e : Env)
    (h : p.healthInv) : (p.activateInvincible duration e).1.healthInv := by
  unfold PlayerTank.activateInvincible
  split
  · unfold PlayerTank.healthInv at *
    simp only []
    obtain ⟨i1, i2, i3, i4, -⟩ := h
    exact ⟨i1, i2, i3, i4, fun _ => trivial⟩
  · exact h

theorem Game.healthInv_hitPlayer (p : PlayerTank) (bullet : Bullet) (e : Env)
    (h : p.healthInv) : (Game.hitPlayer p bullet e).1.healthInv := by
  unfold Game.hitPlayer
  split
  · cases hinv : p.invincible with
    | true =>
      rw [if_neg (by simp)]
      exact h
    | false =>
      rw [if_pos (by simp)]
      obtain ⟨i1, i2, i3, i4, i5⟩ := h
      have halive : p.alive = true := by
        cases ha : p.alive with
        | true => rfl
        | false =>
          rw [i5 ha] at hinv
          exact absurd hinv (by simp)
      have h100 := i4 halive
      unfold PlayerTank.takeDamage PlayerTank.activateInvincible
      simp only [hinv, Bool.not_false, if_true]
      by_cases hz : p.health - 100 ≤ 0
      · rw [if_pos hz]
        simp only [hinv, Bool.not_false, if_true]
        unfold PlayerTank.healthInv
        simp only []
        refine ⟨by omega, by omega, by omega, fun hc => absurd hc (by simp), fun _ => trivial⟩
      · rw [if_neg hz]
        simp only [hinv, Bool.not_false, if_true]
        unfold PlayerTank.healthInv
        simp only []
        refine ⟨by omega, by omega, by omega, fun _ => by omega, fun _ => trivial⟩
  · exact h

theorem Game.healthInv_hitPlayerLoop (bullets : List Bullet) : ∀ (p : PlayerTank) (e : Env),
    p.healthInv → (Game.hitPlayerLoop p bullets e).1.healthInv := by
  induction bullets with
  | nil =>
    intro p e h
    exact h
  | cons bullet rest ih =>
    intro p e h
    unfold Game.hitPlayerLoop
    exact ih _ _ (Game.healthInv_hitPlayer p bullet e h)

theorem Game.healthInv_hitPlayerOpt (player : Option PlayerTank) (bullets : List Bullet)
    (e : Env) (h : ∀ p, player = some p → p.healthInv) :
    ∀ p, (Game.hitPlayerOpt player bullets e).1 = some p → p.healthInv := by
  intro p hp
  unfold Game.hitPlayerOpt at hp
  cases player with
  | none => simp at hp
  | some q =>
    simp only [Option.some.injEq] at hp
    rw [← hp]
    exact Game.healthInv_hitPlayerLoop bullets q e (h q rfl)

theorem Game.healthInv_hitEnemyOpt (player : Option PlayerTank) (enemy : EnemyTank)
    (score : Int) (h : ∀ p, player = some p → p.healthInv) :
    ∀ p, (Game.hitEnemyOpt player enemy score).1 = some p → p.healthInv := by
  intro p hp
  unfold Game.hitEnemyOpt at hp
  cases player with
  | none => simp at hp
  | some q =>
    simp only [Option.some.injEq] at hp
    rw [← hp]
    exact PlayerTank.healthInv_congr q _ rfl rfl rfl (h q rfl)

theorem Game.healthInv_enemyStep (g : Game) (enemy : EnemyTank) (e : Env)
    (h : g.playersSatisfy PlayerTank.healthInv) :
    (Game.enemyStep g enemy e).1.playersSatisfy PlayerTank.healthInv := by
  unfold Game.enemyStep
  simp only []
  obtain ⟨h1, h2⟩ := h
  constructor
  · intro p hp
    exact Game.healthInv_hitEnemyOpt _ _ _ (Game.healthInv_hitPlayerOpt _ _ _ h1) p hp
  · intro p hp
    exact Game.healthInv_hitEnemyOpt _ _ _ (Game.healthInv_hitPlayerOpt _ _ _ h2) p hp

theorem Game.healthInv_enemyLoop (enemies : List EnemyTank) : ∀ (g : Game) (e : Env),
    g.playersSatisfy PlayerTank.healthInv →
    (Game.enemyLoop g enemies e).1.playersSatisfy PlayerTank.healthInv := by
  induction enemies with
  | nil =>
    intro g e h
    exact h
  | cons enemy rest ih =>
    intro g e h
    unfold Game.enemyLoop
    exact ih _ _ (Game.healthInv_enemyStep g enemy e h)

theorem Game.healthInv_updateEnemies (g : Game) (e : Env)
    (h : g.playersSatisfy PlayerTank.healthInv) :
    (g.updateEnemies e).1.playersSatisfy PlayerTank.healthInv := by
  unfold Game.updateEnemies
  exact Game.healthInv_enemyLoop g.enemies g e h

theorem Game.healthInv_updatePlayers (g : Game) (e : Env)
    (h : g.playersSatisfy PlayerTank.healthInv) :
    (g.updatePlayers e).1.playersSatisfy PlayerTank.healthInv := by
  obtain ⟨h1, h2⟩ := h
  unfold Game.updatePlayers
  cases hp1 : g.player1 with
  | none =>
    cases hp2 : g.player2 with
    | none =>
      simp only [hp1, hp2]
      exact ⟨by simp [hp1], by simp [hp2]⟩
    | some q =>
      simp only [hp1, hp2]
      refine ⟨by simp [hp1], ?_⟩
      intro p hp
      simp only [Option.some.injEq] at hp
      rw [← hp]
      exact PlayerTank.healthInv_congr _ _ rfl rfl rfl
        (PlayerTank.healthInv_update q _ _ _ (h2 q hp2))
  | some q1 =>
    cases hp2 : g.player2 with
    | none =>
      simp only [hp1, hp2]
      refine ⟨?_, by simp⟩
      intro p hp
      simp only [Option.some.injEq] at hp
      rw [← hp]
      exact PlayerTank.healthInv_congr _ _ rfl rfl rfl
        (PlayerTank.healthInv_update q1 _ _ _ (h1 q1 hp1))
    | some q2 =>
      simp only [hp1, hp2]
      constructor
      · intro p hp
        simp only [Option.some.injEq] at hp
        rw [← hp]
        exact PlayerTank.healthInv_congr _ _ rfl rfl rfl
          (PlayerTank.healthInv_update q1 _ _ _ (h1 q1 hp1))
      · intro p hp
        simp only [Option.some.injEq] at hp
        rw [← hp]
        exact PlayerTank.healthInv_congr _ _ rfl rfl rfl
          (PlayerTank.healthInv_update q2 _ _ _ (h2 q2 hp2))

theorem Game.checkWaveCompletion_players (g : Game) (e : Env) :
    (g.checkWaveCompletion e).1.player1 = g.player1 ∧
    (g.checkWaveCompletion e).1.player2 = g.player2 := by
  unfold Game.checkWaveCompletion
  split
  · obtain ⟨-, -, h3, h4, -⟩ := Game.generateEnemies_frame
      { g with waveNumber := g.waveNumber + 1, score := g.score + Game.waveBonus } e
    exact ⟨h3, h4⟩
  · exact ⟨rfl, rfl⟩

theorem Game.playersSatisfy_congr (P : PlayerTank → Prop) (g g2 : Game)
    (h1 : g2.player1 = g.player1) (h2 : g2.player2 = g.player2) (h : g.playersSatisfy P) :
    g2.playersSatisfy P := by
  unfold Game.playersSatisfy at *
  rw [h1, h2]
  exact h

theorem Game.spawnRandomPowerUp_players (g : Game) (e : Env) :
    (g.spawnRandomPowerUp e).1.player1 = g.player1 ∧
    (g.spawnRandomPowerUp e).1.player2 = g.player2 := by
  unfold Game.spawnRandomPowerUp
  split
  · exact ⟨rfl, rfl⟩
  · simp only []
    split
    · split
      · exact ⟨rfl, rfl⟩
      · exact ⟨rfl, rfl⟩
    · exact ⟨rfl, rfl⟩

theorem Game.freezeAllEnemies_players (g : Game) (duration : Nat) (e : Env) :
    (g.freezeAllEnemies duration e).1.player1 = g.player1 ∧
    (g.freezeAllEnemies duration e).1.player2 = g.player2 :=
  ⟨rfl, rfl⟩

theorem Game.destroyAllEnemies_players (g : Game) (e : Env) :
    (g.destroyAllEnemies e).1.player1 = g.player1 ∧
    (g.destroyAllEnemies e).1.player2 = g.player2 := by
  unfold Game.destroyAllEnemies
  simp only []
  obtain ⟨h1, h2⟩ := Game.checkWaveCompletion_players
    { g with enemies := Game.eraseDead (Game.destroyLoop g.enemies g.score).1
             score := (Game.destroyLoop g.enemies g.score).2 } e
  exact ⟨h1, h2⟩

theorem Game.playersSatisfy_setPlayer (P : PlayerTank → Prop) (g : Game) (slot : PlayerSlot)
    (p : PlayerTank) (h : g.playersSatisfy P) (hp : P p) : (g.setPlayer slot p).playersSatisfy P := by
  obtain ⟨h1, h2⟩ := h
  cases slot with
  | one =>
    refine ⟨?_, h2⟩
    intro q hq
    simp only [Game.setPlayer, Option.some.injEq] at hq
    rw [← hq]
    exact hp
  | two =>
    refine ⟨h1, ?_⟩
    intro q hq
    simp only [Game.setPlayer, Option.some.injEq] at hq
    rw [← hq]
    exact hp

theorem Game.collector_eq_some (g : Game) (slot : PlayerSlot) (p : PlayerTank)
    (h : g.collector slot = some p) : g.player slot = some p ∧ p.alive = true := by
  unfold Game.collector at h
  cases hp : g.player slot with
  | none => simp [hp] at h
  | some q =>
    simp only [hp] at h
    split at h
    · rename_i hc
      simp only [Option.some.injEq] at h
      subst h
      simp only [Bool.and_eq_true] at hc
      exact ⟨rfl, hc.1⟩
    · simp at h

theorem Game.healthInv_applyPowerUpEffect (g : Game) (slot : PlayerSlot) (p : PlayerTank)
    (e : Env) (h : g.playersSatisfy PlayerTank.healthInv) (hp : p.healthInv) :
    (g.applyPowerUpEffect slot p e).1.playersSatisfy PlayerTank.healthInv := by
  unfold Game.applyPowerUpEffect
  split
  · exact Game.playersSatisfy_setPlayer _ g slot _ h (PlayerTank.healthInv_heal p hp)
  · exact Game.playersSatisfy_congr _ g _ (Game.freezeAllEnemies_players g 5000 e).1
      (Game.freezeAllEnemies_players g 5000 e).2 h
  · exact Game.playersSatisfy_setPlayer _ g slot _ h
      (PlayerTank.healthInv_activateInvincible p 5000 e hp)
  · exact Game.playersSatisfy_congr _ g _ (Game.destroyAllEnemies_players g e).1
      (Game.destroyAllEnemies_players g e).2 h
  · exact h

theorem Game.healthInv_checkPowerUpCollision (g : Game) (e : Env)
    (h : g.playersSatisfy PlayerTank.healthInv) :
    (g.checkPowerUpCollision e).1.playersSatisfy PlayerTank.healthInv := by
  unfold Game.checkPowerUpCollision
  split
  · exact h
  · split
    · rename_i p hc
      have hp : p.healthInv := h.1 p (Game.collector_eq_some g .one p hc).1
      exact Game.playersSatisfy_congr _ _ _ rfl rfl
        (Game.healthInv_applyPowerUpEffect g .one p e h hp)
    · split
      · rename_i p hc
        have hp : p.healthInv := h.2 p (Game.collector_eq_some g .two p hc).1
        exact Game.playersSatisfy_congr _ _ _ rfl rfl
          (Game.healthInv_applyPowerUpEffect g .two p e h hp)
      · exact h

theorem Game.healthInv_updatePowerUp (g : Game) (e : Env)
    (h : g.playersSatisfy PlayerTank.healthInv) :
    (g.updatePowerUp e).1.playersSatisfy PlayerTank.healthInv := by
  unfold Game.updatePowerUp
  simp only []
  apply Game.healthInv_checkPowerUpCollision
  exact Game.playersSatisfy_congr _ g _ (Game.spawnRandomPowerUp_players g e).1
    (Game.spawnRandomPowerUp_players g e).2 h

theorem Game.healthInv_worldTick (g : Game) (e : Env)
    (h : g.playersSatisfy PlayerTank.healthInv) :
    (g.update e).1.playersSatisfy PlayerTank.healthInv := by
  unfold Game.update
  split
  · simp only []
    have h1 := Game.healthInv_updatePlayers g e h
    have h2 := Game.healthInv_updateEnemies _ (g.updatePlayers e).2 h1
    have h3 := Game.playersSatisfy_congr _ _ _
      (Game.checkWaveCompletion_players _ ((g.updatePlayers e).1.updateEnemies (g.updatePlayers e).2).2).1
      (Game.checkWaveCompletion_players _ ((g.updatePlayers e).1.updateEnemies (g.updatePlayers e).2).2).2
      h2
    have h4 := Game.healthInv_updatePowerUp _
      ((((g.updatePlayers e).1.updateEnemies (g.updatePlayers e).2).1.checkWaveCompletion
        ((g.updatePlayers e).1.updateEnemies (g.updatePlayers e).2).2).2) h3
    unfold Game.checkGameOver
    split
    · exact Game.playersSatisfy_congr _ _ _ rfl rfl h4
    · exact h4
  · exact h

theorem Game.healthInv_handleInput (g : Game) (event : PlayerTank.SDL_Event)
    (h : g.playersSatisfy PlayerTank.healthInv) :
    (g.handleInput event).playersSatisfy PlayerTank.healthInv := by
  have hin : ∀ (p : PlayerTank) (b : Bool), p.healthInv → (p.handleInput event b).healthInv := by
    intro p b hp
    unfold PlayerTank.handleInput
    split
    · exact hp
    · simp only []
      split
      · split <;> first
          | exact PlayerTank.healthInv_congr p _ rfl rfl rfl hp
          | (split <;> exact PlayerTank.healthInv_congr p _ rfl rfl rfl hp)
      · split <;> first
          | exact PlayerTank.healthInv_congr p _ rfl rfl rfl hp
          | (split <;> exact PlayerTank.healthInv_congr p _ rfl rfl rfl hp)
  obtain ⟨h1, h2⟩ := h
  unfold Game.handleInput
  split
  · cases hp1 : g.player1 with
    | none =>
      cases hp2 : g.player2 with
      | none =>
        simp only [hp1, hp2]
        exact ⟨by simp [hp1], by simp [hp2]⟩
      | some q2 =>
        simp only [hp1, hp2]
        refine ⟨by simp [hp1], ?_⟩
        intro p hp
        simp only [Option.some.injEq] at hp
        rw [← hp]
        exact hin q2 false (h2 q2 hp2)
    | some q1 =>
      cases hp2 : g.player2 with
      | none =>
        simp only [hp1, hp2]
        refine ⟨?_, by simp⟩
        intro p hp
        simp only [Option.some.injEq] at hp
        rw [← hp]
        exact hin q1 true (h1 q1 hp1)
      | some q2 =>
        simp only [hp1, hp2]
        constructor
        · intro p hp
          simp only [Option.some.injEq] at hp
          rw [← hp]
          exact hin q1 true (h1 q1 hp1)
        · intro p hp
          simp only [Option.some.injEq] at hp
          rw [← hp]
          exact hin q2 false (h2 q2 hp2)
  · exact ⟨h1, h2⟩

theorem Game.resetGame_players (g : Game) (e : Env) :
    (∃ x y : Int, (g.resetGame e).1.player1 = some (PlayerTank.new x y)) ∧
    ((∃ x y : Int, (g.resetGame e).1.player2 = some (PlayerTank.new x y)) ∨
      (g.state ≠ .STATE_2P ∧ (g.resetGame e).1.player2 = g.player2)) := by
  unfold Game.resetGame
  simp only []
  by_cases hs : g.state = .STATE_2P
  · simp only [Game.generateMap, hs, if_true]
    rw [(Game.generateEnemies_frame _ e).2.2.1, (Game.generateEnemies_frame _ e).2.2.2.1]
    exact ⟨⟨_, _, rfl⟩, Or.inl ⟨_, _, rfl⟩⟩
  · simp only [Game.generateMap, hs, if_false]
    rw [(Game.generateEnemies_frame _ e).2.2.1, (Game.generateEnemies_frame _ e).2.2.2.1]
    exact ⟨⟨_, _, rfl⟩, Or.inr ⟨hs, rfl⟩⟩

theorem Game.healthInv_resetGame (g : Game) (e : Env)
    (h : g.state = .STATE_2P ∨ g.player2 = none) :
    (g.resetGame e).1.playersSatisfy PlayerTank.healthInv := by
  obtain ⟨⟨x, y, h1⟩, h2⟩ := Game.resetGame_players g e
  constructor
  · intro p hp
    rw [h1] at hp
    simp only [Option.some.injEq] at hp
    rw [← hp]
    exact PlayerTank.healthInv_new x y
  · intro p hp
    rcases h2 with ⟨x2, y2, h2⟩ | ⟨hs, h2⟩
    · rw [h2] at hp
      simp only [Option.some.injEq] at hp
      rw [← hp]
      exact PlayerTank.healthInv_new x2 y2
    · rcases h with h | h
      · exact absurd h hs
      · rw [h2, h] at hp
        simp at hp

theorem Game.healthInv_reachable (g : Game) (h : Game.Reachable g) :
    g.playersSatisfy PlayerTank.healthInv := by
  induction h with
  | reset g e h => exact Game.healthInv_resetGame g e h
  | input g event _ ih => exact Game.healthInv_handleInput g event ih
  | tick g e _ ih => exact Game.healthInv_worldTick g e ih

/-- C4: health bounds invariant.  In every state reachable from a freshly
reset game through any number of world ticks and input events, whatever the
clock readings and random draws, each player's health satisfies
`0 <= health <= 1000`, whether the player is alive or dead. -/
theorem Game.health_bounds (g : Game) (h : Game.Reachable g) :
    (∀ p, g.player1 = some p → 0 ≤ p.health ∧ p.health ≤ PlayerTank.maxHealth) ∧
    (∀ p, g.player2 = some p → 0 ≤ p.health ∧ p.health ≤ PlayerTank.maxHealth) := by
  obtain ⟨h1, h2⟩ := Game.healthInv_reachable g h
  exact ⟨fun p hp => ⟨(h1 p hp).1, (h1 p hp).2.1⟩, fun p hp => ⟨(h2 p hp).1, (h2 p hp).2.1⟩⟩

/-- Witness of C4: the single-player game after its reset and one world tick. -/
theorem Game.health_bounds_witness :
    Game.Reachable
      (Game.update (Game.resetGame { Game.new with state := .STATE_1P } env0).1 env0).1 ∧
    (∀ p, (Game.update (Game.resetGame { Game.new with state := .STATE_1P } env0).1 env0).1.player1
        = some p → 0 ≤ p.health ∧ p.health ≤ PlayerTank.maxHealth) :=
  ⟨Game.Reachable.tick _ env0 (Game.Reachable.reset _ env0 (Or.inr rfl)),
    (Game.health_bounds _
      (Game.Reachable.tick _ env0 (Game.Reachable.reset _ env0 (Or.inr rfl)))).1⟩

/-! ## Monotonic deactivation of projectiles -/

theorem EnemyTank.chooseDirectionTowardsPlayer_bullets (en : EnemyTank)
    (tgt : Option PlayerTank) (e : Env) :
    (en.chooseDirectionTowardsPlayer tgt e).1.bullets = en.bullets := by
  unfold EnemyTank.chooseDirectionTowardsPlayer
  cases tgt with
  | none => rfl
  | some t =>
    simp only []
    split <;> rfl

theorem EnemyTank.move_bullets (en : EnemyTank) (dir : Int) (walls : List SDL_Rect)
    (tgt : Option PlayerTank) (e : Env) : (en.move dir walls tgt e).1.bullets = en.bullets := by
  unfold EnemyTank.move
  by_cases hf : en.frozen = true
  · rw [if_pos hf]
  · rw [if_neg hf]
    simp only []
    generalize en.rect.x + (if dir = 1 then -en.moveSpeed else if dir = 3 then en.moveSpeed else 0)
      = newX
    generalize en.rect.y + (if dir = 0 then -en.moveSpeed else if dir = 2 then en.moveSpeed else 0)
      = newY
    by_cases hb : newX ≥ 0 ∧ newX + GRID_SIZE ≤ SCREEN_WIDTH ∧ newY ≥ 0 ∧
        newY + GRID_SIZE ≤ SCREEN_HEIGHT
    · rw [if_pos hb]
      by_cases hc : (!EnemyTank.checkCollision newX newY walls) = true
      · rw [if_pos hc]
      · rw [if_neg hc, EnemyTank.chooseDirectionTowardsPlayer_bullets]
    · rw [if_neg hb, EnemyTank.chooseDirectionTowardsPlayer_bullets]

theorem EnemyTank.wander_bullets (en : EnemyTank) (walls : List SDL_Rect)
    (tgt : Option PlayerTank) (e : Env) : (en.wander walls tgt e).1.bullets = en.bullets := by
  unfold EnemyTank.wander
  simp only []
  split <;> rw [EnemyTank.move_bullets]

theorem EnemyTank.seekMove_bullets (en : EnemyTank) (walls : List SDL_Rect)
    (tgt : Option PlayerTank) (e : Env) : (en.seekMove walls tgt e).1.bullets = en.bullets := by
  unfold EnemyTank.seekMove
  simp only []
  split
  · rw [EnemyTank.move_bullets]
    exact EnemyTank.chooseDirectionTowardsPlayer_bullets _ tgt e
  · rw [EnemyTank.move_bullets]

/-- C11: power-up mutual exclusion.  When the power-up slot is active,
`spawnRandomPowerUp` is a no-op for every clock reading and random draw: the
game (in particular the power-up's rectangle, type, active flag and spawnTime
and `lastPowerUpSpawnTime`) is unchanged, and neither the clock nor the random
source is consulted. -/
theorem Game.spawnRandomPowerUp_active (g : Game) (e : Env) (h : g.powerUp.active = true) :
    g.spawnRandomPowerUp e = (g, e) ∧
    (g.spawnRandomPowerUp e).1.powerUp.rect = g.powerUp.rect ∧
    (g.spawnRandomPowerUp e).1.powerUp.type = g.powerUp.type ∧
    (g.spawnRandomPowerUp e).1.powerUp.active = true ∧
    (g.spawnRandomPowerUp e).1.powerUp.spawnTime = g.powerUp.spawnTime ∧
    (g.spawnRandomPowerUp e).1.lastPowerUpSpawnTime = g.lastPowerUpSpawnTime := by
  have hcall : g.spawnRandomPowerUp e = (g, e) := by
    unfold Game.spawnRandomPowerUp
    rw [if_pos h]
  rw [hcall]
  exact ⟨rfl, rfl, rfl, h, rfl, rfl⟩

/-- Witness of C11: a game with an active power-up at (80,80). -/
theorem Game.spawnRandomPowerUp_active_witness :
    gameWithPowerUp.powerUp.active = true ∧
    gameWithPowerUp.spawnRandomPowerUp env0 = (gameWithPowerUp, env0) :=
  ⟨rfl, (Game.spawnRandomPowerUp_active gameWithPowerUp env0 rfl).1⟩

/-! ## Status effects -/

/-- C14: `activateInvincible(duration)` at clock reading `now`.  If the player
is already invincible nothing changes (`invincible` and `invincibleEndTime`
keep their values and the clock is not read).  Otherwise `invincible` becomes
true and `invincibleEndTime` becomes `now + duration` in `Uint32` arithmetic,
which is the plain sum whenever that is below `2^32`; nothing else changes. -/
theorem PlayerTank.activateInvincible_spec (p : PlayerTank) (duration : Nat) (e : Env) :
    (p.invincible = true → p.activateInvincible duration e = (p, e)) ∧
    (p.invincible = false →
      (p.activateInvincible duration e).1 =
        { p with invincible := true
                 invincibleEndTime := (e.now + duration) % 4294967296 } ∧
      (e.now + duration < 4294967296 →
        (p.activateInvincible duration e).1.invincibleEndTime = e.now + duration)) := by
  unfold PlayerTank.activateInvincible
  constructor
  · intro h
    rw [if_neg (by simp [h])]
  · intro h
    rw [if_pos (by simp [h])]
    refine ⟨rfl, ?_⟩
    intro hlt
    show u32add e.now duration = e.now + duration
    unfold u32add
    exact Nat.mod_eq_of_lt hlt

/-- Witness of C14: a fresh player at clock reading 0 becomes invincible until
1000. -/
theorem PlayerTank.activateInvincible_spec_witness :
    (PlayerTank.new 40 720).invincible = false ∧
    ((PlayerTank.new 40 720).activateInvincible 1000 env0).1 =
      { PlayerTank.new 40 720 with invincible := true, invincibleEndTime := 1000 } :=
  ⟨rfl, ((PlayerTank.activateInvincible_spec (PlayerTank.new 40 720) 1000 env0).2 rfl).1.trans
    (by decide)⟩

/-- C15: status expiry at clock reading `now`.  `updateInvincible` clears
`invincible` if and only if it was set and `now > invincibleEndTime`; at
`now <= invincibleEndTime` the flag is left set; a flag that is not set stays
unset; no other field changes.  The same holds for `updateFreeze` with `frozen`
and `freezeEndTime`. -/
theorem status_expiry (p : PlayerTank) (en : EnemyTank) (e : Env) :
    (((p.invincible = true ∧ (p.updateInvincible e).1.invincible = false) ↔
        (p.invincible = true ∧ e.now > p.invincibleEndTime)) ∧
      (p.invincible = true → e.now ≤ p.invincibleEndTime →
        (p.updateInvincible e).1.invincible = true) ∧
      (p.invincible = false → (p.updateInvincible e).1.invincible = false) ∧
      (p.updateInvincible e).1 = { p with invincible := (p.updateInvincible e).1.invincible }) ∧
    (((en.frozen = true ∧ (en.updateFreeze e).1.frozen = false) ↔
        (en.frozen = true ∧ e.now > en.freezeEndTime)) ∧
      (en.frozen = true → e.now ≤ en.freezeEndTime → (en.updateFreeze e).1.frozen = true) ∧
      (en.frozen = false → (en.updateFreeze e).1.frozen = false) ∧
      (en.updateFreeze e).1 = { en with frozen := (en.updateFreeze e).1.frozen }) := by
  constructor
  · rcases p with ⟨bullets, direction, alive, x, y, kU, kL, kD, kR, invincible, endTime, health,
      rect⟩
    unfold PlayerTank.updateInvincible
    cases invincible with
    | false => simp
    | true =>
      simp only [if_true]
      by_cases hnow : e.now > endTime
      · have hnow2 : (e.SDL_GetTicks).1 > endTime := hnow
        rw [if_pos hnow2]
        simp [hnow]
      · have hnow2 : ¬ (e.SDL_GetTicks).1 > endTime := hnow
        rw [if_neg hnow2]
        simp [hnow]
  · rcases en with ⟨rect, bullets, alive, direction, moveTimer, moveDuration, moveSpeed, target,
      shootCooldown, frozen, endTime⟩
    unfold EnemyTank.updateFreeze
    cases frozen with
    | false => simp
    | true =>
      simp only [if_true]
      by_cases hnow : e.now > endTime
      · have hnow2 : (e.SDL_GetTicks).1 > endTime := hnow
        rw [if_pos hnow2]
        simp [hnow]
      · have hnow2 : ¬ (e.SDL_GetTicks).1 > endTime := hnow
        rw [if_neg hnow2]
        simp [hnow]

/-- Witness of C15: an enemy at rest is not frozen, and `updateFreeze` leaves
it so. -/
theorem status_expiry_witness :
    enemyAt.frozen = false ∧ (enemyAt.updateFreeze env0).1.frozen = false :=
  ⟨rfl, (status_expiry playerUp enemyAt env0).2.2.2.1 rfl⟩

/-! ## Healing -/

/-- C19: `PlayerTank::heal` with the default amount 200 sets `health` to
`min(1000, health + 200)` for every `health <= 1000` and changes nothing else;
it never lowers the health and never raises it above `maxHealth`. -/
theorem PlayerTank.heal_spec (p : PlayerTank) (h : p.health ≤ 1000) :
    p.heal 200 = { p with health := min 1000 (p.health + 200) } ∧
    p.health ≤ (p.heal 200).health ∧ (p.heal 200).health ≤ PlayerTank.maxHealth := by
  rcases p with ⟨bullets, direction, alive, x, y, kU, kL, kD, kR, invincible, endTime, health,
    rect⟩
  simp only at h
  unfold PlayerTank.heal PlayerTank.maxHealth
  by_cases hlt : health < 1000
  · simp only [hlt, if_true, PlayerTank.mk.injEq, true_and, and_true]
    omega
  · have heq : health = 1000 := by omega
    subst heq
    simp

/-- Witness of C19: a player at health 900 is healed to 1000, not 1100. -/
theorem PlayerTank.heal_spec_witness :
    ({ PlayerTank.new 40 720 with health := 900 } : PlayerTank).health ≤ 1000 ∧
    (PlayerTank.heal { PlayerTank.new 40 720 with health := 900 } 200).health = 1000 :=
  ⟨by decide,
    (congrArg PlayerTank.health
      (PlayerTank.heal_spec { PlayerTank.new 40 720 with health := 900 } (by decide)).1).trans
      (by decide)⟩

/-! ## Firing -/

/-- C16: firing.  The bullet constructor makes an active 10x10 projectile whose
velocity is 5 units per tick along the heading: Up (0,-5), Left (-5,0),
Down (0,5), Right (5,0), so exactly one axis is non-zero.  `PlayerTank::shoot`
and `EnemyTank::shoot` (of an enemy that is not frozen) append to the actor's
bullets one such projectile with top-left corner `(rect.x + 15, rect.y + 15)`
and the actor's current heading, and change nothing else; its centre is the
centre of the actor's 40x40 hit-box. -/
theorem shoot_spec (p : PlayerTank) (en : EnemyTank) (x y d : Int)
    (hd : d = 0 ∨ d = 1 ∨ d = 2 ∨ d = 3) (hfrozen : en.frozen = false) :
    (Bullet.new x y d).active = true ∧
    (Bullet.new x y d).rect = ⟨x, y, 10, 10⟩ ∧
    ((Bullet.new x y d).dx, (Bullet.new x y d).dy) =
      (if d = 0 then (0, -5) else if d = 1 then (-5, 0) else if d = 2 then (0, 5) else (5, 0)) ∧
    (((Bullet.new x y d).dx = 0 ∧ (Bullet.new x y d).dy ≠ 0) ∨
      ((Bullet.new x y d).dx ≠ 0 ∧ (Bullet.new x y d).dy = 0)) ∧
    p.shoot = { p with bullets := p.bullets ++
      [Bullet.new (p.rect.x + 15) (p.rect.y + 15) p.direction] } ∧
    en.shoot = { en with bullets := en.bullets ++
      [Bullet.new (en.rect.x + 15) (en.rect.y + 15) en.direction] } ∧
    (2 * (Bullet.new (x + 15) (y + 15) d).rect.x + (Bullet.new (x + 15) (y + 15) d).rect.w =
        2 * x + 40 ∧
      2 * (Bullet.new (x + 15) (y + 15) d).rect.y + (Bullet.new (x + 15) (y + 15) d).rect.h =
        2 * y + 40) := by
  refine ⟨rfl, rfl, ?_, ?_, ?_, ?_, ?_⟩
  · rcases hd with h | h | h | h <;> subst h <;> simp [Bullet.new]
  · rcases hd with h | h | h | h <;> subst h <;> simp [Bullet.new]
  · unfold PlayerTank.shoot PlayerTank.width PlayerTank.height GRID_SIZE
    have h20 : Int.tdiv 40 2 - 5 = 15 := by decide
    simp only [add_sub_assoc, h20]
  · unfold EnemyTank.shoot GRID_SIZE
    have h20 : Int.tdiv 40 2 - 5 = 15 := by decide
    rw [if_neg (by simp [hfrozen])]
    simp only [add_sub_assoc, h20]
  · simp only [Bullet.new]
    constructor <;> ring

/-- Witness of C16: the player at (40,720) facing Up fires the bullet
(55,735) with velocity (0,-5). -/
theorem shoot_spec_witness :
    ((0 : Int) = 0 ∨ (0 : Int) = 1 ∨ (0 : Int) = 2 ∨ (0 : Int) = 3) ∧ enemyAt.frozen = false ∧
    playerUp.shoot.bullets = [⟨⟨55, 735, 10, 10⟩, 0, -5, true⟩] :=
  ⟨Or.inl rfl, rfl,
    (congrArg PlayerTank.bullets
      (shoot_spec playerUp enemyAt 0 0 0 (Or.inl rfl) rfl).2.2.2.2.1).trans (by decide)⟩

/-! ## Collecting the power-up -/

theorem Game.collector_iff (g : Game) (slot : PlayerSlot) (p : PlayerTank) :
    g.collector slot = some p ↔
      (g.player slot = some p ∧ p.alive = true ∧
        SDL_HasIntersection p.rect g.powerUp.rect = true) := by
  unfold Game.collector PlayerTank.checkPowerUpCollision
  cases hp : g.player slot with
  | none => simp
  | some q =>
    simp only [Option.some.injEq]
    by_cases hc : (q.alive && SDL_HasIntersection q.rect g.powerUp.rect) = true
    · rw [if_pos hc]
      simp only [Bool.and_eq_true] at hc
      simp only [Option.some.injEq]
      constructor
      · intro h
        subst h
        exact ⟨rfl, hc.1, hc.2⟩
      · intro h
        exact h.1
    · rw [if_neg hc]
      simp only [Bool.and_eq_true] at hc
      constructor
      · intro h
        simp at h
      · rintro ⟨h1, h2, h3⟩
        subst h1
        exact absurd ⟨h2, h3⟩ hc

theorem Game.collector_none_iff (g : Game) (slot : PlayerSlot) :
    g.collector slot = none ↔ ¬ g.canCollect (g.player slot) := by
  constructor
  · intro h hc
    obtain ⟨p, hp, ha, hi⟩ := hc
    have := (Game.collector_iff g slot p).2 ⟨hp, ha, hi⟩
    rw [h] at this
    simp at this
  · intro h
    cases hc : g.collector slot with
    | none => rfl
    | some p =>
      obtain ⟨hp, ha, hi⟩ := (Game.collector_iff g slot p).1 hc
      exact absurd ⟨p, hp, ha, hi⟩ h

theorem Game.applyPowerUpEffect_other (g : Game) (p : PlayerTank) (e : Env) :
    (g.applyPowerUpEffect .one p e).1.player2 = g.player2 ∧
    (g.applyPowerUpEffect .two p e).1.player1 = g.player1 := by
  unfold Game.applyPowerUpEffect
  constructor
  · split
    · rfl
    · rfl
    · rfl
    · exact (Game.destroyAllEnemies_players g e).2
    · rfl
  · split
    · rfl
    · rfl
    · rfl
    · exact (Game.destroyAllEnemies_players g e).1
    · rfl

theorem Game.checkPowerUpCollision_cases (g : Game) (e : Env) (hactive : g.powerUp.active = true) :
    (∀ p, g.collector .one = some p →
      g.checkPowerUpCollision e =
        ((g.applyPowerUpEffect .one p e).1.deactivatePowerUp, (g.applyPowerUpEffect .one p e).2)) ∧
    (g.collector .one = none → ∀ p, g.collector .two = some p →
      g.checkPowerUpCollision e =
        ((g.applyPowerUpEffect .two p e).1.deactivatePowerUp, (g.applyPowerUpEffect .two p e).2)) ∧
    (g.collector .one = none → g.collector .two = none → g.checkPowerUpCollision e = (g, e)) := by
  unfold Game.checkPowerUpCollision
  rw [if_neg (by simp [hactive])]
  refine ⟨?_, ?_, ?_⟩
  · intro p hp
    rw [hp]
    rfl
  · intro h1 p hp
    rw [h1, hp]
    rfl
  · intro h1 h2
    rw [h1, h2]

theorem Game.checkPowerUpCollision_inactive (g : Game) (e : Env)
    (h : g.powerUp.active = false) : g.checkPowerUpCollision e = (g, e) := by
  unfold Game.checkPowerUpCollision
  rw [if_pos (by simp [h])]

theorem Game.checkPowerUpCollision_dead (g : Game) (e : Env) :
    (notAlive g.player1 → (g.checkPowerUpCollision e).1.player1 = g.player1) ∧
    (notAlive g.player2 → (g.checkPowerUpCollision e).1.player2 = g.player2) := by
  cases hactive : g.powerUp.active with
  | false =>
    rw [Game.checkPowerUpCollision_inactive g e hactive]
    exact ⟨fun _ => rfl, fun _ => rfl⟩
  | true =>
    obtain ⟨c1, c2, c3⟩ := Game.checkPowerUpCollision_cases g e hactive
    cases h1 : g.collector .one with
    | some p =>
      obtain ⟨hp, ha, -⟩ := (Game.collector_iff g .one p).1 h1
      rw [c1 p h1]
      constructor
      · intro hdead
        rw [hdead p hp] at ha
        exact absurd ha (by simp)
      · intro _
        exact (Game.applyPowerUpEffect_other g p e).1
    | none =>
      cases h2 : g.collector .two with
      | some p =>
        obtain ⟨hp, ha, -⟩ := (Game.collector_iff g .two p).1 h2
        rw [c2 h1 p h2]
        constructor
        · intro _
          exact (Game.applyPowerUpEffect_other g p e).2
        · intro hdead
          rw [hdead p hp] at ha
          exact absurd ha (by simp)
      | none =>
        rw [c3 h1 h2]
        exact ⟨fun _ => rfl, fun _ => rfl⟩

/-- C12: `checkPowerUpCollision`.  With an inactive power-up nothing changes.
With an active one: if player 1 is alive and overlaps the power-up, the effect
is applied once, to player 1, the power-up is deactivated and player 2 is left
as it was, even if it overlaps too; otherwise, if player 2 is alive and
overlaps, the effect is applied once, to player 2, the power-up is deactivated
and player 1 is left as it was; otherwise nothing changes.  A player that is
not alive (or absent) is never changed by the call. -/
theorem Game.checkPowerUpCollision_spec (g : Game) (e : Env) :
    (g.powerUp.active = false → g.checkPowerUpCollision e = (g, e)) ∧
    (g.powerUp.active = true →
      (∀ p, g.player1 = some p → p.alive = true →
        SDL_HasIntersection p.rect g.powerUp.rect = true →
          g.checkPowerUpCollision e =
            ((g.applyPowerUpEffect .one p e).1.deactivatePowerUp,
              (g.applyPowerUpEffect .one p e).2) ∧
          (g.checkPowerUpCollision e).1.powerUp.active = false ∧
          (g.checkPowerUpCollision e).1.player2 = g.player2) ∧
      (¬ g.canCollect g.player1 → ∀ p, g.player2 = some p → p.alive = true →
        SDL_HasIntersection p.rect g.powerUp.rect = true →
          g.checkPowerUpCollision e =
            ((g.applyPowerUpEffect .two p e).1.deactivatePowerUp,
              (g.applyPowerUpEffect .two p e).2) ∧
          (g.checkPowerUpCollision e).1.powerUp.active = false ∧
          (g.checkPowerUpCollision e).1.player1 = g.player1) ∧
      (¬ g.canCollect g.player1 → ¬ g.canCollect g.player2 →
        g.checkPowerUpCollision e = (g, e))) ∧
    (notAlive g.player1 → (g.checkPowerUpCollision e).1.player1 = g.player1) ∧
    (notAlive g.player2 → (g.checkPowerUpCollision e).1.player2 = g.player2) := by
  refine ⟨Game.checkPowerUpCollision_inactive g e, ?_, Game.checkPowerUpCollision_dead g e⟩
  intro hactive
  obtain ⟨c1, c2, c3⟩ := Game.checkPowerUpCollision_cases g e hactive
  refine ⟨?_, ?_, ?_⟩
  · intro p hp ha hi
    have hc := (Game.collector_iff g .one p).2 ⟨hp, ha, hi⟩
    rw [c1 p hc]
    exact ⟨rfl, rfl, (Game.applyPowerUpEffect_other g p e).1⟩
  · intro hno p hp ha hi
    have h1 := (Game.collector_none_iff g .one).2 hno
    have hc := (Game.collector_iff g .two p).2 ⟨hp, ha, hi⟩
    rw [c2 h1 p hc]
    exact ⟨rfl, rfl, (Game.applyPowerUpEffect_other g p e).2⟩
  · intro hno1 hno2
    exact c3 ((Game.collector_none_iff g .one).2 hno1) ((Game.collector_none_iff g .two).2 hno2)

/-- Witness of C12: both players stand on an active Health power-up; player 1
is healed from 900 to 1000, player 2 keeps its 900, the power-up is spent. -/
theorem Game.checkPowerUpCollision_spec_witness :
    gameCollect.powerUp.active = true ∧
    (gameCollect.checkPowerUpCollision env0).1.player1 =
      some { PlayerTank.new 80 80 with health := 1000 } ∧
    (gameCollect.checkPowerUpCollision env0).1.player2 = gameCollect.player2 ∧
    (gameCollect.checkPowerUpCollision env0).1.powerUp.active = false :=
  ⟨rfl,
    (congrArg (fun r => r.1.player1)
      (((Game.checkPowerUpCollision_spec gameCollect env0).2.1 rfl).1
        { PlayerTank.new 80 80 with health := 900 } rfl rfl (by decide)).1).trans (by decide),
    (((Game.checkPowerUpCollision_spec gameCollect env0).2.1 rfl).1
        { PlayerTank.new 80 80 with health := 900 } rfl rfl (by decide)).2.2,
    (((Game.checkPowerUpCollision_spec gameCollect env0).2.1 rfl).1
        { PlayerTank.new 80 80 with health := 900 } rfl rfl (by decide)).2.1⟩

/-! ## Terminal condition -/

theorem Game.updatePlayers_state (g : Game) (e : Env) :
    (g.updatePlayers e).1.state = g.state := by
  unfold Game.updatePlayers
  cases hp1 : g.player1 <;> cases hp2 : g.player2 <;> simp only [hp1, hp2]

theorem Game.enemyLoop_state (enemies : List EnemyTank) : ∀ (g : Game) (e : Env),
    (Game.enemyLoop g enemies e).1.state = g.state := by
  induction enemies with
  | nil =>
    intro g e
    rfl
  | cons enemy rest ih =>
    intro g e
    unfold Game.enemyLoop
    exact (ih _ _).trans rfl

theorem Game.updateEnemies_state (g : Game) (e : Env) :
    (g.updateEnemies e).1.state = g.state := by
  unfold Game.updateEnemies
  exact Game.enemyLoop_state g.enemies g e

theorem Game.checkWaveCompletion_state (g : Game) (e : Env) :
    (g.checkWaveCompletion e).1.state = g.state := by
  unfold Game.checkWaveCompletion
  split
  · exact (Game.generateEnemies_frame _ e).2.2.2.2.2.2.1
  · rfl

theorem Game.spawnRandomPowerUp_state (g : Game) (e : Env) :
    (g.spawnRandomPowerUp e).1.state = g.state := by
  unfold Game.spawnRandomPowerUp
  split
  · rfl
  · simp only []
    split
    · split <;> rfl
    · rfl

theorem Game.applyPowerUpEffect_state (g : Game) (slot : PlayerSlot) (p : PlayerTank) (e : Env) :
    (g.applyPowerUpEffect slot p e).1.state = g.state := by
  unfold Game.applyPowerUpEffect
  split
  · cases slot <;> rfl
  · rfl
  · cases slot <;> rfl
  · unfold Game.destroyAllEnemies
    exact Game.checkWaveCompletion_state _ e
  · rfl

theorem Game.checkPowerUpCollision_state (g : Game) (e : Env) :
    (g.checkPowerUpCollision e).1.state = g.state := by
  unfold Game.checkPowerUpCollision
  split
  · rfl
  · split
    · exact Game.applyPowerUpEffect_state g .one _ e
    · split
      · exact Game.applyPowerUpEffect_state g .two _ e
      · rfl

theorem Game.updatePowerUp_state (g : Game) (e : Env) :
    (g.updatePowerUp e).1.state = g.state := by
  unfold Game.updatePowerUp
  simp only []
  rw [Game.checkPowerUpCollision_state]
  exact Game.spawnRandomPowerUp_state g e

theorem Game.gameOver_iff (g : Game) :
    (g.state = .STATE_1P → (g.gameOver = true ↔ notAlive g.player1)) ∧
    (g.state = .STATE_2P →
      (g.gameOver = true ↔ (notAlive g.player1 ∧ notAlive g.player2))) := by
  unfold Game.gameOver notAlive
  constructor
  · intro hs
    cases hp1 : g.player1 with
    | none => simp [hs]
    | some p => cases ha : p.alive <;> simp [hs, ha]
  · intro hs
    cases hp1 : g.player1 with
    | none =>
      cases hp2 : g.player2 with
      | none => simp [hs]
      | some q => cases hb : q.alive <;> simp [hs, hb]
    | some p =>
      cases hp2 : g.player2 with
      | none => cases ha : p.alive <;> simp [hs, ha]
      | some q => cases ha : p.alive <;> cases hb : q.alive <;> simp [hs, ha, hb]

theorem Game.checkGameOver_frame (g : Game) :
    (g.checkGameOver).player1 = g.player1 ∧ (g.checkGameOver).player2 = g.player2 ∧
    (g.checkGameOver).state = (if g.gameOver then .STATE_GAME_OVER else g.state) := by
  unfold Game.checkGameOver
  split <;> exact ⟨rfl, rfl, rfl⟩

theorem Game.update_in_play (g : Game) (e : Env)
    (hs : g.state = .STATE_1P ∨ g.state = .STATE_2P) :
    ∃ (g4 : Game) (e4 : Env), g.update e = (g4.checkGameOver, e4) ∧ g4.state = g.state := by
  unfold Game.update
  rw [if_pos hs]
  simp only []
  refine ⟨_, _, rfl, ?_⟩
  rw [Game.updatePowerUp_state, Game.checkWaveCompletion_state, Game.updateEnemies_state,
    Game.updatePlayers_state]

/-- C13: the terminal condition at the end of a world tick.  In single-player
mode the game is GAME_OVER after the tick if and only if player 1 is then not
alive, and otherwise stays in single-player mode; in two-player mode it is
GAME_OVER if and only if both player 1 and player 2 are then not alive, and
otherwise stays in two-player mode, so one dead player alone does not end the
game.  (A null player pointer counts as not alive.) -/
theorem Game.terminal_condition (g : Game) (e : Env) :
    (g.state = .STATE_1P →
      ((g.update e).1.state = .STATE_GAME_OVER ↔ notAlive (g.update e).1.player1) ∧
      ((g.update e).1.state ≠ .STATE_GAME_OVER → (g.update e).1.state = .STATE_1P)) ∧
    (g.state = .STATE_2P →
      ((g.update e).1.state = .STATE_GAME_OVER ↔
        (notAlive (g.update e).1.player1 ∧ notAlive (g.update e).1.player2)) ∧
      ((g.update e).1.state ≠ .STATE_GAME_OVER → (g.update e).1.state = .STATE_2P)) := by
  constructor
  · intro hs
    obtain ⟨g4, e4, hu, hs4⟩ := Game.update_in_play g e (Or.inl hs)
    obtain ⟨f1, -, f3⟩ := Game.checkGameOver_frame g4
    rw [hu]
    simp only []
    rw [f1, f3, ← ((Game.gameOver_iff g4).1 (hs4.trans hs))]
    cases hgo : g4.gameOver with
    | true => simp
    | false => simp [hs4, hs]
  · intro hs
    obtain ⟨g4, e4, hu, hs4⟩ := Game.update_in_play g e (Or.inr hs)
    obtain ⟨f1, f2, f3⟩ := Game.checkGameOver_frame g4
    rw [hu]
    simp only []
    rw [f1, f2, f3, ← ((Game.gameOver_iff g4).2 (hs4.trans hs))]
    cases hgo : g4.gameOver with
    | true => simp
    | false => simp [hs4, hs]

/-- Witness of C13: a single-player game whose player is dead is GAME_OVER
after the tick. -/
theorem Game.terminal_condition_witness :
    gameDead.state = .STATE_1P ∧ (gameDead.update env0).1.state = .STATE_GAME_OVER :=
  ⟨rfl, ((Game.terminal_condition gameDead env0).1 rfl).1.2 (by decide)⟩

/-! ## Spawning the power-up -/

theorem cellOfDraw_onInteriorGrid (r : Nat) : onInteriorGrid (cellOfDraw r) :=
  ⟨r % 18, Nat.mod_lt r (by decide), rfl⟩

theorem Game.randomCell_eq (e : Env) :
    Game.randomCell e = (cellOfDraw (e.rands 0), e.drop 1 0) := rfl

theorem Game.getRandomPowerUpType_snd (e : Env) :
    (Game.getRandomPowerUpType e).2 = e.drop 1 0 := by
  unfold Game.getRandomPowerUpType
  simp only []
  split_ifs <;> rfl

theorem Game.spawnRandomPowerUp_wait (g : Game) (e : Env) (h : g.powerUp.active = false)
    (hwait : u32sub e.now g.lastPowerUpSpawnTime ≤ 20000) :
    (g.spawnRandomPowerUp e).1 = g := by
  unfold Game.spawnRandomPowerUp
  rw [if_neg (by simp [h])]
  simp only []
  have hnot : ¬ (u32sub (e.SDL_GetTicks).1 g.lastPowerUpSpawnTime > Game.powerUpSpawnInterval) := by
    unfold Game.powerUpSpawnInterval
    exact Nat.not_lt.2 hwait
  rw [if_neg hnot]

theorem Game.spawnRandomPowerUp_due (g : Game) (e : Env) (h : g.powerUp.active = false)
    (hdue : u32sub e.now g.lastPowerUpSpawnTime > 20000) :
    ((∃ wall ∈ g.walls,
        SDL_HasIntersection ⟨cellOfDraw (e.rands 0), cellOfDraw (e.rands 1), 40, 40⟩ wall = true) →
      (g.spawnRandomPowerUp e).1 = g) ∧
    ((∀ wall ∈ g.walls,
        SDL_HasIntersection ⟨cellOfDraw (e.rands 0), cellOfDraw (e.rands 1), 40, 40⟩ wall = false) →
      (g.spawnRandomPowerUp e).1 =
        { g with
          powerUp :=
            { rect := ⟨cellOfDraw (e.rands 0), cellOfDraw (e.rands 1), g.powerUp.rect.w,
                g.powerUp.rect.h⟩
              type := (Game.getRandomPowerUpType (e.drop 2 1)).1
              active := true
              spawnTime := e.ticks 1 % 4294967296 }
          lastPowerUpSpawnTime := e.now }) := by
  have hyes : u32sub (e.SDL_GetTicks).1 g.lastPowerUpSpawnTime > Game.powerUpSpawnInterval := by
    unfold Game.powerUpSpawnInterval
    exact hdue
  constructor
  · intro hw
    have hhit : hitsWall ⟨cellOfDraw (e.rands 0), cellOfDraw (e.rands 1), 40, 40⟩ g.walls = true :=
      (hitsWall_iff _ _).2 hw
    unfold Game.spawnRandomPowerUp
    rw [if_neg (by simp [h])]
    simp only []
    rw [if_pos hyes]
    have hhit2 : hitsWall ⟨(Game.randomCell (e.SDL_GetTicks).2).1,
        (Game.randomCell (Game.randomCell (e.SDL_GetTicks).2).2).1, GRID_SIZE, GRID_SIZE⟩ g.walls
        = true := hhit
    rw [if_neg (by simp [hhit2])]
  · intro hw
    have hclear : hitsWall ⟨cellOfDraw (e.rands 0), cellOfDraw (e.rands 1), 40, 40⟩ g.walls
        = false := by
      cases hh : hitsWall ⟨cellOfDraw (e.rands 0), cellOfDraw (e.rands 1), 40, 40⟩ g.walls with
      | false => rfl
      | true =>
        obtain ⟨wall, hmem, hint⟩ := (hitsWall_iff _ _).1 hh
        rw [hw wall hmem] at hint
        exact absurd hint (by simp)
    unfold Game.spawnRandomPowerUp
    rw [if_neg (by simp [h])]
    simp only []
    rw [if_pos hyes]
    have hclear2 : hitsWall ⟨(Game.randomCell (e.SDL_GetTicks).2).1,
        (Game.randomCell (Game.randomCell (e.SDL_GetTicks).2).2).1, GRID_SIZE, GRID_SIZE⟩ g.walls
        = false := hclear
    rw [if_pos (by simp [hclear2])]
    simp only [Game.getRandomPowerUpType_snd]
    rfl

set_option maxRecDepth 100000 in
/-- The cell (40,40) of the generated map touches no wall. -/
theorem arenaGame_cell_free : ∀ wall ∈ arenaGame.walls,
    SDL_HasIntersection ⟨cellOfDraw 0, cellOfDraw 0, 40, 40⟩ wall = false := by
  decide

/-- C18, as amended: `spawnRandomPowerUp` with no active power-up.  It leaves
the game unchanged when at most 20,000 ms have elapsed since the last spawn
(the test is `elapsed > 20000`).  When more than 20,000 ms have elapsed it
draws one interior cell; if that cell overlaps a wall the game is unchanged
(`lastPowerUpSpawnTime` is not advanced); if the cell is free the power-up
becomes active at that cell with the drawn type, `lastPowerUpSpawnTime` is set
to the clock reading taken at the start of the call and `spawnTime` to the
clock reading taken by `PowerUp::spawn`. -/
theorem Game.spawnRandomPowerUp_idle (g : Game) (e : Env) (h : g.powerUp.active = false) :
    (u32sub e.now g.lastPowerUpSpawnTime ≤ 20000 → (g.spawnRandomPowerUp e).1 = g) ∧
    (u32sub e.now g.lastPowerUpSpawnTime > 20000 →
      (onInteriorGrid (cellOfDraw (e.rands 0)) ∧ onInteriorGrid (cellOfDraw (e.rands 1))) ∧
      ((∃ wall ∈ g.walls,
          SDL_HasIntersection ⟨cellOfDraw (e.rands 0), cellOfDraw (e.rands 1), 40, 40⟩ wall
            = true) →
        (g.spawnRandomPowerUp e).1 = g) ∧
      ((∀ wall ∈ g.walls,
          SDL_HasIntersection ⟨cellOfDraw (e.rands 0), cellOfDraw (e.rands 1), 40, 40⟩ wall
            = false) →
        (g.spawnRandomPowerUp e).1 =
          { g with
            powerUp :=
              { rect := ⟨cellOfDraw (e.rands 0), cellOfDraw (e.rands 1), g.powerUp.rect.w,
                  g.powerUp.rect.h⟩
                type := (Game.getRandomPowerUpType (e.drop 2 1)).1
                active := true
                spawnTime := e.ticks 1 % 4294967296 }
            lastPowerUpSpawnTime := e.now })) := by
  refine ⟨Game.spawnRandomPowerUp_wait g e h, ?_⟩
  intro hdue
  obtain ⟨h1, h2⟩ := Game.spawnRandomPowerUp_due g e h hdue
  exact ⟨⟨cellOfDraw_onInteriorGrid _, cellOfDraw_onInteriorGrid _⟩, h1, h2⟩

/-- Witness of C18 as amended: on the generated map, 20001 ms after the last
spawn, a Health power-up appears at the free cell (40,40). -/
theorem Game.spawnRandomPowerUp_idle_witness :
    arenaGame.powerUp.active = false ∧
    u32sub env20001.now arenaGame.lastPowerUpSpawnTime > 20000 ∧
    (arenaGame.spawnRandomPowerUp env20001).1.powerUp =
      ⟨⟨40, 40, 40, 40⟩, .POWERUP_HEALTH, true, 20001⟩ ∧
    (arenaGame.spawnRandomPowerUp env20001).1.lastPowerUpSpawnTime = 20001 :=
  ⟨rfl, by decide,
    (congrArg Game.powerUp
      (((Game.spawnRandomPowerUp_idle arenaGame env20001 rfl).2 (by decide)).2.2
        arenaGame_cell_free)).trans (by decide),
    (congrArg Game.lastPowerUpSpawnTime
      (((Game.spawnRandomPowerUp_idle arenaGame env20001 rfl).2 (by decide)).2.2
        arenaGame_cell_free)).trans (by decide)⟩

/-- Counterexample to C18 as stated: on the generated map, with no active
power-up, exactly 20,000 ms after the last spawn and with the drawn cell
(40,40) free of walls, `spawnRandomPowerUp` draws nothing and spawns nothing:
the game is unchanged and the power-up stays inactive. -/
theorem Game.spawnRandomPowerUp_boundary :
    arenaGame.powerUp.active = false ∧
    u32sub env20000.now arenaGame.lastPowerUpSpawnTime = 20000 ∧
    (∀ wall ∈ arenaGame.walls,
      SDL_HasIntersection
        ⟨cellOfDraw (env20000.rands 0), cellOfDraw (env20000.rands 1), 40, 40⟩ wall = false) ∧
    (arenaGame.spawnRandomPowerUp env20000).1 = arenaGame ∧
    (arenaGame.spawnRandomPowerUp env20000).1.powerUp.active = false :=
  ⟨rfl, by decide, arenaGame_cell_free,
    Game.spawnRandomPowerUp_wait arenaGame env20000 rfl (by decide),
    (congrArg (fun g => g.powerUp.active)
      (Game.spawnRandomPowerUp_wait arenaGame env20000 rfl (by decide))).trans rfl⟩

/-! ## Wave placement -/

theorem Game.isValidSpawn_iff (g : Game) (x y : Int) :
    g.isValidSpawn x y = true ↔ g.cellFree x y := by
  unfold Game.isValidSpawn Game.cellFree
  simp only [GRID_SIZE]
  by_cases hw : hitsWall ⟨x, y, 40, 40⟩ g.walls = true
  · rw [if_pos hw]
    obtain ⟨wall, hmem, hint⟩ := (hitsWall_iff _ _).1 hw
    constructor
    · intro h
      exact absurd h (by simp)
    · rintro ⟨hall, -⟩
      rw [hall wall hmem] at hint
      exact absurd hint (by simp)
  · rw [if_neg hw]
    have hall : ∀ wall ∈ g.walls, SDL_HasIntersection ⟨x, y, 40, 40⟩ wall = false := by
      intro wall hmem
      cases hint : SDL_HasIntersection ⟨x, y, 40, 40⟩ wall with
      | false => rfl
      | true => exact absurd ((hitsWall_iff _ _).2 ⟨wall, hmem, hint⟩) hw
    cases hp1 : g.player1 with
    | none =>
      cases hp2 : g.player2 with
      | none => simpa using hall
      | some q =>
        cases hq : SDL_HasIntersection ⟨x, y, 40, 40⟩ q.rect with
        | true => simp [hq]
        | false => simpa [hq] using hall
    | some p =>
      cases hp : SDL_HasIntersection ⟨x, y, 40, 40⟩ p.rect with
      | true => simp [hp]
      | false =>
        cases hp2 : g.player2 with
        | none => simpa [hp] using hall
        | some q =>
          cases hq : SDL_HasIntersection ⟨x, y, 40, 40⟩ q.rect with
          | true => simp [hq]
          | false => simpa [hp, hq] using hall

theorem Game.findSpawn_eq_find (g : Game) (n : Nat) : ∀ e : Env,
    (Game.findSpawn g n e).1 =
      (Game.draws n e).find? (fun c => g.isValidSpawn c.1 c.2) := by
  induction n with
  | zero =>
    intro e
    rfl
  | succ n ih =>
    intro e
    unfold Game.findSpawn Game.draws
    simp only [Game.randomCell_eq]
    by_cases hv : g.isValidSpawn (cellOfDraw (e.rands 0)) (cellOfDraw ((e.drop 1 0).rands 0)) = true
    · rw [if_pos hv]
      have hv2 : g.isValidSpawn (cellOfDraw (e.rands 0)) (cellOfDraw (e.rands 1)) = true := hv
      simp only [List.find?_cons, hv2]
      rfl
    · rw [if_neg hv]
      have hv2 : g.isValidSpawn (cellOfDraw (e.rands 0)) (cellOfDraw (e.rands 1)) = false := by
        simpa using hv
      rw [ih]
      simp only [List.find?_cons, hv2]
      rfl

theorem Game.draws_onGrid (n : Nat) : ∀ (e : Env), ∀ c ∈ Game.draws n e,
    onInteriorGrid c.1 ∧ onInteriorGrid c.2 := by
  induction n with
  | zero =>
    intro e c hc
    simp [Game.draws] at hc
  | succ n ih =>
    intro e c hc
    unfold Game.draws at hc
    rcases List.mem_cons.1 hc with h | h
    · rw [h]
      exact ⟨cellOfDraw_onInteriorGrid _, cellOfDraw_onInteriorGrid _⟩
    · exact ih _ c h

theorem Game.findSpawn_some (g : Game) (n : Nat) (e : Env) (x y : Int)
    (h : (Game.findSpawn g n e).1 = some (x, y)) :
    onInteriorGrid x ∧ onInteriorGrid y ∧ g.isValidSpawn x y = true := by
  rw [Game.findSpawn_eq_find] at h
  have hmem := List.mem_of_find?_eq_some h
  have hval := List.find?_some h
  obtain ⟨h1, h2⟩ := Game.draws_onGrid n e (x, y) hmem
  exact ⟨h1, h2, hval⟩

theorem Game.spawnLoop_placed (g0 : Game) (n : Nat) : ∀ (g : Game) (e : Env),
    g.walls = g0.walls → g.player1 = g0.player1 → g.player2 = g0.player2 →
    (∀ en ∈ g.enemies, g0.placed en) →
    ∀ en ∈ (Game.spawnLoop g n e).1.enemies, g0.placed en := by
  induction n with
  | zero =>
    intro g e _ _ _ hall
    exact hall
  | succ n ih =>
    intro g e hw h1 h2 hall
    unfold Game.spawnLoop
    split
    · rename_i x y e1 heq
      simp only []
      apply ih
      · exact hw
      · exact h1
      · exact h2
      · intro en hen
        rcases List.mem_append.1 hen with h | h
        · exact hall en h
        · rw [List.mem_singleton] at h
          have hfound : (Game.findSpawn g 100 e).1 = some (x, y) := by rw [heq]
          obtain ⟨gx, gy, hv⟩ := Game.findSpawn_some g 100 e x y hfound
          have hfree : g0.cellFree x y := by
            have := (Game.isValidSpawn_iff g x y).1 hv
            unfold Game.cellFree at *
            rw [← hw, ← h1, ← h2]
            exact this
          exact ⟨x, y, by rw [h]; rfl, gx, gy, hfree⟩
    · rename_i e1 heq
      exact ih g e1 hw h1 h2 hall

theorem Game.spawnLoop_slot (g : Game) (n : Nat) (e : Env) :
    ((Game.findSpawn g 100 e).1 = none →
      Game.spawnLoop g (n + 1) e = Game.spawnLoop g n (Game.findSpawn g 100 e).2) ∧
    (∀ x y, (Game.findSpawn g 100 e).1 = some (x, y) →
      ∃ (enemy : EnemyTank) (e3 : Env), enemy.rect = ⟨x, y, 40, 40⟩ ∧
        Game.spawnLoop g (n + 1) e =
          Game.spawnLoop { g with enemies := g.enemies ++ [enemy] } n e3) := by
  constructor
  · intro h
    rw [Game.spawnLoop]
    split
    · rename_i x y e1 heq
      rw [heq] at h
      simp at h
    · rename_i e1 heq
      rw [heq]
  · intro x y h
    rw [Game.spawnLoop]
    split
    · rename_i x2 y2 e1 heq
      rw [heq] at h
      simp only [Option.some.injEq, Prod.mk.injEq] at h
      obtain ⟨hx, hy⟩ := h
      subst hx
      subst hy
      exact ⟨_, _, rfl, rfl⟩
    · rename_i e1 heq
      rw [heq] at h
      simp at h

theorem Env.drop_drop (e : Env) (a b : Nat) : (e.drop a 0).drop b 0 = e.drop (a + b) 0 := by
  unfold Env.drop
  simp only [Env.mk.injEq]
  refine ⟨?_, trivial⟩
  funext n
  congr 1
  omega

theorem findIdx_of_find {α : Type} (p : α → Bool) (l : List α) :
    (l.find? p = none → l.findIdx p = l.length) ∧
    (∀ c, l.find? p = some c → l.findIdx p < l.length) := by
  induction l with
  | nil => simp
  | cons a l ih =>
    cases hp : p a with
    | true => simp [List.find?_cons, List.findIdx_cons, hp]
    | false =>
      simp only [List.find?_cons, List.findIdx_cons, hp, List.length_cons, cond_false]
      constructor
      · intro h
        rw [ih.1 h]
      · intro c h
        have := ih.2 c h
        omega

theorem Game.draws_length (n : Nat) : ∀ e : Env, (Game.draws n e).length = n := by
  induction n with
  | zero =>
    intro e
    rfl
  | succ n ih =>
    intro e
    unfold Game.draws
    rw [List.length_cons, ih]

theorem Game.isValidSpawn_eq_freeCell (g : Game) :
    (fun c : Int × Int => g.isValidSpawn c.1 c.2) = g.freeCell := by
  funext c
  unfold Game.freeCell
  cases h : g.isValidSpawn c.1 c.2 with
  | true => exact (decide_eq_true ((Game.isValidSpawn_iff g c.1 c.2).1 h)).symm
  | false =>
    symm
    apply decide_eq_false
    intro hc
    rw [(Game.isValidSpawn_iff g c.1 c.2).2 hc] at h
    exact absurd h (by simp)

/-- The inner loop of `generateEnemies`: the cell found is the first free one
among the `n` cells drawn, and two draws are consumed for each cell tried. -/
theorem Game.findSpawn_eq (g : Game) (n : Nat) : ∀ e : Env,
    Game.findSpawn g n e =
      ((Game.draws n e).find? g.freeCell,
        e.drop (2 * min n ((Game.draws n e).findIdx g.freeCell + 1)) 0) := by
  rw [← Game.isValidSpawn_eq_freeCell]
  induction n with
  | zero =>
    intro e
    rfl
  | succ n ih =>
    intro e
    unfold Game.findSpawn Game.draws
    simp only [Game.randomCell_eq]
    by_cases hv : g.isValidSpawn (cellOfDraw (e.rands 0)) (cellOfDraw ((e.drop 1 0).rands 0)) = true
    · rw [if_pos hv]
      have hv2 : g.isValidSpawn (cellOfDraw (e.rands 0)) (cellOfDraw (e.rands 1)) = true := hv
      simp only [List.find?_cons, List.findIdx_cons, hv2, cond_true]
      have hm : 2 * min (n + 1) (0 + 1) = 2 := by omega
      rw [hm]
      rfl
    · rw [if_neg hv]
      have hv2 : g.isValidSpawn (cellOfDraw (e.rands 0)) (cellOfDraw (e.rands 1)) = false := by
        simpa using hv
      rw [ih]
      simp only [List.find?_cons, List.findIdx_cons, hv2, cond_false]
      have hd : (e.drop 1 0).drop 1 0 = e.drop 2 0 := rfl
      rw [hd, Env.drop_drop]
      congr 2
      omega

theorem Game.freeCell_congr (g g0 : Game) (hw : g.walls = g0.walls)
    (h1 : g.player1 = g0.player1) (h2 : g.player2 = g0.player2) :
    g.freeCell = g0.freeCell := by
  rw [← Game.isValidSpawn_eq_freeCell g, ← Game.isValidSpawn_eq_freeCell g0]
  funext c
  unfold Game.isValidSpawn
  rw [hw, h1, h2]

/-- The outer loop of `generateEnemies` appends, slot by slot, enemies on the
cells given by `wavePositions`. -/
theorem Game.spawnLoop_cells (g0 : Game) (n : Nat) : ∀ (g : Game) (e : Env),
    g.walls = g0.walls → g.player1 = g0.player1 → g.player2 = g0.player2 →
    (Game.spawnLoop g n e).1.enemies.map EnemyTank.cell =
      g.enemies.map EnemyTank.cell ++ Game.wavePositions g0 n e := by
  induction n with
  | zero =>
    intro g e _ _ _
    simp [Game.spawnLoop, Game.wavePositions]
  | succ n ih =>
    intro g e hw h1 h2
    have hfc := Game.freeCell_congr g g0 hw h1 h2
    have hfs := Game.findSpawn_eq g 100 e
    rw [hfc] at hfs
    obtain ⟨hnone, hsome⟩ := findIdx_of_find g0.freeCell (Game.draws 100 e)
    rw [Game.draws_length] at hnone hsome
    unfold Game.spawnLoop Game.wavePositions
    split
    · rename_i x y e1 heq
      rw [hfs] at heq
      simp only [Prod.mk.injEq] at heq
      obtain ⟨hfind, henv⟩ := heq
      have hlt := hsome (x, y) hfind
      rw [hfind]
      simp only []
      generalize (if (e1.rand).1 % 2 = 0 ∨ g.player2.isNone = true then
          (if g.player1.isSome = true then some PlayerSlot.one else none)
        else some PlayerSlot.two) = t
      have hcell : (EnemyTank.new x y t (e1.rand).2).1.cell = (x, y) := rfl
      have he3 : (EnemyTank.new x y t (e1.rand).2).2 =
          e.drop (2 * ((Game.draws 100 e).findIdx g0.freeCell + 1) + 2) 0 := by
        have hd : (EnemyTank.new x y t (e1.rand).2).2 = (e1.drop 1 0).drop 1 0 := rfl
        rw [hd, ← henv, Env.drop_drop, Env.drop_drop]
        congr 1
        omega
      generalize EnemyTank.new x y t (e1.rand).2 = r at hcell he3
      rw [ih { g with enemies := g.enemies ++ [r.1] } r.2 hw h1 h2]
      simp only [List.map_append, List.map_cons, List.map_nil, List.append_assoc,
        List.singleton_append]
      rw [hcell, he3]
    · rename_i e1 heq
      rw [hfs] at heq
      simp only [Prod.mk.injEq] at heq
      obtain ⟨hfind, henv⟩ := heq
      rw [hfind]
      simp only []
      have h200 : e1 = e.drop 200 0 := by
        rw [← henv, hnone hfind]
        rfl
      rw [ih g e1 hw h1 h2, h200]

/-- The enemies that `generateEnemies` returns stand on the cells given by
`wavePositions` for the slot count of the wave, in the order of their slots. -/
theorem Game.generateEnemies_cells (g : Game) (e : Env) :
    (g.generateEnemies e).1.enemies.map EnemyTank.cell =
      Game.wavePositions g (Game.enemiesToSpawn g.waveNumber).toNat e := by
  unfold Game.generateEnemies
  rw [Game.spawnLoop_cells g _ { g with enemies := [] } e rfl rfl rfl]
  rfl

theorem Game.wavePositions_ne_nil (g : Game) (n : Nat) (e : Env) (hn : 0 < n)
    (h : ∃ c ∈ Game.draws 100 e, g.cellFree c.1 c.2) :
    Game.wavePositions g n e ≠ [] := by
  obtain ⟨m, rfl⟩ : ∃ m, n = m + 1 := ⟨n - 1, by omega⟩
  obtain ⟨c, hmem, hfree⟩ := h
  unfold Game.wavePositions
  cases hfind : (Game.draws 100 e).find? g.freeCell with
  | some c2 => simp
  | none =>
    exfalso
    have := List.find?_eq_none.1 hfind c hmem
    unfold Game.freeCell at this
    simp only [decide_eq_true_eq] at this
    exact this hfree

theorem findIdx_first {α : Type} (p : α → Bool) (l : List α) :
    ∀ c, l.find? p = some c →
      l[l.findIdx p]? = some c ∧
      ∀ j, j < l.findIdx p → ∀ d, l[j]? = some d → p d = false := by
  induction l with
  | nil =>
    intro c h
    simp at h
  | cons a l ih =>
    intro c h
    cases hp : p a with
    | true =>
      simp only [List.find?_cons, hp, Option.some.injEq] at h
      subst h
      simp [List.findIdx_cons, hp]
    | false =>
      simp only [List.find?_cons, hp] at h
      obtain ⟨i1, i2⟩ := ih c h
      simp only [List.findIdx_cons, hp, cond_false]
      refine ⟨by simpa using i1, ?_⟩
      intro j hj d hd
      cases j with
      | zero =>
        simp only [List.getElem?_cons_zero, Option.some.injEq] at hd
        rw [← hd]
        exact hp
      | succ j =>
        simp only [List.getElem?_cons_succ] at hd
        exact i2 j (by omega) d hd

theorem Game.slot_first_free (g : Game) (e1 : Env) :
    ((Game.draws 100 e1).find? g.freeCell = none ↔
      ∀ c ∈ Game.draws 100 e1, ¬ g.cellFree c.1 c.2) ∧
    (∀ c, (Game.draws 100 e1).find? g.freeCell = some c →
      g.cellFree c.1 c.2 ∧ onInteriorGrid c.1 ∧ onInteriorGrid c.2 ∧
      (Game.draws 100 e1).findIdx g.freeCell < 100 ∧
      (Game.draws 100 e1)[(Game.draws 100 e1).findIdx g.freeCell]? = some c ∧
      ∀ j, j < (Game.draws 100 e1).findIdx g.freeCell →
        ∀ d, (Game.draws 100 e1)[j]? = some d → ¬ g.cellFree d.1 d.2) := by
  constructor
  · rw [List.find?_eq_none]
    constructor
    · intro h c hc hfree
      exact h c hc (by unfold Game.freeCell; exact decide_eq_true hfree)
    · intro h c hc hfree
      unfold Game.freeCell at hfree
      exact h c hc (of_decide_eq_true hfree)
  · intro c hfind
    have hfree : g.freeCell c = true := List.find?_some hfind
    have hmem := List.mem_of_find?_eq_some hfind
    obtain ⟨g1, g2⟩ := Game.draws_onGrid 100 e1 c hmem
    have hlt := (findIdx_of_find g.freeCell (Game.draws 100 e1)).2 c hfind
    rw [Game.draws_length] at hlt
    refine ⟨by unfold Game.freeCell at hfree; exact of_decide_eq_true hfree, g1, g2, hlt, ?_, ?_⟩
    · exact (findIdx_first g.freeCell _ c hfind).1
    · intro j hj d hd hfd
      have := (findIdx_first g.freeCell _ c hfind).2 j hj d hd
      unfold Game.freeCell at this
      rw [decide_eq_true hfd] at this
      exact absurd this (by simp)

/-- C17: wave placement.  Every enemy produced by `generateEnemies` stands on
a grid-aligned interior cell (x and y in 40, 80, ..., 720) whose 40x40
rectangle intersects no wall and neither player's rectangle, and the number of
enemies is at most `min(10, 1 + wave/2)`.  The enemies returned stand, slot by
slot, on the cells of `wavePositions`: each of the `min(10, 1 + wave/2)` slots
takes the first free cell among its at most 100 drawn cells (all cells drawn
before it in the slot are not free), and a slot whose 100 cells are all taken
adds no enemy.  The code's inner loop `findSpawn` returns that first valid
cell, and its outer loop adds one enemy on it or none. -/
theorem Game.generateEnemies_placement (g : Game) (e : Env) (n : Nat) (e1 : Env)
    (hwave : 1 ≤ g.waveNumber) :
    (∀ en ∈ (g.generateEnemies e).1.enemies, g.placed en) ∧
    (((g.generateEnemies e).1.enemies.length : Int) ≤ min 10 (1 + g.waveNumber / 2)) ∧
    (Game.findSpawn g 100 e1).1 =
      (Game.draws 100 e1).find? (fun c => g.isValidSpawn c.1 c.2) ∧
    (∀ x y, g.isValidSpawn x y = true ↔ g.cellFree x y) ∧
    ((Game.findSpawn g 100 e1).1 = none →
      Game.spawnLoop g (n + 1) e1 = Game.spawnLoop g n (Game.findSpawn g 100 e1).2) ∧
    (∀ x y, (Game.findSpawn g 100 e1).1 = some (x, y) →
      ∃ (enemy : EnemyTank) (e3 : Env), enemy.rect = ⟨x, y, 40, 40⟩ ∧
        Game.spawnLoop g (n + 1) e1 =
          Game.spawnLoop { g with enemies := g.enemies ++ [enemy] } n e3) ∧
    (g.generateEnemies e).1.enemies.map EnemyTank.cell =
      Game.wavePositions g (min 10 (1 + g.waveNumber / 2)).toNat e ∧
    ((∀ c ∈ Game.draws 100 e1, ¬ g.cellFree c.1 c.2) →
      Game.wavePositions g (n + 1) e1 = Game.wavePositions g n (e1.drop 200 0)) ∧
    (∀ c, (Game.draws 100 e1).find? g.freeCell = some c →
      g.cellFree c.1 c.2 ∧ onInteriorGrid c.1 ∧ onInteriorGrid c.2 ∧
      (Game.draws 100 e1).findIdx g.freeCell < 100 ∧
      (Game.draws 100 e1)[(Game.draws 100 e1).findIdx g.freeCell]? = some c ∧
      (∀ j, j < (Game.draws 100 e1).findIdx g.freeCell →
        ∀ d, (Game.draws 100 e1)[j]? = some d → ¬ g.cellFree d.1 d.2) ∧
      Game.wavePositions g (n + 1) e1 =
        c :: Game.wavePositions g n
          (e1.drop (2 * ((Game.draws 100 e1).findIdx g.freeCell + 1) + 2) 0)) := by
  refine ⟨?_, ?_, Game.findSpawn_eq_find g 100 e1, Game.isValidSpawn_iff g,
    (Game.spawnLoop_slot g n e1).1, (Game.spawnLoop_slot g n e1).2, ?_, ?_, ?_⟩
  · unfold Game.generateEnemies
    exact Game.spawnLoop_placed g _ { g with enemies := [] } e rfl rfl rfl (by simp)
  · have hlen := (Game.generateEnemies_frame g e).2.2.2.2.2.2.2.2.2
    rw [Game.enemiesToSpawn_eq g.waveNumber (by omega)] at hlen
    omega
  · rw [Game.generateEnemies_cells, Game.enemiesToSpawn_eq g.waveNumber (by omega)]
  · intro hall
    have hnone := (Game.slot_first_free g e1).1.2 hall
    rw [Game.wavePositions, hnone]
  · intro c hfind
    obtain ⟨s1, s2, s3, s4, s5, s6⟩ := (Game.slot_first_free g e1).2 c hfind
    refine ⟨s1, s2, s3, s4, s5, s6, ?_⟩
    rw [Game.wavePositions, hfind]

set_option maxRecDepth 100000 in
/-- Witness of C17: in wave 1 on the generated map, with all draws 0, the one
slot places its enemy on the first drawn cell (40,40), which is free. -/
theorem Game.generateEnemies_placement_witness :
    (1 : Int) ≤ arenaGame.waveNumber ∧
    (arenaGame.generateEnemies env0).1.enemies.map EnemyTank.cell = [(40, 40)] ∧
    ((arenaGame.generateEnemies env0).1.enemies.length : Int) ≤ 1 :=
  ⟨by decide,
    (Game.generateEnemies_placement arenaGame env0 0 env0 (by decide)).2.2.2.2.2.2.1.trans
      (by decide),
    (Game.generateEnemies_placement arenaGame env0 0 env0 (by decide)).2.1⟩

/-- C9: `checkWaveCompletion`.  With a non-empty enemy collection the game
(wave number, score, enemies and everything else) and the environment are
unchanged.  With an empty one the wave number increases by exactly 1, the
score by exactly 500, and the spawn loop is run with the slot count of the new
wave number: the new enemies stand on the cells that the placement procedure
gives for that count.  When a free cell is among the first 100 drawn cells the
new wave is not empty, so a further call changes nothing and the bonus is
granted once. -/
theorem Game.checkWaveCompletion_spec (g : Game) (e : Env) :
    (g.enemies ≠ [] → g.checkWaveCompletion e = (g, e)) ∧
    (g.enemies = [] →
      g.checkWaveCompletion e =
        Game.spawnLoop { g with waveNumber := g.waveNumber + 1, score := g.score + 500 }
          (Game.enemiesToSpawn (g.waveNumber + 1)).toNat e ∧
      (g.checkWaveCompletion e).1.waveNumber = g.waveNumber + 1 ∧
      (g.checkWaveCompletion e).1.score = g.score + 500 ∧
      (g.checkWaveCompletion e).1.enemies.length ≤ (Game.enemiesToSpawn (g.waveNumber + 1)).toNat ∧
      ((g.checkWaveCompletion e).1.enemies ≠ [] →
        ∀ e2 : Env, (g.checkWaveCompletion e).1.checkWaveCompletion e2 =
          ((g.checkWaveCompletion e).1, e2)) ∧
      (g.checkWaveCompletion e).1.enemies.map EnemyTank.cell =
        Game.wavePositions g (Game.enemiesToSpawn (g.waveNumber + 1)).toNat e ∧
      (0 ≤ g.waveNumber → (∃ c ∈ Game.draws 100 e, g.cellFree c.1 c.2) →
        (g.checkWaveCompletion e).1.enemies ≠ [] ∧
        ∀ e2 : Env, (g.checkWaveCompletion e).1.checkWaveCompletion e2 =
          ((g.checkWaveCompletion e).1, e2))) := by
  refine ⟨Game.checkWaveCompletion_nonempty g e, ?_⟩
  intro hempty
  obtain ⟨h1, h2, h3, h4⟩ := Game.checkWaveCompletion_empty g e hempty
  have hcells : (g.checkWaveCompletion e).1.enemies.map EnemyTank.cell =
      Game.wavePositions g (Game.enemiesToSpawn (g.waveNumber + 1)).toNat e := by
    rw [h1]
    rw [Game.spawnLoop_cells g _
      { g with waveNumber := g.waveNumber + 1, score := g.score + 500 } e rfl rfl rfl]
    show g.enemies.map EnemyTank.cell ++ _ = _
    rw [hempty]
    rfl
  refine ⟨h1, h2, h3, h4, fun h e2 => Game.checkWaveCompletion_nonempty _ e2 h, hcells, ?_⟩
  intro hw hfree
  have hcount : 0 < (Game.enemiesToSpawn (g.waveNumber + 1)).toNat := by
    rw [Game.enemiesToSpawn_eq _ (by omega)]
    omega
  have hne : (g.checkWaveCompletion e).1.enemies ≠ [] := by
    intro hnil
    rw [hnil] at hcells
    exact Game.wavePositions_ne_nil g _ e hcount hfree hcells.symm
  exact ⟨hne, fun e2 => Game.checkWaveCompletion_nonempty _ e2 hne⟩

set_option maxRecDepth 100000 in
/-- Witness of C9: on the generated map with no enemy left, wave 1 and all
draws 0, the call moves the game to wave 2 with score 500 and two enemies (on
the free cell (40,40) drawn for both slots), and a second call changes
nothing; a game whose single enemy is alive is left alone. -/
theorem Game.checkWaveCompletion_spec_witness :
    arenaGame.enemies = [] ∧ arenaGame.waveNumber = 1 ∧ arenaGame.score = 0 ∧
    (arenaGame.checkWaveCompletion env0).1.waveNumber = 2 ∧
    (arenaGame.checkWaveCompletion env0).1.score = 500 ∧
    (arenaGame.checkWaveCompletion env0).1.enemies.map EnemyTank.cell = [(40, 40), (40, 40)] ∧
    (arenaGame.checkWaveCompletion env0).1.checkWaveCompletion env0 =
      ((arenaGame.checkWaveCompletion env0).1, env0) ∧
    Game.checkWaveCompletion { Game.new with enemies := [enemyAt] } env0 =
      ({ Game.new with enemies := [enemyAt] }, env0) :=
  ⟨rfl, rfl, rfl,
    ((Game.checkWaveCompletion_spec arenaGame env0).2 rfl).2.1,
    ((Game.checkWaveCompletion_spec arenaGame env0).2 rfl).2.2.1,
    ((Game.checkWaveCompletion_spec arenaGame env0).2 rfl).2.2.2.2.2.1.trans (by decide),
    (((Game.checkWaveCompletion_spec arenaGame env0).2 rfl).2.2.2.2.2.2 (by decide)
      ⟨(40, 40), by decide, by decide⟩).2 env0,
    (Game.checkWaveCompletion_spec { Game.new with enemies := [enemyAt] } env0).1 (by decide)⟩

/-! ## Properties of the players kept by the world tick -/

theorem Game.stable_hitPlayerLoop (P : PlayerTank → Prop) (hP : PlayerTank.TickStable P)
    (bullets : List Bullet) : ∀ (p : PlayerTank) (e : Env),
    P p → P (Game.hitPlayerLoop p bullets e).1 := by
  induction bullets with
  | nil =>
    intro p e h
    exact h
  | cons bullet rest ih =>
    intro p e h
    unfold Game.hitPlayerLoop
    apply ih
    unfold Game.hitPlayer
    split
    · split
      · exact hP.2.2.1 _ 1000 e (hP.2.1 p h)
      · exact h
    · exact h

theorem Game.stable_hitPlayerOpt (P : PlayerTank → Prop) (hP : PlayerTank.TickStable P)
    (player : Option PlayerTank) (bullets : List Bullet) (e : Env)
    (h : ∀ p, player = some p → P p) :
    ∀ p, (Game.hitPlayerOpt player bullets e).1 = some p → P p := by
  intro p hp
  unfold Game.hitPlayerOpt at hp
  cases player with
  | none => simp at hp
  | some q =>
    simp only [Option.some.injEq] at hp
    rw [← hp]
    exact Game.stable_hitPlayerLoop P hP bullets q e (h q rfl)

theorem Game.stable_hitEnemyOpt (P : PlayerTank → Prop) (hP : PlayerTank.TickStable P)
    (player : Option PlayerTank) (enemy : EnemyTank) (score : Int)
    (h : ∀ p, player = some p → P p) :
    ∀ p, (Game.hitEnemyOpt player enemy score).1 = some p → P p := by
  intro p hp
  unfold Game.hitEnemyOpt at hp
  cases player with
  | none => simp at hp
  | some q =>
    simp only [Option.some.injEq] at hp
    rw [← hp]
    exact hP.1 q _ (h q rfl)

theorem Game.stable_enemyStep (P : PlayerTank → Prop) (hP : PlayerTank.TickStable P)
    (g : Game) (enemy : EnemyTank) (e : Env) (h : g.playersSatisfy P) :
    (Game.enemyStep g enemy e).1.playersSatisfy P := by
  unfold Game.enemyStep
  simp only []
  obtain ⟨h1, h2⟩ := h
  constructor
  · intro p hp
    exact Game.stable_hitEnemyOpt P hP _ _ _ (Game.stable_hitPlayerOpt P hP _ _ _ h1) p hp
  · intro p hp
    exact Game.stable_hitEnemyOpt P hP _ _ _ (Game.stable_hitPlayerOpt P hP _ _ _ h2) p hp

theorem Game.stable_enemyLoop (P : PlayerTank → Prop) (hP : PlayerTank.TickStable P)
    (enemies : List EnemyTank) : ∀ (g : Game) (e : Env),
    g.playersSatisfy P → (Game.enemyLoop g enemies e).1.playersSatisfy P := by
  induction enemies with
  | nil =>
    intro g e h
    exact h
  | cons enemy rest ih =>
    intro g e h
    unfold Game.enemyLoop
    exact ih _ _ (Game.stable_enemyStep P hP g enemy e h)

theorem Game.stable_applyPowerUpEffect (P : PlayerTank → Prop) (hP : PlayerTank.TickStable P)
    (g : Game) (slot : PlayerSlot) (p : PlayerTank) (e : Env)
    (h : g.playersSatisfy P) (hp : P p) :
    (g.applyPowerUpEffect slot p e).1.playersSatisfy P := by
  unfold Game.applyPowerUpEffect
  split
  · exact Game.playersSatisfy_setPlayer _ g slot _ h (hP.2.2.2 p hp)
  · exact Game.playersSatisfy_congr _ g _ (Game.freezeAllEnemies_players g 5000 e).1
      (Game.freezeAllEnemies_players g 5000 e).2 h
  · exact Game.playersSatisfy_setPlayer _ g slot _ h (hP.2.2.1 p 5000 e hp)
  · exact Game.playersSatisfy_congr _ g _ (Game.destroyAllEnemies_players g e).1
      (Game.destroyAllEnemies_players g e).2 h
  · exact h

theorem Game.stable_checkPowerUpCollision (P : PlayerTank → Prop)
    (hP : PlayerTank.TickStable P) (g : Game) (e : Env) (h : g.playersSatisfy P) :
    (g.checkPowerUpCollision e).1.playersSatisfy P := by
  unfold Game.checkPowerUpCollision
  split
  · exact h
  · split
    · rename_i p hc
      have hp : P p := h.1 p (Game.collector_eq_some g .one p hc).1
      exact Game.playersSatisfy_congr _ _ _ rfl rfl
        (Game.stable_applyPowerUpEffect P hP g .one p e h hp)
    · split
      · rename_i p hc
        have hp : P p := h.2 p (Game.collector_eq_some g .two p hc).1
        exact Game.playersSatisfy_congr _ _ _ rfl rfl
          (Game.stable_applyPowerUpEffect P hP g .two p e h hp)
      · exact h

/-- The phases of the world tick that follow the movement of the players. -/
theorem Game.stable_afterPlayers (P : PlayerTank → Prop) (hP : PlayerTank.TickStable P)
    (g : Game) (e : Env) (hs : g.state = .STATE_1P ∨ g.state = .STATE_2P)
    (h : (g.updatePlayers e).1.playersSatisfy P) :
    (g.update e).1.playersSatisfy P := by
  unfold Game.update
  rw [if_pos hs]
  simp only []
  have h2 : ((g.updatePlayers e).1.updateEnemies (g.updatePlayers e).2).1.playersSatisfy P := by
    unfold Game.updateEnemies
    exact Game.stable_enemyLoop P hP _ _ _ h
  have h3 := Game.playersSatisfy_congr P _ _
    (Game.checkWaveCompletion_players _
      ((g.updatePlayers e).1.updateEnemies (g.updatePlayers e).2).2).1
    (Game.checkWaveCompletion_players _
      ((g.updatePlayers e).1.updateEnemies (g.updatePlayers e).2).2).2 h2
  have h4 : ∀ (g3 : Game) (e3 : Env), g3.playersSatisfy P →
      (g3.updatePowerUp e3).1.playersSatisfy P := by
    intro g3 e3 hg3
    unfold Game.updatePowerUp
    simp only []
    apply Game.stable_checkPowerUpCollision P hP
    exact Game.playersSatisfy_congr _ g3 _ (Game.spawnRandomPowerUp_players g3 e3).1
      (Game.spawnRandomPowerUp_players g3 e3).2 hg3
  have h5 := h4 _ ((((g.updatePlayers e).1.updateEnemies (g.updatePlayers e).2).1.checkWaveCompletion
        ((g.updatePlayers e).1.updateEnemies (g.updatePlayers e).2).2).2) h3
  exact Game.playersSatisfy_congr P _ _ (Game.checkGameOver_frame _).1
    (Game.checkGameOver_frame _).2.1 h5

/-! ## Facing tie-break -/

theorem PlayerTank.newDirection_eq_facing (p : PlayerTank) : p.newDirection = p.facing := by
  unfold PlayerTank.newDirection PlayerTank.facing
  cases p.keyUp <;> cases p.keyDown <;> cases p.keyLeft <;> cases p.keyRight <;> simp

theorem PlayerTank.facing_congr (p q : PlayerTank) (h1 : q.keyUp = p.keyUp)
    (h2 : q.keyLeft = p.keyLeft) (h3 : q.keyDown = p.keyDown) (h4 : q.keyRight = p.keyRight)
    (hd : q.direction = p.direction) : q.facing = p.facing := by
  unfold PlayerTank.facing
  rw [h1, h2, h3, h4, hd]

theorem PlayerTank.facing_settles (p q : PlayerTank) (h1 : q.keyUp = p.keyUp)
    (h2 : q.keyLeft = p.keyLeft) (h3 : q.keyDown = p.keyDown) (h4 : q.keyRight = p.keyRight)
    (hd : q.direction = p.facing) : q.facingSettled := by
  unfold PlayerTank.facingSettled
  rw [hd]
  unfold PlayerTank.facing
  rw [h1, h2, h3, h4, hd]
  unfold PlayerTank.facing
  split_ifs <;> rfl

theorem PlayerTank.updateInvincible_controls (p : PlayerTank) (e : Env) :
    (p.updateInvincible e).1.keyUp = p.keyUp ∧ (p.updateInvincible e).1.keyLeft = p.keyLeft ∧
    (p.updateInvincible e).1.keyDown = p.keyDown ∧
    (p.updateInvincible e).1.keyRight = p.keyRight ∧
    (p.updateInvincible e).1.direction = p.direction := by
  unfold PlayerTank.updateInvincible
  split
  · simp only []
    split <;> exact ⟨rfl, rfl, rfl, rfl, rfl⟩
  · exact ⟨rfl, rfl, rfl, rfl, rfl⟩

theorem PlayerTank.clamp_controls (p : PlayerTank) :
    p.clamp.keyUp = p.keyUp ∧ p.clamp.keyLeft = p.keyLeft ∧ p.clamp.keyDown = p.keyDown ∧
    p.clamp.keyRight = p.keyRight ∧ p.clamp.direction = p.direction := by
  unfold PlayerTank.clamp
  simp only []
  split_ifs <;> exact ⟨rfl, rfl, rfl, rfl, rfl⟩

theorem PlayerTank.update_controls (p : PlayerTank) (walls : List SDL_Rect)
    (other : Option SDL_Rect) (e : Env) (halive : p.alive = true) :
    (p.update walls other e).1.keyUp = p.keyUp ∧ (p.update walls other e).1.keyLeft = p.keyLeft ∧
    (p.update walls other e).1.keyDown = p.keyDown ∧
    (p.update walls other e).1.keyRight = p.keyRight ∧
    (p.update walls other e).1.direction = p.facing := by
  rw [PlayerTank.update_of_alive p walls other e halive]
  have hq : ∀ q : PlayerTank, q = (if p.canMove walls other then
        ({ p with direction := p.newDirection, x := p.newX, y := p.newY
                  rect := { p.rect with x := p.newX, y := p.newY } } : PlayerTank)
       else { p with direction := p.newDirection }) →
      q.keyUp = p.keyUp ∧ q.keyLeft = p.keyLeft ∧ q.keyDown = p.keyDown ∧
      q.keyRight = p.keyRight ∧ q.direction = p.newDirection := by
    intro q hq
    subst hq
    split <;> exact ⟨rfl, rfl, rfl, rfl, rfl⟩
  generalize (if p.canMove walls other then
        ({ p with direction := p.newDirection, x := p.newX, y := p.newY
                  rect := { p.rect with x := p.newX, y := p.newY } } : PlayerTank)
       else { p with direction := p.newDirection }) = q at hq
  obtain ⟨q1, q2, q3, q4, q5⟩ := hq q rfl
  obtain ⟨u1, u2, u3, u4, u5⟩ := PlayerTank.updateInvincible_controls q.clamp e
  obtain ⟨c1, c2, c3, c4, c5⟩ := PlayerTank.clamp_controls q
  rw [u1, u2, u3, u4, u5, c1, c2, c3, c4, c5, q1, q2, q3, q4, q5]
  exact ⟨rfl, rfl, rfl, rfl, PlayerTank.newDirection_eq_facing p⟩

theorem PlayerTank.update_of_dead (p : PlayerTank) (walls : List SDL_Rect)
    (other : Option SDL_Rect) (e : Env) (hdead : p.alive = false) :
    p.update walls other e = (p, e) := by
  unfold PlayerTank.update
  rw [if_pos (by simp [hdead])]

/-- After `PlayerTank::update` (and `updateBullets`) every player whose facing
agreed with its keys when dead has a facing that agrees with its keys. -/
theorem PlayerTank.update_facingSettled (p : PlayerTank) (walls : List SDL_Rect)
    (other : Option SDL_Rect) (e : Env) (h : p.facingInv) :
    ((p.update walls other e).1.updateBullets walls).facingSettled ∧
    (p.update walls other e).1.direction = p.facing := by
  cases halive : p.alive with
  | true =>
    obtain ⟨k1, k2, k3, k4, kd⟩ := PlayerTank.update_controls p walls other e halive
    exact ⟨PlayerTank.facing_settles p _ k1 k2 k3 k4 kd, kd⟩
  | false =>
    rw [PlayerTank.update_of_dead p walls other e halive]
    exact ⟨h halive, (h halive).symm⟩

theorem PlayerTank.facingSettled_stable : PlayerTank.TickStable PlayerTank.facingSettled := by
  refine ⟨?_, ?_, ?_, ?_⟩
  · intro p bullets h
    exact h
  · intro p h
    unfold PlayerTank.takeDamage
    split
    · simp only []
      split <;> exact h
    · exact h
  · intro p duration e h
    unfold PlayerTank.activateInvincible
    split <;> exact h
  · intro p h
    unfold PlayerTank.heal
    split <;> exact h

theorem Game.facing_updatePlayers (g : Game) (e : Env)
    (h : g.playersSatisfy PlayerTank.facingInv) :
    (g.updatePlayers e).1.playersSatisfy PlayerTank.facingSettled := by
  obtain ⟨h1, h2⟩ := h
  unfold Game.updatePlayers
  cases hp1 : g.player1 with
  | none =>
    cases hp2 : g.player2 with
    | none =>
      simp only [hp1, hp2]
      exact ⟨by simp [hp1], by simp [hp2]⟩
    | some q =>
      simp only [hp1, hp2]
      refine ⟨by simp [hp1], ?_⟩
      intro p hp
      simp only [Option.some.injEq] at hp
      rw [← hp]
      exact (PlayerTank.update_facingSettled q _ _ _ (h2 q hp2)).1
  | some q1 =>
    cases hp2 : g.player2 with
    | none =>
      simp only [hp1, hp2]
      refine ⟨?_, by simp⟩
      intro p hp
      simp only [Option.some.injEq] at hp
      rw [← hp]
      exact (PlayerTank.update_facingSettled q1 _ _ _ (h1 q1 hp1)).1
    | some q2 =>
      simp only [hp1, hp2]
      constructor
      · intro p hp
        simp only [Option.some.injEq] at hp
        rw [← hp]
        exact (PlayerTank.update_facingSettled q1 _ _ _ (h1 q1 hp1)).1
      · intro p hp
        simp only [Option.some.injEq] at hp
        rw [← hp]
        exact (PlayerTank.update_facingSettled q2 _ _ _ (h2 q2 hp2)).1

theorem Game.facing_worldTick (g : Game) (e : Env)
    (h : g.playersSatisfy PlayerTank.facingInv) :
    (g.update e).1.playersSatisfy PlayerTank.facingInv := by
  by_cases hs : g.state = .STATE_1P ∨ g.state = .STATE_2P
  · have hsettled := Game.stable_afterPlayers PlayerTank.facingSettled
      PlayerTank.facingSettled_stable g e hs (Game.facing_updatePlayers g e h)
    exact ⟨fun p hp _ => hsettled.1 p hp, fun p hp _ => hsettled.2 p hp⟩
  · unfold Game.update
    rw [if_neg hs]
    exact h

theorem PlayerTank.handleInput_facingInv (p : PlayerTank) (event : PlayerTank.SDL_Event)
    (b : Bool) (h : p.facingInv) : (p.handleInput event b).facingInv := by
  cases halive : p.alive with
  | false =>
    unfold PlayerTank.handleInput
    rw [if_pos (by simp [halive])]
    exact h
  | true =>
    have hstill : (p.handleInput event b).alive = true := by
      unfold PlayerTank.handleInput
      rw [if_neg (by simp [halive])]
      simp only []
      split
      · split <;> first
          | exact halive
          | (split <;> exact halive)
      · split <;> first
          | exact halive
          | (split <;> exact halive)
    intro hdead
    rw [hstill] at hdead
    exact absurd hdead (by simp)

theorem Game.facing_handleInput (g : Game) (event : PlayerTank.SDL_Event)
    (h : g.playersSatisfy PlayerTank.facingInv) :
    (g.handleInput event).playersSatisfy PlayerTank.facingInv := by
  obtain ⟨h1, h2⟩ := h
  unfold Game.handleInput
  split
  · cases hp1 : g.player1 with
    | none =>
      cases hp2 : g.player2 with
      | none =>
        simp only [hp1, hp2]
        exact ⟨by simp [hp1], by simp [hp2]⟩
      | some q2 =>
        simp only [hp1, hp2]
        refine ⟨by simp [hp1], ?_⟩
        intro p hp
        simp only [Option.some.injEq] at hp
        rw [← hp]
        exact PlayerTank.handleInput_facingInv q2 event false (h2 q2 hp2)
    | some q1 =>
      cases hp2 : g.player2 with
      | none =>
        simp only [hp1, hp2]
        refine ⟨?_, by simp⟩
        intro p hp
        simp only [Option.some.injEq] at hp
        rw [← hp]
        exact PlayerTank.handleInput_facingInv q1 event true (h1 q1 hp1)
      | some q2 =>
        simp only [hp1, hp2]
        constructor
        · intro p hp
          simp only [Option.some.injEq] at hp
          rw [← hp]
          exact PlayerTank.handleInput_facingInv q1 event true (h1 q1 hp1)
        · intro p hp
          simp only [Option.some.injEq] at hp
          rw [← hp]
          exact PlayerTank.handleInput_facingInv q2 event false (h2 q2 hp2)
  · exact ⟨h1, h2⟩

theorem Game.facing_resetGame (g : Game) (e : Env)
    (h : g.state = .STATE_2P ∨ g.player2 = none) :
    (g.resetGame e).1.playersSatisfy PlayerTank.facingInv := by
  obtain ⟨⟨x, y, h1⟩, h2⟩ := Game.resetGame_players g e
  constructor
  · intro p hp
    rw [h1] at hp
    simp only [Option.some.injEq] at hp
    rw [← hp]
    intro hdead
    exact absurd hdead (by simp [PlayerTank.new])
  · intro p hp
    rcases h2 with ⟨x2, y2, h2⟩ | ⟨hs, h2⟩
    · rw [h2] at hp
      simp only [Option.some.injEq] at hp
      rw [← hp]
      intro hdead
      exact absurd hdead (by simp [PlayerTank.new])
    · rcases h with h | h
      · exact absurd h hs
      · rw [h2, h] at hp
        simp at hp

theorem Game.facing_reachable (g : Game) (h : Game.Reachable g) :
    g.playersSatisfy PlayerTank.facingInv := by
  induction h with
  | reset g e h => exact Game.facing_resetGame g e h
  | input g event _ ih => exact Game.facing_handleInput g event ih
  | tick g e _ ih => exact Game.facing_worldTick g e ih

/-- C20: facing tie-break in `PlayerTank::update`.  The key tests run in the
order Up, Down, Left, Right and the last held one wins: after the update the
direction is Right if Right is held, else Left if Left is held, else Down if
Down is held, else Up if Up is held, and unchanged if no key is held, whether
or not the move is accepted (for every wall list and other-player rectangle).
This holds for every alive player, and for every player, alive or dead, of a
game state reachable in play; the keys themselves are not changed. -/
theorem PlayerTank.update_facing (g : Game) (p q : PlayerTank) (walls : List SDL_Rect)
    (other : Option SDL_Rect) (e : Env) (halive : p.alive = true)
    (hg : Game.Reachable g) (hq : g.player1 = some q ∨ g.player2 = some q) :
    (p.update walls other e).1.direction =
      (if p.keyRight then 3 else if p.keyLeft then 1 else if p.keyDown then 2
        else if p.keyUp then 0 else p.direction) ∧
    (q.update walls other e).1.direction =
      (if q.keyRight then 3 else if q.keyLeft then 1 else if q.keyDown then 2
        else if q.keyUp then 0 else q.direction) ∧
    ((p.update walls other e).1.keyUp = p.keyUp ∧ (p.update walls other e).1.keyLeft = p.keyLeft ∧
      (p.update walls other e).1.keyDown = p.keyDown ∧
      (p.update walls other e).1.keyRight = p.keyRight) := by
  obtain ⟨k1, k2, k3, k4, kd⟩ := PlayerTank.update_controls p walls other e halive
  have hinv : q.facingInv := by
    rcases hq with h | h
    · exact (Game.facing_reachable g hg).1 q h
    · exact (Game.facing_reachable g hg).2 q h
  exact ⟨kd, (PlayerTank.update_facingSettled q walls other e hinv).2, k1, k2, k3, k4⟩

set_option maxRecDepth 100000 in
theorem gameStart_player1 : gameStart.player1 = some (PlayerTank.new 40 720) := by
  decide

/-- Witness of C20: a player holding Up and Right faces Right after the
update; the game right after its reset is reachable and its player 1 is the
fresh player at (40,720). -/
theorem PlayerTank.update_facing_witness :
    playerUpRight.alive = true ∧ Game.Reachable gameStart ∧
    (gameStart.player1 = some (PlayerTank.new 40 720) ∨
      gameStart.player2 = some (PlayerTank.new 40 720)) ∧
    (playerUpRight.update [] none env0).1.direction = 3 :=
  ⟨rfl, Game.Reachable.reset _ env0 (Or.inr rfl), Or.inl gameStart_player1,
    (PlayerTank.update_facing gameStart playerUpRight (PlayerTank.new 40 720) [] none env0 rfl
      (Game.Reachable.reset _ env0 (Or.inr rfl)) (Or.inl gameStart_player1)).1.trans (by decide)⟩

/-! ## Power-up type weights -/

theorem Game.getRandomPowerUpType_fst (e : Env) :
    (Game.getRandomPowerUpType e).1 =
      (if e.rands 0 % 100 < 30 then PowerUpType.POWERUP_HEALTH
       else if e.rands 0 % 100 < 60 then PowerUpType.POWERUP_FREEZE
       else if e.rands 0 % 100 < 90 then PowerUpType.POWERUP_INVINCIBLE
       else PowerUpType.POWERUP_BOMB) := by
  unfold Game.getRandomPowerUpType
  simp only []
  have hr : (e.rand).1 = e.rands 0 := rfl
  rw [hr]
  split_ifs <;> rfl

/-- C21: `getRandomPowerUpType` as a function of the roll `r = rand() % 100`.
It returns Health exactly for `r < 30`, Freeze for `30 <= r < 60`, Invincible
for `60 <= r < 90` and Bomb for `90 <= r`; among the rolls 0..99 that is 30,
30, 30 and 10 values; it never returns `POWERUP_NONE`. -/
theorem Game.getRandomPowerUpType_weights (e : Env) :
    Game.rollsGiving .POWERUP_HEALTH = 30 ∧ Game.rollsGiving .POWERUP_FREEZE = 30 ∧
    Game.rollsGiving .POWERUP_INVINCIBLE = 30 ∧ Game.rollsGiving .POWERUP_BOMB = 10 ∧
    Game.rollsGiving .POWERUP_NONE = 0 ∧
    (Game.getRandomPowerUpType e).1 = (Game.getRandomPowerUpType (envRoll (e.rands 0 % 100))).1 ∧
    ((Game.getRandomPowerUpType e).1 = .POWERUP_HEALTH ↔ e.rands 0 % 100 < 30) ∧
    ((Game.getRandomPowerUpType e).1 = .POWERUP_FREEZE ↔
      (30 ≤ e.rands 0 % 100 ∧ e.rands 0 % 100 < 60)) ∧
    ((Game.getRandomPowerUpType e).1 = .POWERUP_INVINCIBLE ↔
      (60 ≤ e.rands 0 % 100 ∧ e.rands 0 % 100 < 90)) ∧
    ((Game.getRandomPowerUpType e).1 = .POWERUP_BOMB ↔ 90 ≤ e.rands 0 % 100) ∧
    (Game.getRandomPowerUpType e).1 ≠ .POWERUP_NONE := by
  have hlt : e.rands 0 % 100 < 100 := Nat.mod_lt _ (by decide)
  have hroll : (envRoll (e.rands 0 % 100)).rands 0 % 100 = e.rands 0 % 100 :=
    Nat.mod_eq_of_lt hlt
  refine ⟨by decide, by decide, by decide, by decide, by decide, ?_, ?_, ?_, ?_, ?_, ?_⟩
  · rw [Game.getRandomPowerUpType_fst, Game.getRandomPowerUpType_fst, hroll]
  all_goals
    rw [Game.getRandomPowerUpType_fst]
    split_ifs <;> simp <;> omega

/-! ## Enemy heading and firing -/

theorem c_abs_eq_abs (a : Int) : c_abs a = |a| := by
  unfold c_abs
  split
  · rename_i h
    exact (abs_of_neg h).symm
  · rename_i h
    exact (abs_of_nonneg (not_lt.1 h)).symm

theorem EnemyTank.chooseDirectionTowardsPlayer_some (en : EnemyTank) (t : PlayerTank) (e : Env) :
    en.chooseDirectionTowardsPlayer (some t) e =
      (if e.rands 0 % 100 < 20 then
        ({ en with direction := ((e.rands 1 % 4 : Nat) : Int) }, e.drop 2 0)
       else ({ en with direction := en.seekHeading t }, e.drop 1 0)) := by
  unfold EnemyTank.chooseDirectionTowardsPlayer EnemyTank.seekHeading
  simp only [c_abs_eq_abs]
  rfl

/-- C26: seek heading, `chooseDirectionTowardsPlayer` with a non-null target.
When the noise roll does not trigger (`rand() % 100 >= 20`) the heading becomes
the one facing the target along the axis of larger absolute delta: if
`|dx| > |dy|` Left when the enemy is to the right of the target and Right
otherwise, else Up when the enemy is below the target and Down otherwise.  When
the roll triggers (`< 20`) the heading is the second random draw modulo 4.
Nothing but the heading changes. -/
theorem EnemyTank.chooseDirectionTowardsPlayer_spec (en : EnemyTank) (t : PlayerTank) (e : Env) :
    (e.rands 0 % 100 ≥ 20 →
      en.chooseDirectionTowardsPlayer (some t) e =
        ({ en with direction :=
            (if |en.rect.x - t.rect.x| > |en.rect.y - t.rect.y| then
              (if en.rect.x > t.rect.x then 1 else 3)
             else (if en.rect.y > t.rect.y then 0 else 2)) }, e.drop 1 0)) ∧
    (e.rands 0 % 100 < 20 →
      en.chooseDirectionTowardsPlayer (some t) e =
        ({ en with direction := ((e.rands 1 % 4 : Nat) : Int) }, e.drop 2 0)) := by
  rw [EnemyTank.chooseDirectionTowardsPlayer_some]
  constructor
  · intro h
    rw [if_neg (by omega)]
    unfold EnemyTank.seekHeading
    simp only [sub_pos]
  · intro h
    rw [if_pos h]

/-- Witness of C26: the enemy at (400,400) seeking a player at (100,400) with
roll 50 turns Left. -/
theorem EnemyTank.chooseDirectionTowardsPlayer_spec_witness :
    (envRoll 50).rands 0 % 100 ≥ 20 ∧
    (enemyAt.chooseDirectionTowardsPlayer (some playerAt) (envRoll 50)).1.direction = 1 :=
  ⟨by decide,
    (congrArg (fun r => r.1.direction)
      ((EnemyTank.chooseDirectionTowardsPlayer_spec enemyAt playerAt (envRoll 50)).1
        (by decide))).trans (by decide)⟩

theorem EnemyTank.fireTest_iff (en : EnemyTank) (t : PlayerTank) (e : Env) :
    ((en.fireTest t e).1 = true ↔
      (en.shootCooldown = 0 ∧
        |en.rect.x - t.rect.x| + |en.rect.y - t.rect.y| < 200 ∧ e.rands 0 % 100 < 10)) := by
  unfold EnemyTank.fireTest
  simp only [c_abs_eq_abs]
  have hr : (e.rand).1 = e.rands 0 := rfl
  by_cases hd : |en.rect.x - t.rect.x| + |en.rect.y - t.rect.y| < 200
  · rw [if_pos hd, hr]
    by_cases hroll : e.rands 0 % 100 < 10
    · rw [if_pos hroll]
      simp [hd, hroll]
    · rw [if_neg hroll]
      simp [hroll]
  · rw [if_neg hd]
    simp [hd]

theorem EnemyTank.seekFire_eq (en : EnemyTank) (walls : List SDL_Rect) (t : PlayerTank)
    (e : Env) (hfrozen : en.frozen = false) :
    (en.fires t e →
      (en.seekFire walls t e).1 =
        { en with
          shootCooldown := 60
          bullets := updateBulletList
            (en.bullets ++ [Bullet.new (en.rect.x + 15) (en.rect.y + 15) en.direction]) walls }) ∧
    (¬ en.fires t e →
      (en.seekFire walls t e).1 =
        { en with
          shootCooldown := en.cooldownAfterTick
          bullets := updateBulletList en.bullets walls }) := by
  have hq : ∀ q : EnemyTank, q = (if en.shootCooldown > 0 then
      ({ en with shootCooldown := en.shootCooldown - 1 } : EnemyTank) else en) →
      q = { en with shootCooldown := en.cooldownAfterTick } := by
    intro q hq
    subst hq
    unfold EnemyTank.cooldownAfterTick
    split <;> rfl
  have h15 : Int.tdiv GRID_SIZE 2 - 5 = 15 := by decide
  constructor
  · intro hfire
    unfold EnemyTank.seekFire
    simp only []
    generalize (if en.shootCooldown > 0 then
      ({ en with shootCooldown := en.shootCooldown - 1 } : EnemyTank) else en) = q at hq
    have hqeq := hq q rfl
    subst hqeq
    have ht : (EnemyTank.fireTest { en with shootCooldown := en.cooldownAfterTick } t e).1 = true :=
      (EnemyTank.fireTest_iff _ t e).2 hfire
    rw [ht]
    simp only [if_true]
    unfold EnemyTank.shoot
    rw [if_neg (by simp [hfrozen])]
    simp only [add_sub_assoc, h15]
  · intro hno
    unfold EnemyTank.seekFire
    simp only []
    generalize (if en.shootCooldown > 0 then
      ({ en with shootCooldown := en.shootCooldown - 1 } : EnemyTank) else en) = q at hq
    have hqeq := hq q rfl
    subst hqeq
    have ht : (EnemyTank.fireTest { en with shootCooldown := en.cooldownAfterTick } t e).1 = false := by
      cases h : (EnemyTank.fireTest { en with shootCooldown := en.cooldownAfterTick } t e).1 with
      | false => rfl
      | true => exact absurd ((EnemyTank.fireTest_iff _ t e).1 h) hno
    rw [ht]
    simp only [Bool.false_eq_true, if_false]

theorem EnemyTank.update_seeking (en : EnemyTank) (walls : List SDL_Rect) (t : PlayerTank)
    (e : Env) (halive : en.alive = true) (hfrozen : en.frozen = false) (ht : t.alive = true) :
    en.update walls (some t) e =
      (en.seekMove walls (some t) e).1.seekFire walls t (en.seekMove walls (some t) e).2 := by
  unfold EnemyTank.update
  rw [if_neg (by simp [halive, hfrozen])]
  simp only []
  rw [if_neg (by simp [ht])]

theorem EnemyTank.update_wandering (en : EnemyTank) (walls : List SDL_Rect)
    (tgt : Option PlayerTank) (e : Env) (halive : en.alive = true) (hfrozen : en.frozen = false)
    (ht : notAlive tgt) : en.update walls tgt e = en.wander walls tgt e := by
  unfold EnemyTank.update
  rw [if_neg (by simp [halive, hfrozen])]
  cases tgt with
  | none => rfl
  | some t =>
    simp only []
    rw [if_pos (by simp [ht t rfl])]

theorem EnemyTank.chooseDirectionTowardsPlayer_status (en : EnemyTank)
    (tgt : Option PlayerTank) (e : Env) :
    (en.chooseDirectionTowardsPlayer tgt e).1.frozen = en.frozen ∧
    (en.chooseDirectionTowardsPlayer tgt e).1.shootCooldown = en.shootCooldown ∧
    (en.chooseDirectionTowardsPlayer tgt e).1.alive = en.alive ∧
    (en.chooseDirectionTowardsPlayer tgt e).1.moveTimer = en.moveTimer := by
  unfold EnemyTank.chooseDirectionTowardsPlayer
  cases tgt with
  | none => exact ⟨rfl, rfl, rfl, rfl⟩
  | some t =>
    simp only []
    split <;> exact ⟨rfl, rfl, rfl, rfl⟩

theorem EnemyTank.move_status (en : EnemyTank) (dir : Int) (walls : List SDL_Rect)
    (tgt : Option PlayerTank) (e : Env) :
    (en.move dir walls tgt e).1.frozen = en.frozen ∧
    (en.move dir walls tgt e).1.shootCooldown = en.shootCooldown ∧
    (en.move dir walls tgt e).1.alive = en.alive ∧
    (en.move dir walls tgt e).1.moveTimer = en.moveTimer := by
  unfold EnemyTank.move
  by_cases hf : en.frozen = true
  · rw [if_pos hf]
    exact ⟨rfl, rfl, rfl, rfl⟩
  · rw [if_neg hf]
    simp only []
    generalize en.rect.x + (if dir = 1 then -en.moveSpeed else if dir = 3 then en.moveSpeed else 0)
      = newX
    generalize en.rect.y + (if dir = 0 then -en.moveSpeed else if dir = 2 then en.moveSpeed else 0)
      = newY
    by_cases hb : newX ≥ 0 ∧ newX + GRID_SIZE ≤ SCREEN_WIDTH ∧ newY ≥ 0 ∧
        newY + GRID_SIZE ≤ SCREEN_HEIGHT
    · rw [if_pos hb]
      by_cases hc : (!EnemyTank.checkCollision newX newY walls) = true
      · rw [if_pos hc]
        exact ⟨rfl, rfl, rfl, rfl⟩
      · rw [if_neg hc]
        exact EnemyTank.chooseDirectionTowardsPlayer_status _ tgt e
    · rw [if_neg hb]
      exact EnemyTank.chooseDirectionTowardsPlayer_status _ tgt e

theorem EnemyTank.seekMove_status (en : EnemyTank) (walls : List SDL_Rect)
    (tgt : Option PlayerTank) (e : Env) :
    (en.seekMove walls tgt e).1.frozen = en.frozen ∧
    (en.seekMove walls tgt e).1.shootCooldown = en.shootCooldown ∧
    (en.seekMove walls tgt e).1.alive = en.alive := by
  unfold EnemyTank.seekMove
  simp only []
  split
  · obtain ⟨m1, m2, m3, -⟩ := EnemyTank.move_status
      { (EnemyTank.chooseDirectionTowardsPlayer { en with moveTimer := en.moveTimer + 1 } tgt e).1
        with moveTimer := 0 }
      (EnemyTank.chooseDirectionTowardsPlayer { en with moveTimer := en.moveTimer + 1 } tgt
        e).1.direction walls tgt
      (EnemyTank.chooseDirectionTowardsPlayer { en with moveTimer := en.moveTimer + 1 } tgt e).2
    obtain ⟨c1, c2, c3, -⟩ := EnemyTank.chooseDirectionTowardsPlayer_status
      { en with moveTimer := en.moveTimer + 1 } tgt e
    exact ⟨m1.trans c1, m2.trans c2, m3.trans c3⟩
  · obtain ⟨m1, m2, m3, -⟩ := EnemyTank.move_status { en with moveTimer := en.moveTimer + 1 }
      en.direction walls tgt e
    exact ⟨m1, m2, m3⟩

theorem EnemyTank.wander_status (en : EnemyTank) (walls : List SDL_Rect)
    (tgt : Option PlayerTank) (e : Env) :
    (en.wander walls tgt e).1.frozen = en.frozen ∧
    (en.wander walls tgt e).1.shootCooldown = en.shootCooldown ∧
    (en.wander walls tgt e).1.alive = en.alive := by
  unfold EnemyTank.wander
  simp only []
  split
  · obtain ⟨m1, m2, m3, -⟩ := EnemyTank.move_status
      { en with direction := (((e.rand).1 % 4 : Nat) : Int), moveTimer := 0 }
      (((e.rand).1 % 4 : Nat) : Int) walls tgt (e.rand).2
    exact ⟨m1, m2, m3⟩
  · obtain ⟨m1, m2, m3, -⟩ := EnemyTank.move_status { en with moveTimer := en.moveTimer + 1 }
      en.direction walls tgt e
    exact ⟨m1, m2, m3⟩

/-- C29: the firing gate of `EnemyTank::update` for a Seeking enemy (alive, not
frozen, target alive); `m` is the enemy after the move of this tick, which
keeps its bullets and cooldown.  The cooldown is decremented by 1 when it is
positive.  The enemy fires if and only if the cooldown is then 0, the Manhattan
distance to the target is below 200 and the roll `rand() % 100` is below 10;
when it fires exactly one projectile is appended and the cooldown becomes 60,
otherwise none is appended; the bullet collection is then advanced.  A
Wandering enemy (target null or not alive) never fires: its bullets and
cooldown are unchanged. -/
theorem EnemyTank.firing_gate (en : EnemyTank) (walls : List SDL_Rect) (t : PlayerTank)
    (tgt : Option PlayerTank) (e : Env)
    (halive : en.alive = true) (hfrozen : en.frozen = false) (ht : t.alive = true) :
    ((en.seekMove walls (some t) e).1.bullets = en.bullets ∧
      (en.seekMove walls (some t) e).1.shootCooldown = en.shootCooldown) ∧
    ((en.seekMove walls (some t) e).1.fires t (en.seekMove walls (some t) e).2 →
      (en.update walls (some t) e).1 =
        { (en.seekMove walls (some t) e).1 with
          shootCooldown := 60
          bullets := updateBulletList
            (en.bullets ++ [Bullet.new ((en.seekMove walls (some t) e).1.rect.x + 15)
              ((en.seekMove walls (some t) e).1.rect.y + 15)
              (en.seekMove walls (some t) e).1.direction]) walls }) ∧
    (¬ (en.seekMove walls (some t) e).1.fires t (en.seekMove walls (some t) e).2 →
      (en.update walls (some t) e).1 =
        { (en.seekMove walls (some t) e).1 with
          shootCooldown :=
            (if en.shootCooldown > 0 then en.shootCooldown - 1 else en.shootCooldown)
          bullets := updateBulletList en.bullets walls }) ∧
    (notAlive tgt →
      (en.update walls tgt e).1.bullets = en.bullets ∧
      (en.update walls tgt e).1.shootCooldown = en.shootCooldown) := by
  obtain ⟨s1, s2, -⟩ := EnemyTank.seekMove_status en walls (some t) e
  have sb := EnemyTank.seekMove_bullets en walls (some t) e
  obtain ⟨f1, f2⟩ := EnemyTank.seekFire_eq (en.seekMove walls (some t) e).1 walls t
    (en.seekMove walls (some t) e).2 (s1.trans hfrozen)
  rw [EnemyTank.update_seeking en walls t e halive hfrozen ht]
  refine ⟨⟨sb, s2⟩, ?_, ?_, ?_⟩
  · intro hfire
    rw [f1 hfire, sb]
  · intro hno
    rw [f2 hno, sb]
    unfold EnemyTank.cooldownAfterTick
    rw [s2]
  · intro hdead
    rw [EnemyTank.update_wandering en walls tgt e halive hfrozen hdead]
    exact ⟨EnemyTank.wander_bullets en walls tgt e, (EnemyTank.wander_status en walls tgt e).2.1⟩

/-- Witness of C29: the enemy at (150,400), cooldown 0, seeking a player at
(100,400) with roll 0, fires: one bullet leaves towards the player and the
cooldown becomes 60. -/
theorem EnemyTank.firing_gate_witness :
    enemySeeking.alive = true ∧ enemySeeking.frozen = false ∧ playerAt.alive = true ∧
    (enemySeeking.update [] (some playerAt) env0).1.shootCooldown = 60 ∧
    (enemySeeking.update [] (some playerAt) env0).1.bullets =
      [⟨⟨158, 415, 10, 10⟩, -5, 0, true⟩] :=
  ⟨rfl, rfl, rfl,
    (congrArg EnemyTank.shootCooldown
      ((EnemyTank.firing_gate enemySeeking [] playerAt none env0 rfl rfl rfl).2.1
        (by decide))).trans (by decide),
    (congrArg EnemyTank.bullets
      ((EnemyTank.firing_gate enemySeeking [] playerAt none env0 rfl rfl rfl).2.1
        (by decide))).trans (by decide)⟩

/-! ## Frozen enemies -/

theorem EnemyTank.move_eq (en : EnemyTank) (dir : Int) (walls : List SDL_Rect)
    (tgt : Option PlayerTank) (e : Env) (hf : en.frozen = false) (hs : en.moveSpeed = 2)
    (hw : en.rect.w = 40 ∧ en.rect.h = 40) (hd : dir = 0 ∨ dir = 1 ∨ dir = 2 ∨ dir = 3) :
    en.move dir walls tgt e =
      if en.moveAccepted dir walls then
        ({ en with direction := dir, rect := en.displaced dir }, e)
      else ({ en with direction := dir }).chooseDirectionTowardsPlayer tgt e := by
  rcases en with ⟨⟨x, y, w, h⟩, bullets, alive, direction, moveTimer, moveDuration, moveSpeed,
    target, shootCooldown, frozen, freezeEndTime⟩
  simp only at hf hs hw
  obtain ⟨hw1, hw2⟩ := hw
  subst hf hs hw1 hw2
  unfold EnemyTank.move EnemyTank.moveAccepted EnemyTank.displaced insideArena
    EnemyTank.checkCollision
  rcases hd with rfl | rfl | rfl | rfl <;>
    simp [GRID_SIZE, SCREEN_WIDTH, SCREEN_HEIGHT, ← sub_eq_add_neg] <;>
    split_ifs with h1 h2 h3 <;> first | rfl | (exfalso; tauto)

/-- C27: `EnemyTank::move` for a non-frozen enemy (speed 2, 40x40 hit-box,
heading 0..3).  If the hit-box displaced by 2 units along the heading stays
inside the arena and intersects no wall, the position becomes the displaced
one and nothing else but the heading field changes.  Otherwise the position is
unchanged and `chooseDirectionTowardsPlayer` is called at once: with a null
target it returns immediately (heading as passed, no random draw); with a
non-null target the heading becomes the seek heading when the roll is at least
20 and the second draw modulo 4 when the roll is below 20. -/
theorem EnemyTank.move_spec (en : EnemyTank) (dir : Int) (walls : List SDL_Rect)
    (tgt : Option PlayerTank) (e : Env) (hf : en.frozen = false) (hs : en.moveSpeed = 2)
    (hw : en.rect.w = 40 ∧ en.rect.h = 40) (hd : dir = 0 ∨ dir = 1 ∨ dir = 2 ∨ dir = 3) :
    (en.moveAccepted dir walls →
      en.move dir walls tgt e = ({ en with direction := dir, rect := en.displaced dir }, e)) ∧
    (¬ en.moveAccepted dir walls →
      (en.move dir walls tgt e).1.rect = en.rect ∧
      en.move dir walls tgt e =
        ({ en with direction := dir }).chooseDirectionTowardsPlayer tgt e ∧
      (tgt = none → en.move dir walls tgt e = ({ en with direction := dir }, e)) ∧
      (∀ t, tgt = some t → e.rands 0 % 100 ≥ 20 →
        en.move dir walls tgt e = ({ en with direction := en.seekHeading t }, e.drop 1 0)) ∧
      (∀ t, tgt = some t → e.rands 0 % 100 < 20 →
        en.move dir walls tgt e =
          ({ en with direction := ((e.rands 1 % 4 : Nat) : Int) }, e.drop 2 0))) := by
  rw [EnemyTank.move_eq en dir walls tgt e hf hs hw hd]
  constructor
  · intro h
    rw [if_pos h]
  · intro h
    rw [if_neg h]
    refine ⟨EnemyTank.chooseDirectionTowardsPlayer_rect _ tgt e, rfl, ?_, ?_, ?_⟩
    · intro ht
      subst ht
      rfl
    · intro t ht hr
      subst ht
      rw [EnemyTank.chooseDirectionTowardsPlayer_some, if_neg (by omega)]
      rfl
    · intro t ht hr
      subst ht
      rw [EnemyTank.chooseDirectionTowardsPlayer_some, if_pos hr]

/-- Witness of C27: the enemy at (400,400) heading Up on the generated map
moves to (400,398). -/
theorem EnemyTank.move_spec_witness :
    enemyAt.frozen = false ∧ enemyAt.moveSpeed = 2 ∧ enemyAt.moveAccepted 0 arenaWalls ∧
    (enemyAt.move 0 arenaWalls none env0).1.rect = ⟨400, 398, 40, 40⟩ :=
  ⟨rfl, rfl, by decide,
    congrArg (fun r => r.1.rect)
      ((EnemyTank.move_spec enemyAt 0 arenaWalls none env0 rfl rfl ⟨rfl, rfl⟩ (Or.inl rfl)).1
        (by decide))⟩

/-- Counterexample to C27: the enemy without target in the corner cell (40,40),
heading Up against the top wall row of the generated map.  The move is blocked,
and `move` returns the enemy as it was: the heading is still Up and the next
random draw is still the first one, so no heading selection has been run. -/
theorem EnemyTank.move_blocked_without_target :
    enemyCorner.frozen = false ∧ enemyCorner.target = none ∧
    hitsWall ⟨40, 38, 40, 40⟩ arenaWalls = true ∧
    (enemyCorner.move 0 arenaWalls none envSeq).1 = enemyCorner ∧
    (enemyCorner.move 0 arenaWalls none envSeq).1.direction = 0 ∧
    ((enemyCorner.move 0 arenaWalls none envSeq).2.rand).1 = 1 := by
  decide

set_option maxRecDepth 100000 in
/-- C22, evaluation of the code: an inactive bullet damages a player.  In
`gameHit` player 1 (health 900) stands at (40,717) on the bullet at (55,708)
that hit it one second before; the bullet is inactive but still in the list of
its frozen enemy.  The world tick at clock reading 22001, after the
invincibility has run out, takes another 100 health through that bullet. -/
theorem Game.inactive_bullet_damages :
    gameHit.player1 =
      some { PlayerTank.new 40 717 with health := 900, invincible := true
                                        invincibleEndTime := 22000 } ∧
    gameHit.enemies.map EnemyTank.bullets = [[⟨⟨55, 708, 10, 10⟩, 0, 5, false⟩]] ∧
    gameHit.enemies.map EnemyTank.frozen = [true] ∧
    ((gameHit.update (envClock 22001)).1.player1.map PlayerTank.health) = some 800 ∧
    ((gameHit.update (envClock 22001)).1.enemies.map EnemyTank.bullets) =
      [[⟨⟨55, 708, 10, 10⟩, 0, 5, false⟩]] := by
  decide

set_option maxRecDepth 100000 in
/-- C23, evaluation of the code: the bullets of a frozen enemy and of a
Wandering enemy (target not alive) are not advanced by the world tick.  The
bullet at (415,465) moving Down is still at (415,465) after `Game::update`,
while one step of advance would put it at (415,470), as the tick does for the
same enemy when it is Seeking. -/
theorem Game.enemy_bullets_stalled :
    ((gameHeld.update (envClock 21000)).1.enemies.map EnemyTank.bullets) =
      [[⟨⟨415, 465, 10, 10⟩, 0, 5, true⟩]] ∧
    ((gameOrphan.update (envClock 21000)).1.enemies.map EnemyTank.bullets) =
      [[⟨⟨415, 465, 10, 10⟩, 0, 5, true⟩]] ∧
    updateBulletList enemyHeld.bullets gameHeld.walls = [⟨⟨415, 470, 10, 10⟩, 0, 5, true⟩] ∧
    (({ gameHeld with enemies := [{ enemyHeld with frozen := false }] }.update
        (envClock 21000)).1.enemies.map EnemyTank.bullets) =
      [[⟨⟨415, 470, 10, 10⟩, 0, 5, true⟩]] := by
  decide

set_option maxRecDepth 100000 in
/-- C25, evaluation of the code: the score counts bullet hits, not kills.  In
`gameVolley` two bullets of player 1 reach the enemy at (40,400) in the same
world tick; that one enemy is killed and removed (the other one lives on, the
wave goes on), and the score rises from 0 to 200.  Two bullets at one place
come from two key-down events of the fire key between two ticks. -/
theorem Game.score_counts_bullet_hits :
    gameVolley.score = 0 ∧ gameVolley.enemies.length = 2 ∧
    (gameVolley.update (envClock 21000)).1.score = 200 ∧
    (gameVolley.update (envClock 21000)).1.enemies.map EnemyTank.rect = [⟨600, 598, 40, 40⟩] ∧
    (gameVolley.update (envClock 21000)).1.waveNumber = 1 ∧
    (((gameStart.handleInput ⟨true, .SDLK_SPACE⟩).handleInput ⟨true, .SDLK_SPACE⟩).player1.map
        PlayerTank.bullets) =
      some [⟨⟨55, 735, 10, 10⟩, 0, -5, true⟩, ⟨⟨55, 735, 10, 10⟩, 0, -5, true⟩] := by
  decide

/-! ## Enemy-projectile hit resolution -/

theorem Game.hitStable_hitPlayerLoop (P : PlayerTank → Prop) (hP : PlayerTank.HitStable P)
    (bullets : List Bullet) : ∀ (p : PlayerTank) (e : Env),
    P p → P (Game.hitPlayerLoop p bullets e).1 := by
  induction bullets with
  | nil =>
    intro p e h
    exact h
  | cons bullet rest ih =>
    intro p e h
    unfold Game.hitPlayerLoop
    apply ih
    unfold Game.hitPlayer
    split
    · split
      · rename_i hinv
        exact hP.2.1 p e h (by simpa using hinv)
      · exact h
    · exact h

theorem Game.hitStable_hitPlayerOpt (P : PlayerTank → Prop) (hP : PlayerTank.HitStable P)
    (player : Option PlayerTank) (bullets : List Bullet) (e : Env)
    (h : ∀ p, player = some p → P p) :
    ∀ p, (Game.hitPlayerOpt player bullets e).1 = some p → P p := by
  intro p hp
  unfold Game.hitPlayerOpt at hp
  cases player with
  | none => simp at hp
  | some q =>
    simp only [Option.some.injEq] at hp
    rw [← hp]
    exact Game.hitStable_hitPlayerLoop P hP bullets q e (h q rfl)

theorem Game.hitStable_hitEnemyOpt (P : PlayerTank → Prop) (hP : PlayerTank.HitStable P)
    (player : Option PlayerTank) (enemy : EnemyTank) (score : Int)
    (h : ∀ p, player = some p → P p) :
    ∀ p, (Game.hitEnemyOpt player enemy score).1 = some p → P p := by
  intro p hp
  unfold Game.hitEnemyOpt at hp
  cases player with
  | none => simp at hp
  | some q =>
    simp only [Option.some.injEq] at hp
    rw [← hp]
    exact hP.1 q _ (h q rfl)

theorem Game.hitStable_enemyStep (P1 P2 : PlayerTank → Prop) (hP1 : PlayerTank.HitStable P1)
    (hP2 : PlayerTank.HitStable P2) (g : Game) (enemy : EnemyTank) (e : Env)
    (h : g.playersSatisfy2 P1 P2) :
    (Game.enemyStep g enemy e).1.playersSatisfy2 P1 P2 := by
  unfold Game.enemyStep
  simp only []
  obtain ⟨h1, h2⟩ := h
  constructor
  · intro p hp
    exact Game.hitStable_hitEnemyOpt P1 hP1 _ _ _ (Game.hitStable_hitPlayerOpt P1 hP1 _ _ _ h1) p hp
  · intro p hp
    exact Game.hitStable_hitEnemyOpt P2 hP2 _ _ _ (Game.hitStable_hitPlayerOpt P2 hP2 _ _ _ h2) p hp

theorem Game.hitStable_enemyLoop (P1 P2 : PlayerTank → Prop) (hP1 : PlayerTank.HitStable P1)
    (hP2 : PlayerTank.HitStable P2) (enemies : List EnemyTank) : ∀ (g : Game) (e : Env),
    g.playersSatisfy2 P1 P2 → (Game.enemyLoop g enemies e).1.playersSatisfy2 P1 P2 := by
  induction enemies with
  | nil =>
    intro g e h
    exact h
  | cons enemy rest ih =>
    intro g e h
    unfold Game.enemyLoop
    exact ih _ _ (Game.hitStable_enemyStep P1 P2 hP1 hP2 g enemy e h)

theorem Game.playersSatisfy2_congr (P1 P2 : PlayerTank → Prop) (g g2 : Game)
    (h1 : g2.player1 = g.player1) (h2 : g2.player2 = g.player2) (h : g.playersSatisfy2 P1 P2) :
    g2.playersSatisfy2 P1 P2 := by
  unfold Game.playersSatisfy2 at *
  rw [h1, h2]
  exact h

theorem Game.hitStable_applyPowerUpEffect (P1 P2 : PlayerTank → Prop)
    (hP1 : PlayerTank.HitStable P1) (hP2 : PlayerTank.HitStable P2)
    (g : Game) (slot : PlayerSlot) (p : PlayerTank) (e : Env)
    (h : g.playersSatisfy2 P1 P2) (hp : g.player slot = some p) :
    (g.applyPowerUpEffect slot p e).1.playersSatisfy2 P1 P2 := by
  have hset : ∀ q : PlayerTank, (slot = .one → P1 q) → (slot = .two → P2 q) →
      (g.setPlayer slot q).playersSatisfy2 P1 P2 := by
    intro q hq1 hq2
    obtain ⟨h1, h2⟩ := h
    cases slot with
    | one =>
      refine ⟨?_, h2⟩
      intro r hr
      simp only [Game.setPlayer, Option.some.injEq] at hr
      rw [← hr]
      exact hq1 rfl
    | two =>
      refine ⟨h1, ?_⟩
      intro r hr
      simp only [Game.setPlayer, Option.some.injEq] at hr
      rw [← hr]
      exact hq2 rfl
  have hp1 : slot = .one → P1 p := by
    intro hs
    subst hs
    exact h.1 p hp
  have hp2 : slot = .two → P2 p := by
    intro hs
    subst hs
    exact h.2 p hp
  unfold Game.applyPowerUpEffect
  split
  · exact hset _ (fun hs => hP1.2.2.2 p (hp1 hs)) (fun hs => hP2.2.2.2 p (hp2 hs))
  · exact Game.playersSatisfy2_congr _ _ g _ (Game.freezeAllEnemies_players g 5000 e).1
      (Game.freezeAllEnemies_players g 5000 e).2 h
  · exact hset _ (fun hs => hP1.2.2.1 p e (hp1 hs)) (fun hs => hP2.2.2.1 p e (hp2 hs))
  · exact Game.playersSatisfy2_congr _ _ g _ (Game.destroyAllEnemies_players g e).1
      (Game.destroyAllEnemies_players g e).2 h
  · exact h

theorem Game.hitStable_checkPowerUpCollision (P1 P2 : PlayerTank → Prop)
    (hP1 : PlayerTank.HitStable P1) (hP2 : PlayerTank.HitStable P2) (g : Game) (e : Env)
    (h : g.playersSatisfy2 P1 P2) :
    (g.checkPowerUpCollision e).1.playersSatisfy2 P1 P2 := by
  unfold Game.checkPowerUpCollision
  split
  · exact h
  · split
    · rename_i p hc
      exact Game.playersSatisfy2_congr _ _ _ _ rfl rfl
        (Game.hitStable_applyPowerUpEffect P1 P2 hP1 hP2 g .one p e h
          (Game.collector_eq_some g .one p hc).1)
    · split
      · rename_i p hc
        exact Game.playersSatisfy2_congr _ _ _ _ rfl rfl
          (Game.hitStable_applyPowerUpEffect P1 P2 hP1 hP2 g .two p e h
            (Game.collector_eq_some g .two p hc).1)
      · exact h

/-- The phases of the world tick that follow the movement of the players. -/
theorem Game.hitStable_afterPlayers (P1 P2 : PlayerTank → Prop)
    (hP1 : PlayerTank.HitStable P1) (hP2 : PlayerTank.HitStable P2)
    (g : Game) (e : Env) (hs : g.state = .STATE_1P ∨ g.state = .STATE_2P)
    (h : (g.updatePlayers e).1.playersSatisfy2 P1 P2) :
    (g.update e).1.playersSatisfy2 P1 P2 := by
  unfold Game.update
  rw [if_pos hs]
  simp only []
  have h2 : ((g.updatePlayers e).1.updateEnemies (g.updatePlayers e).2).1.playersSatisfy2 P1 P2 := by
    unfold Game.updateEnemies
    exact Game.hitStable_enemyLoop P1 P2 hP1 hP2 _ _ _ h
  have h3 := Game.playersSatisfy2_congr P1 P2 _ _
    (Game.checkWaveCompletion_players _
      ((g.updatePlayers e).1.updateEnemies (g.updatePlayers e).2).2).1
    (Game.checkWaveCompletion_players _
      ((g.updatePlayers e).1.updateEnemies (g.updatePlayers e).2).2).2 h2
  have h4 : ∀ (g3 : Game) (e3 : Env), g3.playersSatisfy2 P1 P2 →
      (g3.updatePowerUp e3).1.playersSatisfy2 P1 P2 := by
    intro g3 e3 hg3
    unfold Game.updatePowerUp
    simp only []
    apply Game.hitStable_checkPowerUpCollision P1 P2 hP1 hP2
    exact Game.playersSatisfy2_congr _ _ g3 _ (Game.spawnRandomPowerUp_players g3 e3).1
      (Game.spawnRandomPowerUp_players g3 e3).2 hg3
  have h5 := h4 _ ((((g.updatePlayers e).1.updateEnemies (g.updatePlayers e).2).1.checkWaveCompletion
        ((g.updatePlayers e).1.updateEnemies (g.updatePlayers e).2).2).2) h3
  exact Game.playersSatisfy2_congr P1 P2 _ _ (Game.checkGameOver_frame _).1
    (Game.checkGameOver_frame _).2.1 h5

theorem SDL_HasIntersection_iff (A B : SDL_Rect) :
    SDL_HasIntersection A B = true ↔
      (0 < A.w ∧ 0 < A.h ∧ 0 < B.w ∧ 0 < B.h) ∧
      (A.x < B.x + B.w ∧ B.x < A.x + A.w) ∧ (A.y < B.y + B.h ∧ B.y < A.y + A.h) := by
  unfold SDL_HasIntersection
  by_cases h0 : A.w ≤ 0 ∨ A.h ≤ 0 ∨ B.w ≤ 0 ∨ B.h ≤ 0
  · rw [if_pos h0]
    constructor
    · intro h
      exact absurd h (by simp)
    · intro h
      omega
  · rw [if_neg h0]
    simp only []
    have hx : ((if B.x + B.w < A.x + A.w then B.x + B.w else A.x + A.w) ≤
        (if B.x > A.x then B.x else A.x)) ↔ ¬ (A.x < B.x + B.w ∧ B.x < A.x + A.w) := by
      split_ifs <;> omega
    have hy : ((if B.y + B.h < A.y + A.h then B.y + B.h else A.y + A.h) ≤
        (if B.y > A.y then B.y else A.y)) ↔ ¬ (A.y < B.y + B.h ∧ B.y < A.y + A.h) := by
      split_ifs <;> omega
    by_cases h1 : A.x < B.x + B.w ∧ B.x < A.x + A.w
    · rw [if_neg (by rw [hx]; exact not_not.2 h1)]
      by_cases h2 : A.y < B.y + B.h ∧ B.y < A.y + A.h
      · rw [if_neg (by rw [hy]; exact not_not.2 h2)]
        simp only [true_iff]
        exact ⟨by omega, h1, h2⟩
      · rw [if_pos (hy.2 h2)]
        constructor
        · intro h
          exact absurd h (by simp)
        · intro h
          exact absurd h.2.2 h2
    · rw [if_pos (hx.2 h1)]
      constructor
      · intro h
        exact absurd h (by simp)
      · intro h
        exact absurd h.2.1 h1

theorem SDL_HasIntersection_comm (A B : SDL_Rect) :
    SDL_HasIntersection A B = SDL_HasIntersection B A := by
  have h : SDL_HasIntersection A B = true ↔ SDL_HasIntersection B A = true := by
    rw [SDL_HasIntersection_iff, SDL_HasIntersection_iff]
    constructor <;> intro h <;> omega
  cases hab : SDL_HasIntersection A B with
  | true => exact (h.1 hab).symm
  | false =>
    cases hba : SDL_HasIntersection B A with
    | true => rw [h.2 hba] at hab; exact absurd hab (by simp)
    | false => rfl

set_option maxRecDepth 100000 in
/-- The border of the generated map: the cells of the first and last column and
of the first and last row are all walls. -/
theorem arenaWalls_border : ∀ k : Fin 20,
    (⟨0, 40 * (k.val : Int), 40, 40⟩ : SDL_Rect) ∈ arenaWalls ∧
    (⟨760, 40 * (k.val : Int), 40, 40⟩ : SDL_Rect) ∈ arenaWalls ∧
    (⟨40 * (k.val : Int), 0, 40, 40⟩ : SDL_Rect) ∈ arenaWalls ∧
    (⟨40 * (k.val : Int), 760, 40, 40⟩ : SDL_Rect) ∈ arenaWalls := by
  decide

theorem arenaWalls_row (v : Int) (h0 : -40 < v) (h1 : v < 800) :
    ∃ k : Fin 20, v < 40 * (k.val : Int) + 40 ∧ 40 * (k.val : Int) < v + 40 := by
  by_cases hneg : v < 0
  · exact ⟨⟨0, by decide⟩, by simp only [Nat.cast_zero]; omega, by simp only [Nat.cast_zero]; omega⟩
  · obtain ⟨n, hn⟩ := Int.eq_ofNat_of_zero_le (Int.ediv_nonneg (not_lt.1 hneg) (by decide : (0 : Int) ≤ 40))
    have hlt : n < 20 := by omega
    refine ⟨⟨n, hlt⟩, ?_, ?_⟩
    · show v < 40 * (n : Int) + 40
      omega
    · show 40 * (n : Int) < v + 40
      omega

/-- A 40x40 rectangle that reaches into the arena and intersects no wall of the
generated map lies between the border columns and rows. -/
theorem arenaWalls_confine (X Y : Int) (hx0 : -40 < X) (hx1 : X < 800) (hy0 : -40 < Y)
    (hy1 : Y < 800) (h : hitsWall ⟨X, Y, 40, 40⟩ arenaWalls = false) :
    40 ≤ X ∧ X ≤ 720 ∧ 40 ≤ Y ∧ Y ≤ 720 := by
  have hno : ∀ wall ∈ arenaWalls, SDL_HasIntersection ⟨X, Y, 40, 40⟩ wall ≠ true := by
    intro wall hmem hint
    have := (hitsWall_iff _ _).2 ⟨wall, hmem, hint⟩
    rw [h] at this
    exact absurd this (by simp)
  obtain ⟨kx, hkx0, hkx1⟩ := arenaWalls_row X hx0 hx1
  obtain ⟨ky, hky0, hky1⟩ := arenaWalls_row Y hy0 hy1
  obtain ⟨bl, br, -, -⟩ := arenaWalls_border ky
  obtain ⟨-, -, bt, bb⟩ := arenaWalls_border kx
  refine ⟨?_, ?_, ?_, ?_⟩
  · by_contra hc
    exact hno _ bl ((SDL_HasIntersection_iff _ _).2 (by simp only []; omega))
  · by_contra hc
    exact hno _ br ((SDL_HasIntersection_iff _ _).2 (by simp only []; omega))
  · by_contra hc
    exact hno _ bt ((SDL_HasIntersection_iff _ _).2 (by simp only []; omega))
  · by_contra hc
    exact hno _ bb ((SDL_HasIntersection_iff _ _).2 (by simp only []; omega))

/-- One movement step of a player on the generated map, against the rectangle
`other` of the other player.  The hit-box stays the 40x40 rectangle at the
position and stays inside the arena, and either it is unchanged or it is the
tested rectangle, which intersects neither a wall nor `other`. -/
theorem PlayerTank.update_step (p : PlayerTank) (other : SDL_Rect) (e : Env)
    (hwf : p.wellFormed) (hin : insideArena p.rect) :
    (p.update arenaWalls (some other) e).1.wellFormed ∧
    insideArena (p.update arenaWalls (some other) e).1.rect ∧
    ((p.update arenaWalls (some other) e).1.rect = p.rect ∨
      (hitsWall (p.update arenaWalls (some other) e).1.rect arenaWalls = false ∧
        SDL_HasIntersection (p.update arenaWalls (some other) e).1.rect other = false)) := by
  obtain ⟨hx, hy, hw, hh⟩ := hwf
  unfold insideArena at hin
  rw [hw, hh] at hin
  simp only [SCREEN_WIDTH, SCREEN_HEIGHT] at hin
  obtain ⟨hx0, hx1, hy0, hy1⟩ := hin
  cases halive : p.alive with
  | false =>
    rw [PlayerTank.update_of_dead p arenaWalls (some other) e halive]
    refine ⟨⟨hx, hy, hw, hh⟩, ?_, Or.inl rfl⟩
    unfold insideArena
    rw [hw, hh]
    simp only [SCREEN_WIDTH, SCREEN_HEIGHT]
    exact ⟨hx0, hx1, hy0, hy1⟩
  | true =>
    rw [PlayerTank.update_of_alive p arenaWalls (some other) e halive]
    cases hc : p.canMove arenaWalls (some other) with
    | false =>
      rw [if_neg Bool.false_ne_true]
      obtain ⟨u1, u2, u3, -⟩ := PlayerTank.updateInvincible_fields
        (PlayerTank.clamp { p with direction := p.newDirection }) e
      have hcl := PlayerTank.clamp_inside { p with direction := p.newDirection }
        hx0 (by show p.rect.x ≤ 760; omega) hy0 (by show p.rect.y ≤ 760; omega)
      unfold PlayerTank.wellFormed insideArena
      rw [u1, u2, u3, hcl]
      refine ⟨⟨hx, hy, hw, hh⟩, ?_, Or.inl rfl⟩
      show 0 ≤ p.rect.x ∧ p.rect.x + p.rect.w ≤ SCREEN_WIDTH ∧ 0 ≤ p.rect.y ∧
        p.rect.y + p.rect.h ≤ SCREEN_HEIGHT
      rw [hw, hh]
      simp only [SCREEN_WIDTH, SCREEN_HEIGHT]
      exact ⟨hx0, hx1, hy0, hy1⟩
    | true =>
      rw [if_pos rfl]
      have hnx := PlayerTank.newX_eq p
      have hny := PlayerTank.newY_eq p
      have hdx : -3 ≤ deltaX p ∧ deltaX p ≤ 3 := by
        unfold deltaX
        split_ifs <;> omega
      have hdy : -3 ≤ deltaY p ∧ deltaY p ≤ 3 := by
        unfold deltaY
        split_ifs <;> omega
      have hnr : p.newRect = ⟨p.newX, p.newY, 40, 40⟩ := rfl
      have hfree : hitsWall p.newRect arenaWalls = false ∧
          SDL_HasIntersection p.newRect other = false := by
        unfold PlayerTank.canMove at hc
        simp only [] at hc
        by_cases ho : SDL_HasIntersection p.newRect other = true
        · rw [if_pos ho] at hc
          exact absurd hc (by simp)
        · rw [if_neg ho] at hc
          exact ⟨by simpa using hc, by simpa using ho⟩
      rw [hnr] at hfree
      obtain ⟨c1, c2, c3, c4⟩ := arenaWalls_confine p.newX p.newY (by omega) (by omega)
        (by omega) (by omega) hfree.1
      generalize hq : ({ p with direction := p.newDirection, x := p.newX, y := p.newY
                                rect := { p.rect with x := p.newX, y := p.newY } } : PlayerTank) = q
      have hqx : q.x = p.newX := by rw [← hq]
      have hqy : q.y = p.newY := by rw [← hq]
      have hqr : q.rect = ⟨p.newX, p.newY, 40, 40⟩ := by
        rw [← hq]
        show (⟨p.newX, p.newY, p.rect.w, p.rect.h⟩ : SDL_Rect) = _
        rw [hw, hh]
      obtain ⟨u1, u2, u3, -⟩ := PlayerTank.updateInvincible_fields q.clamp e
      have hcl := PlayerTank.clamp_inside q (by rw [hqr]; show 0 ≤ p.newX; omega)
        (by rw [hqr]; show p.newX ≤ 760; omega) (by rw [hqr]; show 0 ≤ p.newY; omega)
        (by rw [hqr]; show p.newY ≤ 760; omega)
      unfold PlayerTank.wellFormed insideArena
      rw [u1, u2, u3, hcl, hqx, hqy, hqr]
      simp only [SCREEN_WIDTH, SCREEN_HEIGHT]
      exact ⟨by simp, ⟨by omega, by omega, by omega, by omega⟩, Or.inr hfree⟩

theorem Game.updatePlayers_both (g : Game) (e : Env) (p1 p2 : PlayerTank)
    (h1 : g.player1 = some p1) (h2 : g.player2 = some p2) :
    (g.updatePlayers e).1.player1 =
      some ((p1.update g.walls (some p2.rect) e).1.updateBullets g.walls) ∧
    (g.updatePlayers e).1.player2 =
      some ((p2.update g.walls
        (some ((p1.update g.walls (some p2.rect) e).1.updateBullets g.walls).rect)
        (p1.update g.walls (some p2.rect) e).2).1.updateBullets g.walls) := by
  unfold Game.updatePlayers
  simp only [h1, h2]
  exact ⟨rfl, rfl⟩

theorem PlayerTank.wellFormed_update (p : PlayerTank) (walls : List SDL_Rect)
    (other : Option SDL_Rect) (e : Env) (h : p.wellFormed) :
    (p.update walls other e).1.wellFormed := by
  obtain ⟨hx, hy, hw, hh⟩ := h
  have hkey : ∀ q : PlayerTank, q.x = q.rect.x → q.y = q.rect.y → q.rect.w = 40 →
      q.rect.h = 40 → (q.clamp.updateInvincible e).1.wellFormed := by
    intro q qx qy qw qh
    obtain ⟨u1, u2, u3, -⟩ := PlayerTank.updateInvincible_fields q.clamp e
    obtain ⟨c1, c2⟩ := PlayerTank.clamp_xy q qx qy
    unfold PlayerTank.wellFormed
    rw [u1, u2, u3, c1, c2, PlayerTank.clamp_rect]
    exact ⟨rfl, rfl, qw, qh⟩
  cases halive : p.alive with
  | false =>
    rw [PlayerTank.update_of_dead p walls other e halive]
    exact ⟨hx, hy, hw, hh⟩
  | true =>
    rw [PlayerTank.update_of_alive p walls other e halive]
    split
    · exact hkey _ rfl rfl hw hh
    · exact hkey _ hx hy hw hh

theorem PlayerTank.wellFormed_stable : PlayerTank.TickStable PlayerTank.wellFormed := by
  refine ⟨?_, ?_, ?_, ?_⟩
  · intro p bullets h
    exact h
  · intro p h
    unfold PlayerTank.takeDamage
    split
    · simp only []
      split <;> exact h
    · exact h
  · intro p duration e h
    unfold PlayerTank.activateInvincible
    split <;> exact h
  · intro p h
    unfold PlayerTank.heal
    split <;> exact h

theorem PlayerTank.handleInput_wellFormed (p : PlayerTank) (event : PlayerTank.SDL_Event)
    (b : Bool) (h : p.wellFormed) : (p.handleInput event b).wellFormed := by
  unfold PlayerTank.handleInput
  split
  · exact h
  · simp only []
    split
    · split <;> first
        | exact h
        | (split <;> exact h)
    · split <;> first
        | exact h
        | (split <;> exact h)

theorem Game.wellFormed_updatePlayers (g : Game) (e : Env)
    (h : g.playersSatisfy PlayerTank.wellFormed) :
    (g.updatePlayers e).1.playersSatisfy PlayerTank.wellFormed := by
  obtain ⟨h1, h2⟩ := h
  unfold Game.updatePlayers
  cases hp1 : g.player1 with
  | none =>
    cases hp2 : g.player2 with
    | none =>
      simp only [hp1, hp2]
      exact ⟨by simp [hp1], by simp [hp2]⟩
    | some q =>
      simp only [hp1, hp2]
      refine ⟨by simp [hp1], ?_⟩
      intro p hp
      simp only [Option.some.injEq] at hp
      rw [← hp]
      exact PlayerTank.wellFormed_update q _ _ _ (h2 q hp2)
  | some q1 =>
    cases hp2 : g.player2 with
    | none =>
      simp only [hp1, hp2]
      refine ⟨?_, by simp⟩
      intro p hp
      simp only [Option.some.injEq] at hp
      rw [← hp]
      exact PlayerTank.wellFormed_update q1 _ _ _ (h1 q1 hp1)
    | some q2 =>
      simp only [hp1, hp2]
      constructor
      · intro p hp
        simp only [Option.some.injEq] at hp
        rw [← hp]
        exact PlayerTank.wellFormed_update q1 _ _ _ (h1 q1 hp1)
      · intro p hp
        simp only [Option.some.injEq] at hp
        rw [← hp]
        exact PlayerTank.wellFormed_update q2 _ _ _ (h2 q2 hp2)

theorem Game.wellFormed_handleInput (g : Game) (event : PlayerTank.SDL_Event)
    (h : g.playersSatisfy PlayerTank.wellFormed) :
    (g.handleInput event).playersSatisfy PlayerTank.wellFormed := by
  obtain ⟨h1, h2⟩ := h
  unfold Game.handleInput
  split
  · cases hp1 : g.player1 with
    | none =>
      cases hp2 : g.player2 with
      | none =>
        simp only [hp1, hp2]
        exact ⟨by simp [hp1], by simp [hp2]⟩
      | some q2 =>
        simp only [hp1, hp2]
        refine ⟨by simp [hp1], ?_⟩
        intro p hp
        simp only [Option.some.injEq] at hp
        rw [← hp]
        exact PlayerTank.handleInput_wellFormed q2 event false (h2 q2 hp2)
    | some q1 =>
      cases hp2 : g.player2 with
      | none =>
        simp only [hp1, hp2]
        refine ⟨?_, by simp⟩
        intro p hp
        simp only [Option.some.injEq] at hp
        rw [← hp]
        exact PlayerTank.handleInput_wellFormed q1 event true (h1 q1 hp1)
      | some q2 =>
        simp only [hp1, hp2]
        constructor
        · intro p hp
          simp only [Option.some.injEq] at hp
          rw [← hp]
          exact PlayerTank.handleInput_wellFormed q1 event true (h1 q1 hp1)
        · intro p hp
          simp only [Option.some.injEq] at hp
          rw [← hp]
          exact PlayerTank.handleInput_wellFormed q2 event false (h2 q2 hp2)
  · exact ⟨h1, h2⟩

/-- In every state of a game in play the hit-box of each player is the 40x40
rectangle at its position. -/
theorem Game.wellFormed_reachable (g : Game) (h : Game.Reachable g) :
    g.playersSatisfy PlayerTank.wellFormed := by
  induction h with
  | reset g e h =>
    obtain ⟨⟨x, y, h1⟩, h2⟩ := Game.resetGame_players g e
    constructor
    · intro p hp
      rw [h1] at hp
      simp only [Option.some.injEq] at hp
      rw [← hp]
      exact ⟨rfl, rfl, rfl, rfl⟩
    · intro p hp
      rcases h2 with ⟨x2, y2, h2⟩ | ⟨hs, h2⟩
      · rw [h2] at hp
        simp only [Option.some.injEq] at hp
        rw [← hp]
        exact ⟨rfl, rfl, rfl, rfl⟩
      · rcases h with h | h
        · exact absurd h hs
        · rw [h2, h] at hp
          simp at hp
  | input g event _ ih => exact Game.wellFormed_handleInput g event ih
  | tick g e _ ih =>
    by_cases hs : g.state = .STATE_1P ∨ g.state = .STATE_2P
    · exact Game.stable_afterPlayers PlayerTank.wellFormed PlayerTank.wellFormed_stable g e hs
        (Game.wellFormed_updatePlayers g e ih)
    · unfold Game.update
      rw [if_neg hs]
      exact ih

theorem PlayerTank.rect_hitStable (r : SDL_Rect) :
    PlayerTank.HitStable (fun q => q.rect = r) := by
  refine ⟨?_, ?_, ?_, ?_⟩
  · intro p bullets h
    exact h
  · intro p e h hinv
    have hd : p.takeDamage.rect = p.rect := by
      unfold PlayerTank.takeDamage
      split
      · simp only []
        split <;> rfl
      · rfl
    show (p.takeDamage.activateInvincible 1000 e).1.rect = r
    unfold PlayerTank.activateInvincible
    split
    · exact hd.trans h
    · exact hd.trans h
  · intro p e h
    show (p.activateInvincible 5000 e).1.rect = r
    unfold PlayerTank.activateInvincible
    split <;> exact h
  · intro p h
    show (p.heal 200).rect = r
    unfold PlayerTank.heal
    split <;> exact h

/-- C31: players never overlap.  On the generated map, let the hit-boxes of
both players be the 40x40 rectangles at their positions, lie inside the arena,
intersect no wall and not intersect each other.  Then after the movement steps
of the world tick (player 1 against the rectangle of player 2, then player 2
against the new rectangle of player 1) the two hit-boxes do not intersect,
whatever keys are held and whether or not the players are alive; the
hypotheses on the hit-boxes hold again for the moved players, and the
hit-boxes still do not intersect at the end of the whole world tick. -/
theorem Game.players_never_overlap (g : Game) (e : Env) (p1 p2 : PlayerTank)
    (hwalls : g.walls = arenaWalls) (h1 : g.player1 = some p1) (h2 : g.player2 = some p2)
    (hwf1 : p1.wellFormed) (hwf2 : p2.wellFormed)
    (hin1 : insideArena p1.rect) (hin2 : insideArena p2.rect)
    (hw1 : hitsWall p1.rect g.walls = false) (hw2 : hitsWall p2.rect g.walls = false)
    (hsep : SDL_HasIntersection p1.rect p2.rect = false) :
    ∃ q1 q2, (g.updatePlayers e).1.player1 = some q1 ∧
      (g.updatePlayers e).1.player2 = some q2 ∧
      SDL_HasIntersection q1.rect q2.rect = false ∧
      SDL_HasIntersection q2.rect q1.rect = false ∧
      q1.wellFormed ∧ q2.wellFormed ∧ insideArena q1.rect ∧ insideArena q2.rect ∧
      hitsWall q1.rect g.walls = false ∧ hitsWall q2.rect g.walls = false ∧
      (∀ r1 r2, (g.update e).1.player1 = some r1 → (g.update e).1.player2 = some r2 →
        SDL_HasIntersection r1.rect r2.rect = false) := by
  obtain ⟨hq1, hq2⟩ := Game.updatePlayers_both g e p1 p2 h1 h2
  rw [hwalls] at hq1 hq2 hw1 hw2
  rw [hwalls]
  obtain ⟨a1, a2, a3⟩ := PlayerTank.update_step p1 p2.rect e hwf1 hin1
  generalize hu1 : p1.update arenaWalls (some p2.rect) e = u1 at hq1 hq2 a1 a2 a3
  have hr1 : (u1.1.updateBullets arenaWalls).rect = u1.1.rect := rfl
  obtain ⟨b1, b2, b3⟩ := PlayerTank.update_step p2 u1.1.rect u1.2 hwf2 hin2
  rw [hr1] at hq2
  generalize hu2 : p2.update arenaWalls (some u1.1.rect) u1.2 = u2 at hq2 b1 b2 b3
  have hsep1 : SDL_HasIntersection u1.1.rect p2.rect = false := by
    rcases a3 with a3 | a3
    · rw [a3]
      exact hsep
    · exact a3.2
  have hfree1 : hitsWall u1.1.rect arenaWalls = false := by
    rcases a3 with a3 | a3
    · rw [a3]
      exact hw1
    · exact a3.1
  have hsep2 : SDL_HasIntersection u2.1.rect u1.1.rect = false := by
    rcases b3 with b3 | b3
    · rw [b3, SDL_HasIntersection_comm]
      exact hsep1
    · exact b3.2
  have hfree2 : hitsWall u2.1.rect arenaWalls = false := by
    rcases b3 with b3 | b3
    · rw [b3]
      exact hw2
    · exact b3.1
  have hsep3 : SDL_HasIntersection u1.1.rect u2.1.rect = false := by
    rw [SDL_HasIntersection_comm]
    exact hsep2
  refine ⟨u1.1.updateBullets arenaWalls, u2.1.updateBullets arenaWalls, hq1, hq2, hsep3, hsep2,
    a1, b1, a2, b2, hfree1, hfree2, ?_⟩
  intro r1 r2 hr1 hr2
  by_cases hs : g.state = .STATE_1P ∨ g.state = .STATE_2P
  · have hafter := Game.hitStable_afterPlayers (fun q => q.rect = u1.1.rect)
      (fun q => q.rect = u2.1.rect) (PlayerTank.rect_hitStable _) (PlayerTank.rect_hitStable _)
      g e hs ⟨fun q hq => by rw [hq1] at hq; rw [← Option.some.inj hq]; rfl,
        fun q hq => by rw [hq2] at hq; rw [← Option.some.inj hq]; rfl⟩
    rw [hafter.1 r1 hr1, hafter.2 r2 hr2]
    exact hsep3
  · unfold Game.update at hr1 hr2
    rw [if_neg hs] at hr1 hr2
    rw [h1] at hr1
    rw [h2] at hr2
    rw [← Option.some.inj hr1, ← Option.some.inj hr2]
    exact hsep

set_option maxRecDepth 100000 in
/-- Witness of C31: on the generated map player 1 at (40,720) holds Right and
player 2 at (80,720) holds Left; after the world tick their hit-boxes do not
intersect. -/
theorem Game.players_never_overlap_witness :
    gameFacing.walls = arenaWalls ∧
    SDL_HasIntersection (⟨40, 720, 40, 40⟩ : SDL_Rect) ⟨80, 720, 40, 40⟩ = false ∧
    (∀ r1 r2, (gameFacing.update env0).1.player1 = some r1 →
      (gameFacing.update env0).1.player2 = some r2 →
      SDL_HasIntersection r1.rect r2.rect = false) :=
  ⟨rfl, by decide,
    (Game.players_never_overlap gameFacing env0 { PlayerTank.new 40 720 with keyRight := true }
      { PlayerTank.new 80 720 with keyLeft := true } rfl rfl rfl ⟨rfl, rfl, rfl, rfl⟩
      ⟨rfl, rfl, rfl, rfl⟩ (by decide) (by decide) (by decide) (by decide) (by decide)).elim
      (fun _ h => h.elim (fun _ h => h.2.2.2.2.2.2.2.2.2.2))⟩

end BattleCity
